import Mathlib

/-!
# The `mpng` decoder (`libretro-sdk/formats/mpng/mpng_decode.c`)

A shallow embedding of `dword_be`, `word_be`, `mpng_parse_ihdr`, `mpng_read_plte`,
`png_decode_iterate` and `png_decode`, followed by theorems about them.

Conventions of the embedding:

* a pointer is a natural number, `0` being `NULL`; pointer arithmetic is addition of naturals;
* the input bytes are read through a byte memory `Mem` (address ↦ byte); the working buffer lives
  in a second byte memory, the heap; the memory around the block returned by the `malloc` of the
  terminating step is a third memory indexed by the signed offset from `out`, of which the block
  itself is the offsets from 0 to its size less one;
* `unsigned int` and `uint32_t` arithmetic is arithmetic modulo `2^32`, `uint8_t` modulo `2^8`;
* `png_decode_iterate` records the operand of the `return` statement it reaches (`-1`, `0`,
  `1`); the value its caller receives, after the conversion to the declared return type `bool`,
  is `iterate_returned`;
* a C function with pointer parameters returns, in a record, what it leaves behind those pointers
  together with the final values of its own copies of the parameters passed by value; the caller
  keeps only what C lets it see.
-/

namespace Mpng

/-! ## Machine arithmetic and memory -/

/-- Reduction to `uint8_t`. -/
def u8 (n : Nat) : Nat := n % 256

/-- Reduction to `uint16_t`. -/
def u16 (n : Nat) : Nat := n % 65536

/-- Reduction to `uint32_t` / `unsigned int`. -/
def u32 (n : Nat) : Nat := n % 4294967296

/-- Conversion of a mathematical integer to the 64-bit `size_t`. -/
def to_size_t (z : Int) : Nat := (z % 18446744073709551616).toNat

/-- Conversion of an `int` to `unsigned`. -/
def int_to_unsigned (z : Int) : Nat := (z % 4294967296).toNat

/-- Byte memory: address ↦ stored value; a load reduces the value to a byte. -/
abbrev Mem := Nat → Nat

/-- Load of `*(const uint8_t*)a`. -/
def load8 (m : Mem) (a : Nat) : Nat := u8 (m a)

/-- The pointer `a` into `m`, as the map from an index `i` to the byte `a[i]`. -/
def ptr (m : Mem) (a : Nat) : Nat → Nat := fun i => load8 m (a + i)

/-- The memory holding `bytes` from address `base` on (zero elsewhere). -/
def mem_of (base : Nat) (bytes : List Nat) : Mem :=
  fun a => if base ≤ a then bytes.getD (a - base) 0 else 0

/-- Source lines 13-16: `dword_be`. -/
def dword_be (buf : Nat → Nat) : Nat :=
  u32 ((buf 0 <<< 24) ||| (buf 1 <<< 16) ||| (buf 2 <<< 8) ||| (buf 3 <<< 0))

/-- Source lines 18-21: `word_be`; the return type is `uint16_t`. -/
def word_be (buf : Nat → Nat) : Nat :=
  u16 ((buf 0 <<< 16) ||| (buf 1 <<< 8) ||| (buf 2 <<< 0))

/-! ## CRC-32 -/

/-- One bit of the reflected CRC-32 division (polynomial `0xEDB88320`). -/
def crc32_bit (c : Nat) : Nat :=
  if c % 2 = 1 then (c >>> 1) ^^^ 0xEDB88320 else c >>> 1

/-- One input byte of CRC-32. -/
def crc32_byte (c b : Nat) : Nat :=
  crc32_bit (crc32_bit (crc32_bit (crc32_bit (crc32_bit (crc32_bit (crc32_bit (crc32_bit
    (c ^^^ u8 b))))))))

/-- Modelled from the spec: `mz_crc32` of miniz.c (not under src/), which the spec names as
"CRC-32 (IEEE polynomial)": the running value `crc` continued over `bytes`. The inner call
`mz_crc32(0, NULL, 0)` of the source yields the initial value `0`. -/
def mz_crc32 (crc : Nat) (bytes : List Nat) : Nat :=
  (bytes.foldl crc32_byte (u32 crc ^^^ 0xFFFFFFFF)) ^^^ 0xFFFFFFFF

/-! ## Data model -/

/-- Source lines 23-30: `enum mpng_chunk_type`. -/
def MPNG_CHUNK_TRNS : Nat := 0x74524E53

/-- Chunk type code `IHDR`. -/
def MPNG_CHUNK_IHDR : Nat := 0x49484452

/-- Chunk type code `IDAT`. -/
def MPNG_CHUNK_IDAT : Nat := 0x49444154

/-- Chunk type code `PLTE`. -/
def MPNG_CHUNK_PLTE : Nat := 0x504c5445

/-- Chunk type code `IEND`. -/
def MPNG_CHUNK_IEND : Nat := 0x49454e44

/-- Source lines 32-41: `struct mpng_ihdr`. -/
structure mpng_ihdr where
  width : Nat
  height : Nat
  depth : Nat
  color_type : Nat
  compression : Nat
  filter : Nat
  interlace : Nat
deriving DecidableEq, Repr

/-- Source lines 43-45: `mpng_magic`. -/
def mpng_magic : List Nat := [0x89, 80, 78, 71, 0x0d, 0x0a, 0x1a, 0x0a]

/-- Source lines 47-52: `struct mpng_chunk`; `data` is a pointer into the input memory. -/
structure mpng_chunk where
  size : Nat
  type : Nat
  data : Nat
deriving DecidableEq, Repr

/-- Modelled from the spec: `enum video_format` of formats/mpng.h (not under src/). The spec
names the three requested formats RGB24, XRGB32 and ARGB32; every other enumerator is
`FMT_OTHER`, carrying its own byte width. -/
inductive video_format where
  | FMT_RGB888
  | FMT_XRGB8888
  | FMT_ARGB8888
  | FMT_OTHER (bytes : Nat)
deriving DecidableEq, Repr

open video_format

/-- Modelled from the spec: `videofmt_byte_per_pixel` of formats/mpng.h (not under src/), the
spec's `bytesPerOutputPixel`: 3 for RGB24, 4 for the two 32-bit formats. The result type is
`uint8_t`. -/
def videofmt_byte_per_pixel : video_format → Nat
  | FMT_RGB888 => 3
  | FMT_XRGB8888 => 4
  | FMT_ARGB8888 => 4
  | FMT_OTHER b => u8 b

/-- Modelled from the spec: `struct mpng_image` of formats/mpng.h (not under src/), the spec's
Output Image. `pixels = none` is the null pointer; `some block` is the block allocated by the
terminating step, with its bytes at return. `format = none` is the zero left by `memset`. -/
structure mpng_image where
  width : Nat
  height : Nat
  pitch : Nat
  format : Option video_format
  pixels : Option (List Nat)
deriving DecidableEq, Repr

/-- The image after `memset(img, 0, sizeof(struct mpng_image))`. -/
def img_zero : mpng_image := ⟨0, 0, 0, none, none⟩

/-- The header after `struct mpng_ihdr ihdr = {0}`. -/
def ihdr_zero : mpng_ihdr := ⟨0, 0, 0, 0, 0, 0, 0⟩

/-! ## `mpng_parse_ihdr` -/

/-- What `mpng_parse_ihdr` leaves: its return value, `*ihdr`, `*bpl`, and the final values of its
own copies of `pixels`, `pixelsat`, `pixelsend`, which were passed by value. -/
structure parse_ihdr_result where
  ret : Bool
  ihdr : mpng_ihdr
  bpl : Nat
  pixels : Nat
  pixelsat : Nat
  pixelsend : Nat
deriving DecidableEq, Repr

/-- Source lines 96-123: the `switch (ihdr->color_type)` of `mpng_parse_ihdr`; `none` is
`return false`, `some b` the value of `*bpl` after the switch. The subtraction of 1 in
`unsigned` arithmetic is the addition of `2^32 - 1`. -/
def ihdr_switch (ihdr : mpng_ihdr) (format : video_format) (bpl : Nat) : Option Nat :=
  if ihdr.color_type = 2 then
    if ihdr.depth ≠ 8 then none
    else some (u32 (3 * ihdr.width))
  else if ihdr.color_type = 3 then
    if ihdr.depth ≠ 1 ∧ ihdr.depth ≠ 2 ∧ ihdr.depth ≠ 4 ∧ ihdr.depth ≠ 8 then none
    else some (u32 (u32 (u32 (ihdr.width * ihdr.depth) + ihdr.depth) + 4294967295) / 8)
  else if ihdr.color_type = 6 then
    if ihdr.depth ≠ 8 then none
    else if format ≠ FMT_ARGB8888 then none
    else some (u32 (4 * ihdr.width))
  else some bpl

/-- Source lines 54-134: `mpng_parse_ihdr`. `malloc` maps a requested size to the returned
pointer (`0` on failure); `m` is the input memory `chunk->data` points into. -/
def mpng_parse_ihdr (malloc : Nat → Nat) (m : Mem) (chunk : mpng_chunk) (format : video_format)
    (bpl pixels pixelsat pixelsend : Nat) : parse_ihdr_result :=
  let ihdr : mpng_ihdr :=
    { width := dword_be (ptr m (chunk.data + 0))
      height := dword_be (ptr m (chunk.data + 4))
      depth := ptr m chunk.data 8
      color_type := ptr m chunk.data 9
      compression := ptr m chunk.data 10
      filter := ptr m chunk.data 11
      interlace := ptr m chunk.data 12 }
  let fail : parse_ihdr_result := ⟨false, ihdr, bpl, pixels, pixelsat, pixelsend⟩
  if ihdr.width = 0 ∨ ihdr.height = 0 then fail
  else if ihdr.width ≥ 0x80000000 then fail
  else if ihdr.height ≥ 0x80000000 then fail
  else if ihdr.color_type ≠ 2 ∧ ihdr.color_type ≠ 3 ∧ ihdr.color_type ≠ 6 then fail
  else if ihdr.compression ≠ 0 then fail
  else if ihdr.filter ≠ 0 then fail
  else if ihdr.interlace ≠ 0 ∧ ihdr.interlace ≠ 1 then fail
  else
    match ihdr_switch ihdr format bpl with
    | none => fail
    | some bpl1 =>
      let pixels1 := malloc (u32 ((bpl1 + 1) * ihdr.height))
      if pixels1 = 0 then ⟨false, ihdr, bpl1, pixels1, pixelsat, pixelsend⟩
      else ⟨true, ihdr, bpl1, pixels1, pixels1, pixels1 + u32 ((bpl1 + 1) * ihdr.height)⟩

/-! ## `mpng_read_plte` -/

/-- What `mpng_read_plte` leaves: its return value and the table behind `buffer`. -/
structure read_plte_result where
  ret : Bool
  buffer : Nat → Nat

/-- Source line 159: the palette entry built from one triplet. -/
def plte_entry (r g b : Nat) : Nat :=
  u32 ((r <<< 16) ||| (g <<< 8) ||| (b <<< 0) ||| (0xff <<< 24))

/-- Source lines 136-163: `mpng_read_plte`; `entries` is passed by value. -/
def mpng_read_plte (m : Mem) (ihdr : mpng_ihdr) (chunk : mpng_chunk) (pixels : Nat)
    (buffer : Nat → Nat) (entries : Nat) : read_plte_result :=
  if chunk.size % 3 ≠ 0 then ⟨false, buffer⟩
  else if pixels = 0 ∨ entries ≠ 0 then ⟨false, buffer⟩
  else if chunk.size = 0 ∨ chunk.size > 3 * 256 then ⟨false, buffer⟩
  else if ihdr.color_type ≠ 3 then ⟨true, buffer⟩
  else
    ⟨true, (List.range entries).foldl
      (fun buf i => Function.update buf i
        (plte_entry (ptr m chunk.data (3 * i + 0)) (ptr m chunk.data (3 * i + 1))
          (ptr m chunk.data (3 * i + 2))))
      buffer⟩

/-! ## The decompressor and the environment -/

/-- What one call of `tinfl_decompress` leaves: its status, the bytes it stored from
`pOut_buf_next` on (their number is the value left in `*pOut_buf_size`), and the decompressor
state. -/
structure tinfl_result (σ : Type) where
  status : Int
  produced : List Nat
  next : σ

/-- The status `TINFL_STATUS_DONE` of miniz.c (not under src/); failures are below it, requests
for more input or more output space above it. -/
def TINFL_STATUS_DONE : Int := 0

/-- The flag `TINFL_FLAG_PARSE_ZLIB_HEADER` of miniz.c (not under src/). -/
def TINFL_FLAG_PARSE_ZLIB_HEADER : Nat := 1

/-- The flag `TINFL_FLAG_HAS_MORE_INPUT` of miniz.c (not under src/). -/
def TINFL_FLAG_HAS_MORE_INPUT : Nat := 2

/-- The flag `TINFL_FLAG_USING_NON_WRAPPING_OUTPUT_BUF` of miniz.c (not under src/). -/
def TINFL_FLAG_USING_NON_WRAPPING_OUTPUT_BUF : Nat := 4

/-- Everything the decoder takes from outside the two source functions: the allocator, the
decompressor (the build with `WANT_MINIZ`), and the indeterminate initial contents of
uninitialised storage. `tinfl_decompress st heap input start next avail flags` is the call
`tinfl_decompress(inflator, input, &len, start, next, &avail, flags)`, `input = none` being the
null input pointer. -/
structure Env (σ : Type) where
  malloc : Nat → Nat
  tinfl_init : σ
  tinfl_decompress : σ → Mem → Option (List Nat) → Nat → Nat → Nat → Nat → tinfl_result σ
  bpl_init : Nat
  heap_init : Mem
  out_init : Int → Nat

/-- What `png_decode_iterate` reaches through its pointer parameters (`ihdr`, `img`, `palette`,
`bpl`, `palette_len`, `inflator`), and the heap holding the working buffer. -/
structure by_ref (σ : Type) where
  ihdr : mpng_ihdr
  img : mpng_image
  palette : Nat → Nat
  bpl : Nat
  palette_len : Int
  inflator : σ
  heap : Mem

/-- The parameters of `png_decode_iterate` passed by value that it assigns to: its own copies of
the read cursor and of the three working-buffer pointers. -/
structure by_val where
  data : Nat
  pixels : Nat
  pixelsat : Nat
  pixelsend : Nat
deriving DecidableEq, Repr

/-- What a call of `png_decode_iterate` leaves: in `ret` the operand of the `return` statement
reached (`-1`, `0` or `1`), which is not yet the value the caller receives (the function is
declared `bool`, see `iterate_returned`), the state behind the pointer parameters, and the final
values of the callee's own by-value copies. -/
structure iterate_result (σ : Type) where
  ret : Int
  refs : by_ref σ
  vals : by_val

/-- The bytes `produced` stored from address `at_` on. -/
def heap_store (heap : Mem) (at_ : Nat) (produced : List Nat) : Mem :=
  fun a => if at_ ≤ a ∧ a < at_ + produced.length then produced.getD (a - at_) 0 else heap a

/-! ## The scanline filters (source lines 305-404) -/

/-- The memory around the pointer `out`, addressed by the signed byte offset from `out`. The
block that `malloc` returned for `out` is the offsets `0` to `out_size - 1` only; the map also
gives a value to the stores and loads outside these offsets that the code performs, which in C
are out of bounds. -/
abbrev OutMem := Int → Nat

/-- Store of one `uint8_t` at offset `p`. -/
def store8 (o : OutMem) (p : Int) (v : Nat) : OutMem :=
  fun q => if q = p then u8 v else o q

/-- Load of one `uint8_t` at offset `p`. -/
def oload8 (o : OutMem) (p : Int) : Nat := u8 (o p)

/-- The loop `for (x = lo; x < hi; x++) body`. -/
def for_loop {α : Type} (lo hi : Nat) (body : Nat → α → α) (s : α) : α :=
  (List.range (hi - lo)).foldl (fun s k => body (lo + k) s) s

/-- The call `memcpy(out + dst, src, n)` from the heap into the output block. -/
def memcpy_in (heap : Mem) (o : OutMem) (dst : Int) (src n : Nat) : OutMem :=
  for_loop 0 n (fun i o => store8 o (dst + i) (load8 heap (src + i))) o

/-- The call `memset(out + dst, 0, n)`. -/
def memset_zero (o : OutMem) (dst : Int) (n : Nat) : OutMem :=
  for_loop 0 n (fun i o => store8 o (dst + i) 0) o

/-- Source lines 361-371 and 384-394: the Paeth choice among `a`, `b`, `c` over `int`. -/
def paeth_prediction (a b c : Int) : Int :=
  let p := a + b - c
  let pa := (p - a).natAbs
  let pb := (p - b).natAbs
  let pc := (p - c).natAbs
  if pa ≤ pb ∧ pa ≤ pc then a
  else if pb ≤ pc then b
  else c

/-- Conversion of an `int` to `uint8_t`. -/
def int_to_u8 (z : Int) : Nat := (z % 256).toNat

/-- Source lines 323-401: the `switch (*(filteredline++))` for one scanline; `tag` is the byte
read, `fl` the value of `filteredline` after the increment, `thisout` and `prevout` offsets from
`out`. `none` is the `default: return -1`. -/
def unfilter_line (heap : Mem) (bpl bpp_packed : Nat) (tag : Nat) (fl : Nat)
    (thisout prevout : Int) (o : OutMem) : Option OutMem :=
  if tag = 0 then
    some (memcpy_in heap o thisout fl bpl)
  else if tag = 1 then
    some (for_loop bpp_packed bpl
      (fun x o => store8 o (thisout + x)
        (oload8 o (thisout + x - bpp_packed) + load8 heap (fl + x)))
      (memcpy_in heap o thisout fl bpp_packed))
  else if tag = 2 then
    some (for_loop 0 bpl
      (fun x o => store8 o (thisout + x) (oload8 o (prevout + x) + load8 heap (fl + x))) o)
  else if tag = 3 then
    some (for_loop bpp_packed bpl
      (fun x o => store8 o (thisout + x)
        ((oload8 o (thisout + x - bpp_packed) + oload8 o (prevout + x)) / 2
          + load8 heap (fl + x)))
      (for_loop 0 bpp_packed
        (fun x o => store8 o (thisout + x) ((0 + oload8 o (prevout + x)) / 2 + load8 heap (fl + x)))
        o))
  else if tag = 4 then
    some (for_loop bpp_packed bpl
      (fun x o => store8 o (thisout + x)
        (int_to_u8 (load8 heap (fl + x) +
          paeth_prediction (oload8 o (thisout + x - bpp_packed)) (oload8 o (prevout + x))
            (oload8 o (prevout + x - bpp_packed)))))
      (for_loop 0 bpp_packed
        (fun x o => store8 o (thisout + x)
          (int_to_u8 (load8 heap (fl + x) + paeth_prediction 0 (oload8 o (prevout + x)) 0)))
        o))
  else none

/-- The variables carried round the scanline loop. -/
structure unfilter_state where
  out : OutMem
  prevout : Int
  filteredline : Nat

/-- Source lines 319-404: one pass of the body of `for (y = 0; y < ihdr->height; y++)`. -/
def unfilter_row (heap : Mem) (bpl bpp_packed : Nat) (y : Nat) (s : unfilter_state) :
    Option unfilter_state :=
  let thisout : Int := u32 (bpl * y)
  let tag := load8 heap s.filteredline
  let fl := s.filteredline + 1
  match unfilter_line heap bpl bpp_packed tag fl thisout s.prevout s.out with
  | none => none
  | some o => some ⟨o, thisout, fl + bpl⟩

/-- Source lines 319-404: the scanline loop; `none` is `return -1`. -/
def unfilter_rows (heap : Mem) (bpl bpp_packed height : Nat) (s : unfilter_state) :
    Option unfilter_state :=
  for_loop 0 height (fun y s => s.bind (unfilter_row heap bpl bpp_packed y)) (some s)

/-! ## Palette and 32-bit expansion (source lines 406-528) -/

/-- Number of passes of `do { ... } while (c)` whose body decrements the 32-bit counter once,
entered with the counter at `c` (two's complement wrap-around when entered at `0`). -/
def do_while_passes (c : Nat) : Nat := if u32 c = 0 then 4294967296 else u32 c

/-- The loop `do { body; c--; } while (c)`: `body` receives the value the counter has when the
pass begins. -/
def do_while {α : Type} (c : Nat) (body : Nat → α → α) (s : α) : α :=
  (List.range (do_while_passes c)).foldl (fun s k => body (u32 (u32 c + 4294967296 - k)) s) s

/-- The output block with the read cursor `inp` and the write cursor `outp` of the expansion
loops, both as byte offsets from `out`. -/
structure unpack_state where
  out : OutMem
  inp : Int
  outp : Int

/-- The stores `*(--outp) = rgb32 >> 0; *(--outp) = rgb32 >> 8; *(--outp) = rgb32 >> 16;` for the
palette entry `rgb32` (the low byte of an arithmetic shift of the `int` is the corresponding byte
of the 32-bit pattern). -/
def put_rgb (rgb32 : Nat) (s : unpack_state) : unpack_state :=
  let o1 := store8 s.out (s.outp - 1) (u32 rgb32 >>> 0)
  let o2 := store8 o1 (s.outp - 2) (u32 rgb32 >>> 8)
  let o3 := store8 o2 (s.outp - 3) (u32 rgb32 >>> 16)
  { s with out := o3, outp := s.outp - 3 }

/-- Source lines 415-438: `case 1` of the palette expansion. -/
def unpack_depth1 (palette : Nat → Nat) (ihdr : mpng_ihdr) (bpl : Nat) (o : OutMem) : OutMem :=
  (do_while ihdr.height
    (fun y s =>
      do_while (u32 (ihdr.width + 7) / 8)
        (fun _ t =>
          for_loop 0 8
            (fun b t => put_rgb (palette ((oload8 t.out t.inp >>> b) &&& 1)) t)
            { t with inp := t.inp - 1 })
        { s with inp := (u32 (y * bpl) : Int) })
    (⟨o, 0, (u32 (3 * ihdr.width * ihdr.height) : Int)⟩ : unpack_state)).out

/-- Source lines 439-463: `case 2` of the palette expansion. -/
def unpack_depth2 (palette : Nat → Nat) (ihdr : mpng_ihdr) (bpl : Nat) (o : OutMem) : OutMem :=
  (do_while ihdr.height
    (fun y s =>
      do_while (u32 (ihdr.width + 3) / 4)
        (fun _ t =>
          for_loop 0 4
            (fun k t => put_rgb (palette ((oload8 t.out t.inp >>> (2 * k)) &&& 3)) t)
            { t with inp := t.inp - 1 })
        { s with inp := (u32 (y * bpl) : Int) })
    (⟨o, 0, (u32 (3 * ihdr.width * ihdr.height) : Int)⟩ : unpack_state)).out

/-- Source lines 464-492: `case 4` of the palette expansion. -/
def unpack_depth4 (palette : Nat → Nat) (ihdr : mpng_ihdr) (bpl : Nat) (o : OutMem) : OutMem :=
  (do_while ihdr.height
    (fun y s =>
      do_while (u32 (ihdr.width + 1) / 2)
        (fun _ t =>
          let t1 : unpack_state := { t with inp := t.inp - 1 }
          let t2 := put_rgb (palette (oload8 t1.out t1.inp &&& 15)) t1
          put_rgb (palette (oload8 t2.out t2.inp >>> 4)) t2)
        { s with inp := (u32 (y * bpl) : Int) })
    (⟨o, 0, (u32 (3 * ihdr.width * ihdr.height) : Int)⟩ : unpack_state)).out

/-- Source lines 493-510: `case 8` of the palette expansion. -/
def unpack_depth8 (palette : Nat → Nat) (ihdr : mpng_ihdr) (o : OutMem) : OutMem :=
  (do_while (u32 (ihdr.width * ihdr.height))
    (fun _ t =>
      let t1 : unpack_state := { t with inp := t.inp - 1 }
      put_rgb (palette (oload8 t1.out t1.inp)) t1)
    (⟨o, (u32 (ihdr.width * ihdr.height) : Int),
      (u32 (3 * ihdr.width * ihdr.height) : Int)⟩ : unpack_state)).out

/-- Source lines 411-512: `if (ihdr->color_type == 3) switch (ihdr->depth)`. -/
def unpack_paletted (palette : Nat → Nat) (ihdr : mpng_ihdr) (bpl : Nat) (o : OutMem) : OutMem :=
  if ihdr.color_type = 3 then
    if ihdr.depth = 1 then unpack_depth1 palette ihdr bpl o
    else if ihdr.depth = 2 then unpack_depth2 palette ihdr bpl o
    else if ihdr.depth = 4 then unpack_depth4 palette ihdr bpl o
    else if ihdr.depth = 8 then unpack_depth8 palette ihdr o
    else o
  else o

/-- Store of one `uint32_t` at byte offset `p` (little-endian byte order). -/
def store32 (o : OutMem) (p : Int) (v : Nat) : OutMem :=
  store8 (store8 (store8 (store8 o p (u32 v >>> 0)) (p + 1) (u32 v >>> 8)) (p + 2) (u32 v >>> 16))
    (p + 3) (u32 v >>> 24)

/-- Load of one `uint32_t` at byte offset `p` (little-endian byte order). -/
def oload32 (o : OutMem) (p : Int) : Nat :=
  oload8 o p ||| (oload8 o (p + 1) <<< 8) ||| (oload8 o (p + 2) <<< 16)
    ||| (oload8 o (p + 3) <<< 24)

/-- Source lines 514-528: the expansion of RGB triplets to 32-bit pixels; `outp` counts bytes. -/
def unpack_32bpp (ihdr : mpng_ihdr) (o : OutMem) : OutMem :=
  (do_while (u32 (ihdr.width * ihdr.height))
    (fun _ t =>
      let inp := t.inp - 3
      let outp := t.outp - 4
      let w := word_be (fun i => oload8 t.out (inp + i)) ||| 0xFF000000
      ({ out := store32 t.out outp w, inp := inp, outp := outp } : unpack_state))
    (⟨o, (u32 (ihdr.width * ihdr.height * 3) : Int),
      4 * (u32 (ihdr.width * ihdr.height) : Int)⟩ : unpack_state)).out

/-- Source line 306: `bpp_packed`. -/
def bpp_packed (ihdr : mpng_ihdr) : Nat :=
  if ihdr.color_type = 2 then 3 else if ihdr.color_type = 6 then 4 else 1

/-- Source lines 307-312: the offset of `prevout` from `out` before the scanline loop. -/
def prevout_init (ihdr : mpng_ihdr) : Int :=
  if ihdr.height = 1 then 0 else (u32 (4 * ihdr.width * 1) : Int)

/-- Source line 298: the size passed to `malloc` for `out`. -/
def out_size (ihdr : mpng_ihdr) (format : video_format) : Nat :=
  u32 (videofmt_byte_per_pixel format * ihdr.width * ihdr.height)

/-- Source lines 305-528: the contents of the output block after the filters and the two
expansions; `none` is the `return -1` of an unknown filter tag. -/
def out_final (out_init : OutMem) (heap : Mem) (ihdr : mpng_ihdr) (bpl : Nat)
    (palette : Nat → Nat) (format : video_format) (pixels : Nat) : Option OutMem :=
  let o := memset_zero out_init (prevout_init ihdr) (u32 (4 * ihdr.width * 1))
  match unfilter_rows heap bpl (bpp_packed ihdr) ihdr.height ⟨o, prevout_init ihdr, pixels⟩ with
  | none => none
  | some s =>
    let o1 := unpack_paletted palette ihdr bpl s.out
    some (if format ≠ FMT_RGB888 ∧ ihdr.color_type = 2 then unpack_32bpp ihdr o1 else o1)

/-- Source lines 298-536: the part of the terminating step from the allocation of `out` to
`return 1`; `none` is `return -1`, `some img` the image stored through `img`. -/
def finish_image {σ : Type} (E : Env σ) (heap : Mem) (ihdr : mpng_ihdr) (bpl : Nat)
    (palette : Nat → Nat) (format : video_format) (pixels : Nat) : Option mpng_image :=
  if E.malloc (out_size ihdr format) = 0 then none
  else
    match out_final E.out_init heap ihdr bpl palette format pixels with
    | none => none
    | some o =>
      some
        { width := ihdr.width
          height := ihdr.height
          pixels := some ((List.range (out_size ihdr format)).map (fun i => oload8 o i))
          pitch := u32 (videofmt_byte_per_pixel format * ihdr.width)
          format := some format }

/-! ## `png_decode_iterate` -/

/-- The `len` bytes from address `a` on, as passed to `mz_crc32` and to the decompressor. -/
def bytes_at (m : Mem) (a len : Nat) : List Nat := (List.range len).map (ptr m a)

/-- Source lines 201-205: `case MPNG_CHUNK_IHDR`. The three buffer pointers are handed to
`mpng_parse_ihdr` by value, so the values it assigns to them are discarded at its return. -/
def case_IHDR {σ : Type} (E : Env σ) (m : Mem) (chunk : mpng_chunk) (r : by_ref σ)
    (format : video_format) (v : by_val) : iterate_result σ :=
  let p := mpng_parse_ihdr E.malloc m chunk format r.bpl v.pixels v.pixelsat v.pixelsend
  let r1 : by_ref σ := { r with ihdr := p.ihdr, bpl := p.bpl }
  if p.ret = false then ⟨-1, r1, v⟩ else ⟨0, r1, v⟩

/-- Source lines 206-210: `case MPNG_CHUNK_PLTE`. -/
def case_PLTE {σ : Type} (m : Mem) (chunk : mpng_chunk) (r : by_ref σ) (v : by_val) :
    iterate_result σ :=
  let palette_len : Int := (chunk.size / 3 : Nat)
  let q := mpng_read_plte m r.ihdr chunk v.pixels r.palette (int_to_unsigned palette_len)
  let r1 : by_ref σ := { r with palette_len := palette_len, palette := q.buffer }
  if q.ret = false then ⟨-1, r1, v⟩ else ⟨0, r1, v⟩

/-- Source lines 211-225: `case MPNG_CHUNK_TRNS`. -/
def case_TRNS {σ : Type} (r : by_ref σ) (format : video_format) (v : by_val) :
    iterate_result σ :=
  if format ≠ FMT_ARGB8888 ∨ v.pixels = 0 ∨ v.pixels ≠ v.pixelsat then ⟨-1, r, v⟩
  else if r.ihdr.color_type = 2 then
    if r.palette_len = 0 then ⟨-1, r, v⟩ else ⟨-1, r, v⟩
  else if r.ihdr.color_type = 3 then ⟨-1, r, v⟩
  else ⟨-1, r, v⟩

/-- Source lines 226-258: `case MPNG_CHUNK_IDAT`. -/
def case_IDAT {σ : Type} (E : Env σ) (m : Mem) (chunk : mpng_chunk) (r : by_ref σ) (v : by_val) :
    iterate_result σ :=
  if v.pixels = 0 ∨ (r.ihdr.color_type = 3 ∧ r.palette_len = 0) then ⟨-1, r, v⟩
  else
    let byteshere := to_size_t (((v.pixelsend : Int) - (v.pixelsat : Int)) + 1)
    let t := E.tinfl_decompress r.inflator r.heap (some (bytes_at m chunk.data chunk.size))
      v.pixels v.pixelsat byteshere
      (TINFL_FLAG_HAS_MORE_INPUT ||| TINFL_FLAG_USING_NON_WRAPPING_OUTPUT_BUF
        ||| TINFL_FLAG_PARSE_ZLIB_HEADER)
    let r1 : by_ref σ := { r with inflator := t.next, heap := heap_store r.heap v.pixelsat t.produced }
    let v1 : by_val := { v with pixelsat := v.pixelsat + t.produced.length }
    if t.status < TINFL_STATUS_DONE then ⟨-1, r1, v1⟩ else ⟨0, r1, v1⟩

/-- Source lines 259-537: `case MPNG_CHUNK_IEND`; `v.data` is the cursor already moved past the
chunk. -/
def case_IEND {σ : Type} (E : Env σ) (data_end : Nat) (chunk : mpng_chunk) (r : by_ref σ)
    (format : video_format) (v : by_val) : iterate_result σ :=
  if v.data ≠ data_end then ⟨-1, r, v⟩
  else if chunk.size ≠ 0 then ⟨-1, r, v⟩
  else
    let finalbytes := to_size_t ((v.pixelsend : Int) - (v.pixelsat : Int))
    let t := E.tinfl_decompress r.inflator r.heap none v.pixels v.pixelsat finalbytes
      (TINFL_FLAG_USING_NON_WRAPPING_OUTPUT_BUF ||| TINFL_FLAG_PARSE_ZLIB_HEADER)
    let r1 : by_ref σ := { r with inflator := t.next, heap := heap_store r.heap v.pixelsat t.produced }
    let v1 : by_val := { v with pixelsat := v.pixelsat + t.produced.length }
    if t.status < TINFL_STATUS_DONE then ⟨-1, r1, v1⟩
    else if t.status > TINFL_STATUS_DONE then ⟨-1, r1, v1⟩
    else if v1.pixelsat ≠ v1.pixelsend then ⟨-1, r1, v1⟩
    else
      match finish_image E r1.heap r1.ihdr r1.bpl r1.palette format v1.pixels with
      | none => ⟨-1, r1, v1⟩
      | some img => ⟨1, { r1 with img := img }, v1⟩

/-- Source lines 199-545: the `switch (chunk.type)` and the final `return 0`. -/
def dispatch {σ : Type} (E : Env σ) (m : Mem) (data_end : Nat) (chunk : mpng_chunk)
    (r : by_ref σ) (format : video_format) (v : by_val) : iterate_result σ :=
  if chunk.type = MPNG_CHUNK_IHDR then case_IHDR E m chunk r format v
  else if chunk.type = MPNG_CHUNK_PLTE then case_PLTE m chunk r v
  else if chunk.type = MPNG_CHUNK_TRNS then case_TRNS r format v
  else if chunk.type = MPNG_CHUNK_IDAT then case_IDAT E m chunk r v
  else if chunk.type = MPNG_CHUNK_IEND then case_IEND E data_end chunk r format v
  else if chunk.type &&& 0x20000000 = 0 then ⟨-1, r, v⟩
  else ⟨0, r, v⟩

/-- Source lines 165-546: `png_decode_iterate`. `data`, `pixels`, `pixelsat` and `pixelsend` are
passed by value; `r` is the state behind the pointer parameters. The field `ret` of the result
is the operand of the `return` statement reached; the value handed to the caller, after the
conversion to the declared return type `bool`, is `iterate_returned`. -/
def png_decode_iterate {σ : Type} (E : Env σ) (m : Mem) (data data_end : Nat) (r : by_ref σ)
    (format : video_format) (pixels pixelsat pixelsend : Nat) : iterate_result σ :=
  let v : by_val := ⟨data, pixels, pixelsat, pixelsend⟩
  if data + 4 + 4 > data_end then ⟨-1, r, v⟩
  else
    let size := dword_be (ptr m data)
    let type := dword_be (ptr m (data + 4))
    if size ≥ 0x80000000 then ⟨-1, r, v⟩
    else if data + 4 + size + 4 > data_end then ⟨-1, r, v⟩
    else
      let chunkchecksum := u32 (mz_crc32 (mz_crc32 0 []) (bytes_at m (data + 4) (4 + size)))
      let chunk : mpng_chunk := ⟨size, type, data + 4 + 4⟩
      let actualchunkchecksum := dword_be (ptr m (data + 4 + 4 + size))
      if actualchunkchecksum ≠ chunkchecksum then ⟨-1, r, v⟩
      else dispatch E m data_end chunk r format { v with data := data + 4 + 4 + size + 4 }

/-- Source lines 179-195: the addresses of the input bytes that `png_decode_iterate` reads up to
and including the comparison of the two checksums, in the order of the source: the two
`dword_be` of the record head, the bytes handed to `mz_crc32`, the `dword_be` of the trailing
checksum. -/
def iterate_reads (m : Mem) (data data_end : Nat) : List Nat :=
  if data + 4 + 4 > data_end then []
  else
    let size := dword_be (ptr m data)
    let head := (List.range 8).map (fun i => data + i)
    if size ≥ 0x80000000 then head
    else if data + 4 + size + 4 > data_end then head
    else
      head ++ (List.range (4 + size)).map (fun i => data + 4 + i)
        ++ (List.range 4).map (fun i => data + 4 + 4 + size + i)

/-! ## `png_decode` -/

/-- The conversion of the returned `int` to the declared return type `bool` of
`png_decode_iterate`, read back as the `int ret` of `png_decode`: `bool` is that of
`<boolean.h>` (not under src/), taken as the C99 `_Bool`, for which every nonzero value
converts to 1. -/
def to_bool (v : Int) : Int := if v = 0 then 0 else 1

/-- The value that a call of `png_decode_iterate` hands to its caller: the operand of the
`return` statement reached, converted to the declared return type `bool` (source line 165).
`return -1` and `return 1` both hand over 1 (true); `return 0` hands over 0. -/
def iterate_returned {σ : Type} (it : iterate_result σ) : Int := to_bool it.ret

/-- What `png_decode` leaves: its return value and the image behind `img`. -/
structure decode_result where
  ret : Bool
  img : mpng_image
deriving DecidableEq, Repr

/-- Source lines 588-612: the loop `while (1)` of `png_decode` and the label `error`, run for at
most `fuel` calls of `png_decode_iterate`; `none` means the loop is still running when the fuel
is spent. The arguments `data`, `pixels`, `pixelsat`, `pixelsend` are the variables of
`png_decode`, which no statement of the loop assigns to. -/
def png_decode_loop {σ : Type} (E : Env σ) (m : Mem) (data data_end : Nat)
    (format : video_format) (pixels pixelsat pixelsend : Nat) :
    Nat → by_ref σ → Option decode_result
  | 0, _ => none
  | fuel + 1, r =>
    let it := png_decode_iterate E m data data_end r format pixels pixelsat pixelsend
    let ret := to_bool it.ret
    if ret = -1 then some ⟨false, img_zero⟩
    else if ret = 1 then some ⟨true, it.refs.img⟩
    else png_decode_loop E m data data_end format pixels pixelsat pixelsend fuel it.refs

/-- Source lines 551-586: the variables of `png_decode` that the steps reach through pointers,
as they stand when the loop is entered (`bpl` is declared without an initialiser). -/
def init_refs {σ : Type} (E : Env σ) : by_ref σ :=
  { ihdr := ihdr_zero
    img := img_zero
    palette := fun _ => 0
    bpl := E.bpl_init
    palette_len := 0
    inflator := E.tinfl_init
    heap := E.heap_init }

/-- Source lines 548-613: `png_decode(userdata, len, img, format)`, the loop run with `fuel`;
`m` is the memory `userdata` points into and `img` the image found behind the pointer `img`.
The loop is entered with `pixels`, `pixelsat` and `pixelsend` null. -/
def png_decode {σ : Type} (E : Env σ) (fuel : Nat) (m : Mem) (userdata len : Nat)
    (img : mpng_image) (format : video_format) : Option decode_result :=
  if userdata = 0 then some ⟨false, img⟩
  else if format ≠ FMT_RGB888 ∧ format ≠ FMT_XRGB8888 ∧ format ≠ FMT_ARGB8888 then
    some ⟨false, img_zero⟩
  else if len < 8 then some ⟨false, img_zero⟩
  else if bytes_at m userdata 8 ≠ mpng_magic then some ⟨false, img_zero⟩
  else
    png_decode_loop E m (userdata + 8) (userdata + len) format 0 0 0 fuel (init_refs E)

/-! ## The header rules in the words of the spec -/

/-- The header rules of section 4.2 of the spec, in its words: width and height nonzero and
below `2^31`; compression method 0; filter method 0; interlace method 0 (the interlaced value 1
is rejected); Truecolor (2) with bit depth 8, Indexed (3) with bit depth 1, 2, 4 or 8,
TruecolorAlpha (6) with bit depth 8 and a requested format that supports alpha; every other
colour mode rejected. -/
def header_accepted_spec (w h depth color compression filter interlace : Nat)
    (format : video_format) : Prop :=
  w ≠ 0 ∧ h ≠ 0 ∧ w < 2 ^ 31 ∧ h < 2 ^ 31 ∧ compression = 0 ∧ filter = 0 ∧ interlace = 0 ∧
    ((color = 2 ∧ depth = 8) ∨ (color = 3 ∧ (depth = 1 ∨ depth = 2 ∨ depth = 4 ∨ depth = 8))
      ∨ (color = 6 ∧ depth = 8 ∧ format = FMT_ARGB8888))

instance (w h depth color compression filter interlace : Nat) (format : video_format) :
    Decidable (header_accepted_spec w h depth color compression filter interlace format) := by
  unfold header_accepted_spec
  infer_instance

/-! ## Concrete inputs -/

/-- Scenario A: the 69-byte file of a 1x1 Truecolor image, depth 8, whose only scanline carries
filter tag 0 and the pixel (10, 20, 30): signature, IHDR, IDAT (the zlib stream of the bytes
0, 10, 20, 30), IEND, every chunk with its correct CRC-32. -/
def png_A : List Nat :=
  [137, 80, 78, 71, 13, 10, 26, 10,
   0, 0, 0, 13, 73, 72, 68, 82, 0, 0, 0, 1, 0, 0, 0, 1, 8, 2, 0, 0, 0, 144, 119, 83, 222,
   0, 0, 0, 12, 73, 68, 65, 84, 120, 156, 99, 224, 18, 145, 3, 0, 0, 104, 0, 61, 84, 8, 163, 247,
   0, 0, 0, 0, 73, 69, 78, 68, 174, 66, 96, 130]

/-- The file of scenario A with the last byte of the header chunk's CRC-32 changed from 222 to
223. -/
def png_A_bad_crc : List Nat :=
  [137, 80, 78, 71, 13, 10, 26, 10,
   0, 0, 0, 13, 73, 72, 68, 82, 0, 0, 0, 1, 0, 0, 0, 1, 8, 2, 0, 0, 0, 144, 119, 83, 223,
   0, 0, 0, 12, 73, 68, 65, 84, 120, 156, 99, 224, 18, 145, 3, 0, 0, 104, 0, 61, 84, 8, 163, 247,
   0, 0, 0, 0, 73, 69, 78, 68, 174, 66, 96, 130]

/-- Scenario B: the 87-byte file of a 2x2 Indexed image, depth 8, palette (255,0,0), (0,255,0),
indices 0, 1, 1, 0 with filter tag 0 on both scanlines: signature, IHDR, PLTE, IDAT, IEND, every
chunk with its correct CRC-32. The PLTE record starts at offset 33. -/
def png_B : List Nat :=
  [137, 80, 78, 71, 13, 10, 26, 10,
   0, 0, 0, 13, 73, 72, 68, 82, 0, 0, 0, 2, 0, 0, 0, 2, 8, 3, 0, 0, 0, 69, 104, 253, 22,
   0, 0, 0, 6, 80, 76, 84, 69, 255, 0, 0, 0, 255, 0, 210, 135, 239, 113,
   0, 0, 0, 12, 73, 68, 65, 84, 120, 156, 99, 96, 96, 4, 66, 0, 0, 12, 0, 3, 43, 99, 203, 80,
   0, 0, 0, 0, 73, 69, 78, 68, 174, 66, 96, 130]

/-- Twenty bytes of memory: the signature, then the first 8 bytes of an empty chunk of the
unknown ancillary type `tEXt`, then the 4 bytes of that chunk's CRC-32. An input of length 16
ends before the CRC-32. -/
def mem_truncated : List Nat :=
  [137, 80, 78, 71, 13, 10, 26, 10, 0, 0, 0, 0, 116, 69, 88, 116, 150, 66, 197, 133]

/-- A 13-byte header payload: width, height (big-endian), depth, colour type, compression,
filter, interlace. -/
def ihdr_payload (w3 w2 w1 w0 h3 h2 h1 h0 depth color compression filter interlace : Nat) :
    List Nat :=
  [w3, w2, w1, w0, h3, h2, h1, h0, depth, color, compression, filter, interlace]

/-- An environment in which every allocation succeeds (at address 4096) and the decompressor
returns the filtered stream 0, 10, 20, 30 of scenario A for a data chunk and nothing more at the
final flush, with status `TINFL_STATUS_DONE`. -/
def env_A : Env Unit :=
  { malloc := fun _ => 4096
    tinfl_init := ()
    tinfl_decompress := fun st _ input _ _ avail _ =>
      match input with
      | some _ => ⟨0, [0, 10, 20, 30].take avail, st⟩
      | none => ⟨0, [], st⟩
    bpl_init := 0
    heap_init := fun _ => 0
    out_init := fun _ => 0 }

/-! ## A well-framed record -/

/-- Source lines 179-195: the record at `data` passes the three bounds checks of
`png_decode_iterate` (none of their conditions holds) and its trailing checksum equals the
CRC-32 computed over its type tag and payload. -/
def frame_ok (m : Mem) (data data_end : Nat) : Prop :=
  ¬(data + 4 + 4 > data_end) ∧ ¬(dword_be (ptr m data) ≥ 0x80000000)
    ∧ ¬(data + 4 + dword_be (ptr m data) + 4 > data_end)
    ∧ dword_be (ptr m (data + 4 + 4 + dword_be (ptr m data)))
        = u32 (mz_crc32 (mz_crc32 0 []) (bytes_at m (data + 4) (4 + dword_be (ptr m data))))

instance (m : Mem) (data data_end : Nat) : Decidable (frame_ok m data data_end) := by
  unfold frame_ok
  infer_instance

/-- The values of the by-value copies of `png_decode_iterate` once the record at `data` has been
framed: the cursor moved past the record (line 197), the buffer pointers as passed. -/
def vals_after (m : Mem) (data pixels pixelsat pixelsend : Nat) : by_val :=
  ⟨data + 4 + 4 + dword_be (ptr m data) + 4, pixels, pixelsat, pixelsend⟩

/-- The first `n` bytes of the output block. -/
def block_of (o : OutMem) (n : Nat) : List Nat := (List.range n).map (fun i => oload8 o i)

/-- The 32-bit word read at pixel `i` of a block of 4-byte pixels (little-endian byte order). -/
def pixel_word (block : List Nat) (i : Nat) : Nat :=
  block.getD (4 * i) 0 ||| (block.getD (4 * i + 1) 0 <<< 8) ||| (block.getD (4 * i + 2) 0 <<< 16)
    ||| (block.getD (4 * i + 3) 0 <<< 24)

/-! ## The scanline filters in the words of the spec -/

/-- Section 4.6 of the spec: `predictor(a, b, c)` picks whichever of `a`, `b`, `c` minimizes
`|a + b - c - candidate|`, ties broken in the order `a`, `b`, `c`. -/
def predictor_spec (a b c : Nat) : Nat :=
  let p : Int := (a : Int) + (b : Int) - (c : Int)
  let da := (p - (a : Int)).natAbs
  let db := (p - (b : Int)).natAbs
  let dc := (p - (c : Int)).natAbs
  if da ≤ db ∧ da ≤ dc then a
  else if db ≤ dc then b
  else c

/-- Section 4.6 of the spec, step 2: the prediction for one byte under filter `tag`, from the
byte `a` to the left, the byte `b` above and the byte `c` above-left: None 0, Sub `a`, Up `b`,
Average `floor((a + b) / 2)`, Paeth `predictor(a, b, c)`. -/
def prediction_spec (tag a b c : Nat) : Nat :=
  if tag = 1 then a
  else if tag = 2 then b
  else if tag = 3 then (a + b) / 2
  else if tag = 4 then predictor_spec a b c
  else 0

/-- The PNG forward filter of one true scanline `cur` above which lies the true scanline `prev`:
`filtered[x] = true[x] - prediction` modulo 256, columns left of the row counting as 0. -/
def filter_row_spec (tag bpp : Nat) (prev cur : List Nat) : List Nat :=
  (List.range cur.length).map (fun x =>
    let a := if x < bpp then 0 else cur.getD (x - bpp) 0
    let b := prev.getD x 0
    let c := if x < bpp then 0 else prev.getD (x - bpp) 0
    (cur.getD x 0 + 256 - prediction_spec tag a b c % 256) % 256)

/-- Section 4.6 of the spec, step 2: the true scanline rebuilt from the filtered one,
`true[x] = filtered[x] + prediction` modulo 256, left to right. -/
def reconstruct_row_spec (tag bpp : Nat) (prev filtered : List Nat) : List Nat :=
  (List.range filtered.length).foldl
    (fun acc x =>
      let a := if x < bpp then 0 else acc.getD (x - bpp) 0
      let b := prev.getD x 0
      let c := if x < bpp then 0 else prev.getD (x - bpp) 0
      acc ++ [(filtered.getD x 0 + prediction_spec tag a b c) % 256])
    []

/-- The contents of the fully populated working buffer for an image given as rows of
(filter tag, true scanline): each row's tag byte followed by its forward-filtered bytes, `prev`
being the true scanline above (all zero before row 0). -/
def filter_image_spec (bpp : Nat) : List (Nat × List Nat) → List Nat → List Nat
  | [], _ => []
  | row :: rest, prev =>
    row.1 :: (filter_row_spec row.1 bpp prev row.2 ++ filter_image_spec bpp rest row.2)

/-! ## More concrete inputs -/

/-- The file of scenario A with a palette chunk of one entry (1, 2, 3) between the header and
the data chunk, every chunk with its correct CRC-32. The PLTE record starts at offset 33. -/
def png_A_plte : List Nat :=
  [137, 80, 78, 71, 13, 10, 26, 10,
   0, 0, 0, 13, 73, 72, 68, 82, 0, 0, 0, 1, 0, 0, 0, 1, 8, 2, 0, 0, 0, 144, 119, 83, 222,
   0, 0, 0, 3, 80, 76, 84, 69, 1, 2, 3, 13, 135, 100, 213,
   0, 0, 0, 12, 73, 68, 65, 84, 120, 156, 99, 224, 18, 145, 3, 0, 0, 104, 0, 61, 84, 8, 163, 247,
   0, 0, 0, 0, 73, 69, 78, 68, 174, 66, 96, 130]

/-- The signature, the header of scenario A and a transparency chunk `tRNS` with payload
0, 10, 0, 20, 0, 30 and its correct CRC-32. The tRNS record starts at offset 33. -/
def png_A_trns : List Nat :=
  [137, 80, 78, 71, 13, 10, 26, 10,
   0, 0, 0, 13, 73, 72, 68, 82, 0, 0, 0, 1, 0, 0, 0, 1, 8, 2, 0, 0, 0, 144, 119, 83, 222,
   0, 0, 0, 6, 116, 82, 78, 83, 0, 10, 0, 20, 0, 30, 197, 54, 41, 255]

/-- The signature followed by an empty chunk of the unknown type `ABCD` (ancillary bit clear)
with its correct CRC-32. -/
def mem_critical : List Nat :=
  [137, 80, 78, 71, 13, 10, 26, 10, 0, 0, 0, 0, 65, 66, 67, 68, 219, 23, 32, 165]

/-- The signature followed by a terminating chunk `IEND` with a payload of one byte and its
correct CRC-32. -/
def mem_iend_payload : List Nat :=
  [137, 80, 78, 71, 13, 10, 26, 10, 0, 0, 0, 1, 73, 69, 78, 68, 0, 209, 26, 79, 225]

/-- The environment of scenario A with a decompressor that produces one byte fewer: the bytes
0, 10, 20 for a data chunk and nothing more at the final flush, with status
`TINFL_STATUS_DONE`. -/
def env_short : Env Unit :=
  { malloc := fun _ => 4096
    tinfl_init := ()
    tinfl_decompress := fun st _ input _ _ avail _ =>
      match input with
      | some _ => ⟨0, [0, 10, 20].take avail, st⟩
      | none => ⟨0, [], st⟩
    bpl_init := 0
    heap_init := fun _ => 0
    out_init := fun _ => 0 }

/-- A Truecolor header of the given size (depth 8, no interlace). -/
def ihdr_truecolor (w h : Nat) : mpng_ihdr := ⟨w, h, 8, 2, 0, 0, 0⟩

/-- Source lines 277-284: the working buffer as the scanline loop of the terminating step finds
it: the heap after the stores of the final call of `tinfl_decompress`. -/
def heap_after_flush {σ : Type} (E : Env σ) (r : by_ref σ) (pixels pixelsat pixelsend : Nat) :
    Mem :=
  heap_store r.heap pixelsat
    (E.tinfl_decompress r.inflator r.heap none pixels pixelsat
      (to_size_t ((pixelsend : Int) - (pixelsat : Int)))
      (TINFL_FLAG_USING_NON_WRAPPING_OUTPUT_BUF ||| TINFL_FLAG_PARSE_ZLIB_HEADER)).produced

/-- A decode state for the 1x1 Truecolor header of scenario A whose working buffer, at address
4096, is fully populated with the bytes 5, 10, 20, 30: the filter tag of the only scanline
is 5. -/
def refs_bad_tag : by_ref Unit :=
  { ihdr := ihdr_truecolor 1 1
    img := img_zero
    palette := fun _ => 0
    bpl := 3
    palette_len := 0
    inflator := ()
    heap := mem_of 4096 [5, 10, 20, 30] }

/-! ## Inputs for the expansion, the driver and the header reads -/

/-- The palette of scenario B as a table of 256 entries: opaque red, opaque green, then zeros. -/
def palette_B : Nat → Nat :=
  fun i => if i = 0 then 0xFFFF0000 else if i = 1 then 0xFF00FF00 else 0

/-- An Indexed header of the given size and depth (no interlace). -/
def ihdr_indexed (w h depth : Nat) : mpng_ihdr := ⟨w, h, depth, 3, 0, 0, 0⟩

/-- The environment of scenario A with a decompressor that fills all the output space it is
offered (and never more), with status `TINFL_STATUS_DONE`. -/
def env_fill : Env Unit :=
  { malloc := fun _ => 4096
    tinfl_init := ()
    tinfl_decompress := fun st _ _ _ _ avail _ => ⟨0, List.replicate avail 0, st⟩
    bpl_init := 0
    heap_init := fun _ => 0
    out_init := fun _ => 0 }

/-- The signature followed by a palette chunk of one entry (255, 0, 0) with its correct CRC-32:
an input whose first chunk is not the header. -/
def mem_plte_first : List Nat :=
  [137, 80, 78, 71, 13, 10, 26, 10, 0, 0, 0, 3, 80, 76, 84, 69, 255, 0, 0, 25, 226, 9, 55]

/-- The signature followed by a header chunk of declared length 8 (width 1088934897, height 1)
whose correct CRC-32 is `08 02 00 00`: 28 bytes, the record ending the input. -/
def mem_short_ihdr : List Nat :=
  [137, 80, 78, 71, 13, 10, 26, 10,
   0, 0, 0, 8, 73, 72, 68, 82, 64, 231, 211, 241, 0, 0, 0, 1, 8, 2, 0, 0]

/-- Source lines 58-64: the addresses `mpng_parse_ihdr` reads, `chunk->data[0]` to
`chunk->data[12]`, whatever `chunk->size` is. -/
def parse_ihdr_reads (chunk : mpng_chunk) : List Nat :=
  (List.range 13).map (fun i => chunk.data + i)

/-- The decode state of scenario B as it should stand when the terminating record is reached:
the Indexed 2x2 header, stride 2, the two-entry palette, and a working buffer at 4096 fully
populated with the two scanlines (tag 0, indices 0 1; tag 0, indices 1 0). -/
def refs_B : by_ref Unit :=
  { ihdr := ihdr_indexed 2 2 8
    img := img_zero
    palette := palette_B
    bpl := 2
    palette_len := 2
    inflator := ()
    heap := mem_of 4096 [0, 0, 1, 0, 1, 0] }

/-- The signature followed by the data chunk `IDAT` of scenario A (payload of 12 bytes, correct
CRC-32) and nothing else: a file whose first chunk is a data chunk. -/
def mem_idat_first : List Nat :=
  [137, 80, 78, 71, 13, 10, 26, 10,
   0, 0, 0, 12, 73, 68, 65, 84, 120, 156, 99, 224, 18, 145, 3, 0, 0, 104, 0, 61, 84, 8, 163, 247]

/-- The signature followed by the transparency chunk `tRNS` of `png_A_trns` (payload
0, 10, 0, 20, 0, 30, correct CRC-32) and nothing else. -/
def mem_trns_first : List Nat :=
  [137, 80, 78, 71, 13, 10, 26, 10,
   0, 0, 0, 6, 116, 82, 78, 83, 0, 10, 0, 20, 0, 30, 197, 54, 41, 255]

/-- The filter tag byte of scanline `y` of the working buffer at `pixels`: the byte read by
`*(filteredline++)` in pass `y` of the scanline loop (source line 323). -/
def tag_at (heap : Mem) (pixels bpl y : Nat) : Nat := load8 heap (pixels + y * (bpl + 1))

/-- The byte `filteredline[x]` of scanline `y`, read after the increment past the tag byte. -/
def filtered_at (heap : Mem) (pixels bpl y x : Nat) : Nat :=
  load8 heap (pixels + y * (bpl + 1) + 1 + x)

/-- Section 4.6 of the spec, steps 2 and 3, for byte `x` of scanline `y` of a reconstructed
block `o` whose scanlines of `bpl` bytes are packed from offset 0:
`true[x] = filtered[x] + prediction(a, b, c)` modulo 256 with `a = true[x - bpp]`,
`b = prevRow[x]`, `c = prevRow[x - bpp]`, where `prevRow` is the reconstructed scanline `y - 1`,
or all zero for `y = 0`, and `a`, `c` count as 0 for `x < bpp`. -/
def row_recurrence_spec (heap : Mem) (pixels bpl bpp : Nat) (o : OutMem) (y x : Nat) : Prop :=
  oload8 o ((bpl * y + x : Nat) : Int)
    = u8 (filtered_at heap pixels bpl y x
        + prediction_spec (tag_at heap pixels bpl y)
            (if x < bpp then 0 else oload8 o ((bpl * y + (x - bpp) : Nat) : Int))
            (if y = 0 then 0 else oload8 o ((bpl * (y - 1) + x : Nat) : Int))
            (if x < bpp ∨ y = 0 then 0 else oload8 o ((bpl * (y - 1) + (x - bpp) : Nat) : Int)))

instance (heap : Mem) (pixels bpl bpp : Nat) (o : OutMem) (y x : Nat) :
    Decidable (row_recurrence_spec heap pixels bpl bpp o y x) := by
  unfold row_recurrence_spec
  infer_instance

/-! # Theorems -/

/-! ## The driver loop -/

theorem to_bool_neg_one : to_bool (-1) = 1 := by decide

theorem to_bool_zero : to_bool 0 = 0 := by decide

theorem case_IHDR_img {σ : Type} (E : Env σ) (m : Mem) (chunk : mpng_chunk) (r : by_ref σ)
    (format : video_format) (v : by_val) : (case_IHDR E m chunk r format v).refs.img = r.img := by
  unfold case_IHDR
  dsimp only
  split_ifs <;> rfl

theorem case_PLTE_img {σ : Type} (m : Mem) (chunk : mpng_chunk) (r : by_ref σ) (v : by_val) :
    (case_PLTE m chunk r v).refs.img = r.img := by
  unfold case_PLTE
  dsimp only
  split_ifs <;> rfl

theorem case_TRNS_img {σ : Type} (r : by_ref σ) (format : video_format) (v : by_val) :
    (case_TRNS r format v).refs.img = r.img := by
  unfold case_TRNS
  split_ifs <;> rfl

theorem case_IDAT_img {σ : Type} (E : Env σ) (m : Mem) (chunk : mpng_chunk) (r : by_ref σ)
    (v : by_val) : (case_IDAT E m chunk r v).refs.img = r.img := by
  unfold case_IDAT
  dsimp only
  split_ifs <;> rfl

theorem case_IEND_img {σ : Type} (E : Env σ) (data_end : Nat) (chunk : mpng_chunk)
    (r : by_ref σ) (format : video_format) (v : by_val)
    (h : (case_IEND E data_end chunk r format v).ret ≠ 1) :
    (case_IEND E data_end chunk r format v).refs.img = r.img := by
  revert h
  unfold case_IEND
  dsimp only
  split_ifs
  · intro _; rfl
  · intro _; rfl
  · intro _; rfl
  · intro _; rfl
  · intro _; rfl
  · split
    · intro _; rfl
    · intro h; exact absurd rfl h

theorem dispatch_img {σ : Type} (E : Env σ) (m : Mem) (data_end : Nat) (chunk : mpng_chunk)
    (r : by_ref σ) (format : video_format) (v : by_val)
    (h : (dispatch E m data_end chunk r format v).ret ≠ 1) :
    (dispatch E m data_end chunk r format v).refs.img = r.img := by
  revert h
  unfold dispatch
  split_ifs
  · intro _; exact case_IHDR_img E m chunk r format v
  · intro _; exact case_PLTE_img m chunk r v
  · intro _; exact case_TRNS_img r format v
  · intro _; exact case_IDAT_img E m chunk r v
  · intro h; exact case_IEND_img E data_end chunk r format v h
  · intro _; rfl
  · intro _; rfl

/-- A step that does not reach `return 1` leaves the image behind `img` as it was. -/
theorem iterate_img_unchanged {σ : Type} (E : Env σ) (m : Mem) (data data_end : Nat)
    (r : by_ref σ) (format : video_format) (pixels pixelsat pixelsend : Nat)
    (h : (png_decode_iterate E m data data_end r format pixels pixelsat pixelsend).ret ≠ 1) :
    (png_decode_iterate E m data data_end r format pixels pixelsat pixelsend).refs.img = r.img := by
  revert h
  unfold png_decode_iterate
  dsimp only
  split_ifs
  · intro _; rfl
  · intro _; rfl
  · intro _; rfl
  · intro _; rfl
  · intro h; exact dispatch_img _ _ _ _ _ _ _ h

/-- Inside the supported colour types the `switch` does not depend on the incoming `*bpl`. -/
theorem ihdr_switch_indep (ihdr : mpng_ihdr) (format : video_format) (bpl bpl' : Nat)
    (h : ¬(ihdr.color_type ≠ 2 ∧ ihdr.color_type ≠ 3 ∧ ihdr.color_type ≠ 6)) :
    ihdr_switch ihdr format bpl = ihdr_switch ihdr format bpl' := by
  unfold ihdr_switch
  by_cases h2 : ihdr.color_type = 2
  · rw [if_pos h2, if_pos h2]
  · by_cases h3 : ihdr.color_type = 3
    · rw [if_neg h2, if_neg h2, if_pos h3, if_pos h3]
    · by_cases h6 : ihdr.color_type = 6
      · rw [if_neg h2, if_neg h2, if_neg h3, if_neg h3, if_pos h6, if_pos h6]
      · exact absurd ⟨h2, h3, h6⟩ h

/-- The return value of `mpng_parse_ihdr` depends neither on the incoming `*bpl` nor on the
incoming buffer pointers. -/
theorem mpng_parse_ihdr_ret_indep (malloc : Nat → Nat) (m : Mem) (chunk : mpng_chunk)
    (format : video_format) (bpl p a e bpl' p' a' e' : Nat) :
    (mpng_parse_ihdr malloc m chunk format bpl p a e).ret
      = (mpng_parse_ihdr malloc m chunk format bpl' p' a' e').ret := by
  unfold mpng_parse_ihdr
  dsimp only
  by_cases h1 : dword_be (ptr m (chunk.data + 0)) = 0 ∨ dword_be (ptr m (chunk.data + 4)) = 0
  · rw [if_pos h1, if_pos h1]
  rw [if_neg h1, if_neg h1]
  by_cases h2 : dword_be (ptr m (chunk.data + 0)) ≥ 0x80000000
  · rw [if_pos h2, if_pos h2]
  rw [if_neg h2, if_neg h2]
  by_cases h3 : dword_be (ptr m (chunk.data + 4)) ≥ 0x80000000
  · rw [if_pos h3, if_pos h3]
  rw [if_neg h3, if_neg h3]
  by_cases h4 : ptr m chunk.data 9 ≠ 2 ∧ ptr m chunk.data 9 ≠ 3 ∧ ptr m chunk.data 9 ≠ 6
  · rw [if_pos h4, if_pos h4]
  rw [if_neg h4, if_neg h4]
  by_cases h5 : ptr m chunk.data 10 ≠ 0
  · rw [if_pos h5, if_pos h5]
  rw [if_neg h5, if_neg h5]
  by_cases h6 : ptr m chunk.data 11 ≠ 0
  · rw [if_pos h6, if_pos h6]
  rw [if_neg h6, if_neg h6]
  by_cases h7 : ptr m chunk.data 12 ≠ 0 ∧ ptr m chunk.data 12 ≠ 1
  · rw [if_pos h7, if_pos h7]
  rw [if_neg h7, if_neg h7, ihdr_switch_indep _ format bpl bpl' h4]
  cases ihdr_switch _ format bpl' with
  | none => rfl
  | some b =>
    dsimp only
    by_cases h8 : malloc (u32 ((b + 1) * dword_be (ptr m (chunk.data + 4)))) = 0
    · rw [if_pos h8, if_pos h8]
    · rw [if_neg h8, if_neg h8]

theorem case_IHDR_ret_indep {σ : Type} (E : Env σ) (m : Mem) (chunk : mpng_chunk)
    (r r' : by_ref σ) (format : video_format) (v : by_val) :
    (case_IHDR E m chunk r format v).ret = (case_IHDR E m chunk r' format v).ret := by
  unfold case_IHDR
  dsimp only
  rw [mpng_parse_ihdr_ret_indep E.malloc m chunk format r.bpl v.pixels v.pixelsat v.pixelsend
    r'.bpl v.pixels v.pixelsat v.pixelsend]
  split_ifs <;> rfl

/-- The check `!pixels || entries != 0` with `entries = chunk.size / 3`, followed by the check
`chunk->size == 0`, leaves no length that `mpng_read_plte` accepts. -/
theorem mpng_read_plte_rejects (m : Mem) (ihdr : mpng_ihdr) (chunk : mpng_chunk) (pixels : Nat)
    (buffer : Nat → Nat) :
    mpng_read_plte m ihdr chunk pixels buffer (int_to_unsigned ((chunk.size / 3 : Nat) : Int))
      = ⟨false, buffer⟩ := by
  unfold mpng_read_plte
  split_ifs with h1 h2 h3 h4
  · rfl
  · rfl
  · rfl
  · exfalso
    apply h3
    have h5 : int_to_unsigned ((chunk.size / 3 : Nat) : Int) = 0 := by
      by_contra h; exact h2 (Or.inr h)
    unfold int_to_unsigned at h5
    omega
  · exfalso
    apply h3
    have h5 : int_to_unsigned ((chunk.size / 3 : Nat) : Int) = 0 := by
      by_contra h; exact h2 (Or.inr h)
    unfold int_to_unsigned at h5
    omega

theorem case_PLTE_ret {σ : Type} (m : Mem) (chunk : mpng_chunk) (r : by_ref σ) (v : by_val) :
    (case_PLTE m chunk r v).ret = -1 := by
  unfold case_PLTE
  dsimp only
  rw [mpng_read_plte_rejects]
  rfl

theorem case_TRNS_ret {σ : Type} (r : by_ref σ) (format : video_format) (v : by_val) :
    (case_TRNS r format v).ret = -1 := by
  unfold case_TRNS
  split_ifs <;> rfl

theorem case_IDAT_ret_null {σ : Type} (E : Env σ) (m : Mem) (chunk : mpng_chunk) (r : by_ref σ)
    (v : by_val) (h : v.pixels = 0) : (case_IDAT E m chunk r v).ret = -1 := by
  unfold case_IDAT
  rw [if_pos (Or.inl h)]

theorem case_IEND_ret_ne_zero {σ : Type} (E : Env σ) (data_end : Nat) (chunk : mpng_chunk)
    (r : by_ref σ) (format : video_format) (v : by_val) :
    (case_IEND E data_end chunk r format v).ret ≠ 0 := by
  unfold case_IEND
  dsimp only
  have hm : (-1 : Int) ≠ 0 := by decide
  have hp : (1 : Int) ≠ 0 := by decide
  split_ifs
  · exact hm
  · exact hm
  · exact hm
  · exact hm
  · exact hm
  · split
    · exact hm
    · exact hp

/-- With a null `pixels`, whether a step returns `0` does not depend on the state behind the
pointer parameters. -/
theorem dispatch_ret_zero_indep {σ : Type} (E : Env σ) (m : Mem) (data_end : Nat)
    (chunk : mpng_chunk) (r r' : by_ref σ) (format : video_format) (v : by_val)
    (hp : v.pixels = 0) (h : (dispatch E m data_end chunk r format v).ret = 0) :
    (dispatch E m data_end chunk r' format v).ret = 0 := by
  revert h
  unfold dispatch
  split_ifs
  · intro h; rw [← h]; exact case_IHDR_ret_indep E m chunk r' r format v
  · intro h; rw [case_PLTE_ret] at h; exact absurd h (by decide)
  · intro h; rw [case_TRNS_ret] at h; exact absurd h (by decide)
  · intro h; rw [case_IDAT_ret_null E m chunk r v hp] at h; exact absurd h (by decide)
  · intro h; exact absurd h (case_IEND_ret_ne_zero E data_end chunk r format v)
  · intro h; exact absurd h (show (-1 : Int) ≠ 0 by decide)
  · intro _; rfl

theorem iterate_ret_zero_indep {σ : Type} (E : Env σ) (m : Mem) (data data_end : Nat)
    (r r' : by_ref σ) (format : video_format) (pixelsat pixelsend : Nat)
    (h : (png_decode_iterate E m data data_end r format 0 pixelsat pixelsend).ret = 0) :
    (png_decode_iterate E m data data_end r' format 0 pixelsat pixelsend).ret = 0 := by
  revert h
  unfold png_decode_iterate
  dsimp only
  have hm : (-1 : Int) ≠ 0 := by decide
  split_ifs
  · intro h; exact absurd h hm
  · intro h; exact absurd h hm
  · intro h; exact absurd h hm
  · intro h; exact absurd h hm
  · intro h; exact dispatch_ret_zero_indep E m data_end _ r r' format _ rfl h

/-- The driver never assigns to `data`, `pixels`, `pixelsat` or `pixelsend`: once a step has
returned `0`, every later step is the same call on the same record and returns `0` again. -/
theorem loop_never_returns {σ : Type} (E : Env σ) (m : Mem) (data data_end : Nat)
    (format : video_format) (pixelsat pixelsend : Nat) (fuel : Nat) :
    ∀ r : by_ref σ,
      (png_decode_iterate E m data data_end r format 0 pixelsat pixelsend).ret = 0 →
      png_decode_loop E m data data_end format 0 pixelsat pixelsend fuel r = none := by
  induction fuel with
  | zero => intro r _; rfl
  | succ n ih =>
    intro r h
    unfold png_decode_loop
    dsimp only
    rw [h, to_bool_zero, if_neg (by decide), if_neg (by decide)]
    exact ih _ (iterate_ret_zero_indep E m data data_end r _ format pixelsat pixelsend h)

/-- A step that returns `-1` makes the loop leave through `case 1: return true`, because the
value read back from the `bool` return type is `1`. -/
theorem loop_error_returns_true {σ : Type} (E : Env σ) (m : Mem) (data data_end : Nat)
    (format : video_format) (pixels pixelsat pixelsend : Nat) (fuel : Nat) (r : by_ref σ)
    (h : (png_decode_iterate E m data data_end r format pixels pixelsat pixelsend).ret = -1) :
    png_decode_loop E m data data_end format pixels pixelsat pixelsend (fuel + 1) r
      = some ⟨true, r.img⟩ := by
  unfold png_decode_loop
  dsimp only
  rw [h, to_bool_neg_one, if_neg (by decide), if_pos rfl]
  rw [iterate_img_unchanged E m data data_end r format pixels pixelsat pixelsend
    (by rw [h]; decide)]

/-- Inside the supported colour types, the `switch` falls through to the allocation exactly for
the combinations of colour type, depth and format named by the spec. -/
theorem ihdr_switch_isSome (ihdr : mpng_ihdr) (format : video_format) (bpl : Nat)
    (h : ¬(ihdr.color_type ≠ 2 ∧ ihdr.color_type ≠ 3 ∧ ihdr.color_type ≠ 6)) :
    (ihdr_switch ihdr format bpl).isSome = true ↔
      ((ihdr.color_type = 2 ∧ ihdr.depth = 8)
        ∨ (ihdr.color_type = 3 ∧
            (ihdr.depth = 1 ∨ ihdr.depth = 2 ∨ ihdr.depth = 4 ∨ ihdr.depth = 8))
        ∨ (ihdr.color_type = 6 ∧ ihdr.depth = 8 ∧ format = FMT_ARGB8888)) := by
  unfold ihdr_switch
  rcases ihdr with ⟨w, hh, d, c, k, f, i⟩
  dsimp only at h ⊢
  by_cases h2 : c = 2
  · subst h2
    by_cases hd : d = 8
    · simp [hd]
    · simp [hd]
  by_cases h3 : c = 3
  · subst h3
    by_cases hd : d ≠ 1 ∧ d ≠ 2 ∧ d ≠ 4 ∧ d ≠ 8
    · rw [if_neg h2, if_pos rfl, if_pos hd]
      simp; omega
    · rw [if_neg h2, if_pos rfl, if_neg hd]
      simp; omega
  by_cases h6 : c = 6
  · subst h6
    by_cases hd : d = 8
    · by_cases hf : format = FMT_ARGB8888
      · simp [hd, hf]
      · simp [hd, hf]
    · simp [hd]
  exact absurd ⟨h2, h3, h6⟩ h

/-- Past the four early returns, `png_decode` is its loop entered at `userdata + 8` with null
buffer pointers. -/
theorem png_decode_eq_loop {σ : Type} (E : Env σ) (fuel : Nat) (m : Mem) (userdata len : Nat)
    (img : mpng_image) (format : video_format) (h0 : userdata ≠ 0)
    (hf : format = FMT_RGB888 ∨ format = FMT_XRGB8888 ∨ format = FMT_ARGB8888)
    (hl : 8 ≤ len) (hs : bytes_at m userdata 8 = mpng_magic) :
    png_decode E fuel m userdata len img format
      = png_decode_loop E m (userdata + 8) (userdata + len) format 0 0 0 fuel (init_refs E) := by
  unfold png_decode
  rw [if_neg h0, if_neg (fun h => by rcases hf with h' | h' | h' <;> simp [h'] at h),
    if_neg (by omega), if_neg (fun h => h hs)]


set_option maxRecDepth 100000 in
/-- The embedding on scenario A when the cursor and the buffer pointers are carried from step to
step by hand, as the driver does not: the header step and the data step return `0`, and the
terminating step returns `1` with the 1x1 image of pitch 3 and pixel bytes 10, 20, 30. -/
theorem scenario_A_threaded_by_hand :
    (png_decode_iterate env_A (mem_of 16 png_A) 73 85
        (png_decode_iterate env_A (mem_of 16 png_A) 49 85
          (png_decode_iterate env_A (mem_of 16 png_A) 24 85 (init_refs env_A)
            FMT_RGB888 0 0 0).refs
          FMT_RGB888 4096 4096 4100).refs
        FMT_RGB888 4096 4100 4100).ret = 1
      ∧ (png_decode_iterate env_A (mem_of 16 png_A) 73 85
        (png_decode_iterate env_A (mem_of 16 png_A) 49 85
          (png_decode_iterate env_A (mem_of 16 png_A) 24 85 (init_refs env_A)
            FMT_RGB888 0 0 0).refs
          FMT_RGB888 4096 4096 4100).refs
        FMT_RGB888 4096 4100 4100).refs.img = ⟨1, 1, 3, some FMT_RGB888, some [10, 20, 30]⟩ := by
  decide

/-! ## The claims -/

set_option maxRecDepth 100000 in
/-- C1 (the code departs from the claim): on the well-formed file of scenario A, a 1x1 Truecolor
image with filter tag 0 and pixel (10, 20, 30), requested as RGB888, with every allocation
succeeding and the decompressor returning the filtered stream, `png_decode` does not return true
with the image: whatever the number of steps allowed, its loop is still running, because each
call of `png_decode_iterate` is made on the header record again. -/
theorem C1_scenario_A_never_returns (fuel : Nat) (img : mpng_image) :
    png_decode env_A fuel (mem_of 16 png_A) 16 69 img FMT_RGB888 = none := by
  rw [png_decode_eq_loop env_A fuel (mem_of 16 png_A) 16 69 img FMT_RGB888 (by decide)
    (Or.inl rfl) (by decide) (by decide)]
  exact loop_never_returns env_A (mem_of 16 png_A) (16 + 8) (16 + 69) FMT_RGB888 0 0 fuel
    (init_refs env_A) (by decide)

/-- C2 (the code departs from the claim): whenever the first step of `png_decode_iterate`
reaches `return -1` (as it does on a checksum mismatch), `png_decode` returns true, not false:
the value `-1` passes through the return type `bool` and is read back as `1`, which the driver
takes for completion. The image is left all-zero. -/
theorem C2_step_error_returns_true {σ : Type} (E : Env σ) (fuel : Nat) (m : Mem)
    (userdata len : Nat) (img : mpng_image) (format : video_format) (h0 : userdata ≠ 0)
    (hf : format = FMT_RGB888 ∨ format = FMT_XRGB8888 ∨ format = FMT_ARGB8888)
    (hl : 8 ≤ len) (hs : bytes_at m userdata 8 = mpng_magic)
    (herr : (png_decode_iterate E m (userdata + 8) (userdata + len) (init_refs E) format
      0 0 0).ret = -1) :
    png_decode E (fuel + 1) m userdata len img format = some ⟨true, img_zero⟩ := by
  rw [png_decode_eq_loop E (fuel + 1) m userdata len img format h0 hf hl hs]
  exact loop_error_returns_true E m (userdata + 8) (userdata + len) format 0 0 0 fuel
    (init_refs E) herr

set_option maxRecDepth 100000 in
/-- Witness of C2: the file of scenario A with one byte of the header chunk's CRC-32 changed.
The trailing checksum `0x907753DF` differs from the computed `0x907753DE`, the step returns
`-1`, and `png_decode` returns true. -/
theorem C2_step_error_returns_true_witness :
    (16 ≠ 0) ∧ (FMT_RGB888 = FMT_RGB888 ∨ FMT_RGB888 = FMT_XRGB8888 ∨ FMT_RGB888 = FMT_ARGB8888)
      ∧ 8 ≤ 69 ∧ bytes_at (mem_of 16 png_A_bad_crc) 16 8 = mpng_magic
      ∧ dword_be (ptr (mem_of 16 png_A_bad_crc) (24 + 4 + 4 + 13))
          ≠ u32 (mz_crc32 0 (bytes_at (mem_of 16 png_A_bad_crc) (24 + 4) (4 + 13)))
      ∧ (png_decode_iterate env_A (mem_of 16 png_A_bad_crc) (16 + 8) (16 + 69) (init_refs env_A)
          FMT_RGB888 0 0 0).ret = -1
      ∧ png_decode env_A (0 + 1) (mem_of 16 png_A_bad_crc) 16 69 img_zero FMT_RGB888
          = some ⟨true, img_zero⟩ :=
  ⟨by decide, Or.inl rfl, by decide, by decide, by decide, by decide,
    C2_step_error_returns_true env_A 0 (mem_of 16 png_A_bad_crc) 16 69 img_zero FMT_RGB888
      (by decide) (Or.inl rfl) (by decide) (by decide) (by decide)⟩

/-- C3 (the code departs from the claim): `png_decode` does not terminate on every input.
Whenever the first step returns `0` (continue), the loop never ends: for every number of steps
allowed it is still running, because the read cursor `data` of `png_decode` is passed by value
and so stays on the first record. -/
theorem C3_continue_never_terminates {σ : Type} (E : Env σ) (m : Mem) (userdata len : Nat)
    (img : mpng_image) (format : video_format) (h0 : userdata ≠ 0)
    (hf : format = FMT_RGB888 ∨ format = FMT_XRGB8888 ∨ format = FMT_ARGB8888)
    (hl : 8 ≤ len) (hs : bytes_at m userdata 8 = mpng_magic)
    (hcont : (png_decode_iterate E m (userdata + 8) (userdata + len) (init_refs E) format
      0 0 0).ret = 0) :
    ∀ fuel, png_decode E fuel m userdata len img format = none := by
  intro fuel
  rw [png_decode_eq_loop E fuel m userdata len img format h0 hf hl hs]
  exact loop_never_returns E m (userdata + 8) (userdata + len) format 0 0 fuel (init_refs E) hcont

set_option maxRecDepth 100000 in
/-- Witness of C3: the well-formed file of scenario B (2x2 Indexed image), requested as
ARGB8888. -/
theorem C3_continue_never_terminates_witness :
    (16 ≠ 0)
      ∧ (FMT_ARGB8888 = FMT_RGB888 ∨ FMT_ARGB8888 = FMT_XRGB8888 ∨ FMT_ARGB8888 = FMT_ARGB8888)
      ∧ 8 ≤ 87 ∧ bytes_at (mem_of 16 png_B) 16 8 = mpng_magic
      ∧ (png_decode_iterate env_A (mem_of 16 png_B) (16 + 8) (16 + 87) (init_refs env_A)
          FMT_ARGB8888 0 0 0).ret = 0
      ∧ ∀ fuel, png_decode env_A fuel (mem_of 16 png_B) 16 87 img_zero FMT_ARGB8888 = none :=
  ⟨by decide, Or.inr (Or.inr rfl), by decide, by decide, by decide,
    C3_continue_never_terminates env_A (mem_of 16 png_B) 16 87 img_zero FMT_ARGB8888
      (by decide) (Or.inr (Or.inr rfl)) (by decide) (by decide) (by decide)⟩


set_option maxRecDepth 100000 in
/-- C4 (the code departs from the claim): on the valid header of scenario A `mpng_parse_ihdr`
succeeds and its own copies of the pointers hold the allocated buffer (`pixels = pixelsat = 4096`,
`pixelsend = pixels + (bpl + 1) * height`), but they were passed by value: at the return of the
header step the copies of `png_decode_iterate` are still null, the caller's variables were never
reachable, and the data chunk that follows (offset 33 of the file), presented with the caller's
pointers, is rejected by the check `!pixels`. -/
theorem C4_working_buffer_lost_after_header :
    mpng_parse_ihdr env_A.malloc (mem_of 16 png_A) ⟨13, MPNG_CHUNK_IHDR, 32⟩ FMT_RGB888 0 0 0 0
        = ⟨true, ⟨1, 1, 8, 2, 0, 0, 0⟩, 3, 4096, 4096, 4096 + (3 + 1) * 1⟩
      ∧ (png_decode_iterate env_A (mem_of 16 png_A) 24 85 (init_refs env_A)
          FMT_RGB888 0 0 0).ret = 0
      ∧ (png_decode_iterate env_A (mem_of 16 png_A) 24 85 (init_refs env_A)
          FMT_RGB888 0 0 0).vals = ⟨49, 0, 0, 0⟩
      ∧ (png_decode_iterate env_A (mem_of 16 png_A) 49 85
          (png_decode_iterate env_A (mem_of 16 png_A) 24 85 (init_refs env_A)
            FMT_RGB888 0 0 0).refs
          FMT_RGB888 0 0 0).ret = -1 := by
  decide

set_option maxRecDepth 100000 in
/-- C5 (the code departs from the claim): the second bounds check compares `data + 4 + size + 4`
with `data_end` and so leaves out the 4 bytes of the trailing checksum. With 8 bytes remaining
and a declared length of 0 (fewer than `8 + 0 + 4` remain) the step reports no error before
reading: it reads the type tag for the checksum and then the 4 bytes at `data_end .. data_end + 3`,
outside the input. Its result depends on them: on two memories that agree on every byte of the
16-byte input, it returns `0` when the 4 bytes after the input hold the matching CRC-32 and `-1`
when they hold zeros. -/
theorem C5_checksum_read_past_input_end :
    (16 + 16) - (16 + 8) < 8 + dword_be (ptr (mem_of 16 mem_truncated) (16 + 8)) + 4
      ∧ iterate_reads (mem_of 16 mem_truncated) (16 + 8) (16 + 16)
          = [24, 25, 26, 27, 28, 29, 30, 31, 28, 29, 30, 31, 32, 33, 34, 35]
      ∧ (∃ a ∈ iterate_reads (mem_of 16 mem_truncated) (16 + 8) (16 + 16), 16 + 16 ≤ a)
      ∧ (∀ a < 16 + 16, mem_of 16 mem_truncated a = mem_of 16 (mem_truncated.take 16) a)
      ∧ (png_decode_iterate env_A (mem_of 16 mem_truncated) (16 + 8) (16 + 16) (init_refs env_A)
          FMT_RGB888 0 0 0).ret = 0
      ∧ (png_decode_iterate env_A (mem_of 16 (mem_truncated.take 16)) (16 + 8) (16 + 16)
          (init_refs env_A) FMT_RGB888 0 0 0).ret = -1 := by
  decide

/-- C6: for every header payload whose interlace byte is not 1 and every requested format, with
an allocator that never fails, `mpng_parse_ihdr` returns true exactly when the header satisfies
the rules of the spec: width and height nonzero and below `2^31`, compression 0, filter 0,
interlace 0, and colour type 2 with depth 8, or colour type 3 with depth 1, 2, 4 or 8, or colour
type 6 with depth 8 and format ARGB8888; every other colour type is rejected. -/
theorem C6_mpng_parse_ihdr_accepts_iff (malloc : Nat → Nat) (m : Mem) (chunk : mpng_chunk)
    (format : video_format) (bpl pixels pixelsat pixelsend : Nat)
    (halloc : ∀ n, malloc n ≠ 0) (hinterlace : ptr m chunk.data 12 ≠ 1) :
    (mpng_parse_ihdr malloc m chunk format bpl pixels pixelsat pixelsend).ret = true ↔
      header_accepted_spec (dword_be (ptr m (chunk.data + 0))) (dword_be (ptr m (chunk.data + 4)))
        (ptr m chunk.data 8) (ptr m chunk.data 9) (ptr m chunk.data 10) (ptr m chunk.data 11)
        (ptr m chunk.data 12) format := by
  unfold mpng_parse_ihdr header_accepted_spec
  dsimp only
  generalize dword_be (ptr m (chunk.data + 0)) = W
  generalize dword_be (ptr m (chunk.data + 4)) = H
  generalize ptr m chunk.data 8 = D
  generalize ptr m chunk.data 9 = C at hinterlace ⊢
  generalize ptr m chunk.data 10 = K at hinterlace ⊢
  generalize ptr m chunk.data 11 = F at hinterlace ⊢
  generalize hI : ptr m chunk.data 12 = I at hinterlace ⊢
  have ft : ¬((false : Bool) = true) := by decide
  by_cases h1 : W = 0 ∨ H = 0
  · rw [if_pos h1]
    exact ⟨fun h => absurd h ft, fun h => by omega⟩
  rw [if_neg h1]
  by_cases h2 : W ≥ 0x80000000
  · rw [if_pos h2]
    exact ⟨fun h => absurd h ft, fun h => by omega⟩
  rw [if_neg h2]
  by_cases h3 : H ≥ 0x80000000
  · rw [if_pos h3]
    exact ⟨fun h => absurd h ft, fun h => by omega⟩
  rw [if_neg h3]
  by_cases h4 : C ≠ 2 ∧ C ≠ 3 ∧ C ≠ 6
  · rw [if_pos h4]
    exact ⟨fun h => absurd h ft, fun h => by omega⟩
  rw [if_neg h4]
  by_cases h5 : K ≠ 0
  · rw [if_pos h5]
    exact ⟨fun h => absurd h ft, fun h => by omega⟩
  rw [if_neg h5]
  by_cases h6 : F ≠ 0
  · rw [if_pos h6]
    exact ⟨fun h => absurd h ft, fun h => by omega⟩
  rw [if_neg h6]
  by_cases h7 : I ≠ 0 ∧ I ≠ 1
  · rw [if_pos h7]
    exact ⟨fun h => absurd h ft, fun h => by omega⟩
  rw [if_neg h7]
  have hsw := ihdr_switch_isSome ⟨W, H, D, C, K, F, I⟩ format bpl h4
  dsimp only at hsw
  cases hs : ihdr_switch ⟨W, H, D, C, K, F, I⟩ format bpl with
  | none =>
    rw [hs] at hsw
    dsimp only
    constructor
    · intro h; exact absurd h ft
    · intro h
      exact absurd (hsw.mpr h.2.2.2.2.2.2.2) (by decide)
  | some b =>
    rw [hs] at hsw
    dsimp only
    rw [if_neg (halloc _)]
    constructor
    · intro _
      refine ⟨by omega, by omega, by omega, by omega, by omega, by omega, by omega, ?_⟩
      exact hsw.mp rfl
    · intro _; rfl

/-- Witness of C6: the header of scenario A (1x1, depth 8, Truecolor, interlace 0), requested as
RGB888, is accepted by the code and by the rules of the spec. -/
theorem C6_mpng_parse_ihdr_accepts_iff_witness :
    (∀ n, env_A.malloc n ≠ 0)
      ∧ ptr (mem_of 1 (ihdr_payload 0 0 0 1 0 0 0 1 8 2 0 0 0)) 1 12 ≠ 1
      ∧ ((mpng_parse_ihdr env_A.malloc (mem_of 1 (ihdr_payload 0 0 0 1 0 0 0 1 8 2 0 0 0))
            ⟨13, MPNG_CHUNK_IHDR, 1⟩ FMT_RGB888 0 0 0 0).ret = true ↔
          header_accepted_spec
            (dword_be (ptr (mem_of 1 (ihdr_payload 0 0 0 1 0 0 0 1 8 2 0 0 0)) (1 + 0)))
            (dword_be (ptr (mem_of 1 (ihdr_payload 0 0 0 1 0 0 0 1 8 2 0 0 0)) (1 + 4)))
            (ptr (mem_of 1 (ihdr_payload 0 0 0 1 0 0 0 1 8 2 0 0 0)) 1 8)
            (ptr (mem_of 1 (ihdr_payload 0 0 0 1 0 0 0 1 8 2 0 0 0)) 1 9)
            (ptr (mem_of 1 (ihdr_payload 0 0 0 1 0 0 0 1 8 2 0 0 0)) 1 10)
            (ptr (mem_of 1 (ihdr_payload 0 0 0 1 0 0 0 1 8 2 0 0 0)) 1 11)
            (ptr (mem_of 1 (ihdr_payload 0 0 0 1 0 0 0 1 8 2 0 0 0)) 1 12) FMT_RGB888)
      ∧ header_accepted_spec 1 1 8 2 0 0 0 FMT_RGB888 :=
  ⟨fun _ => Nat.succ_ne_zero 4095, by decide,
    C6_mpng_parse_ihdr_accepts_iff env_A.malloc
      (mem_of 1 (ihdr_payload 0 0 0 1 0 0 0 1 8 2 0 0 0)) ⟨13, MPNG_CHUNK_IHDR, 1⟩ FMT_RGB888
      0 0 0 0 (fun _ => Nat.succ_ne_zero 4095) (by decide),
    by decide⟩

/-- C7 (the code departs from the claim): a header that is valid in every other field and whose
interlace method byte is 1 is accepted: the check on line 85 rejects only values other than 0
and 1, and nothing after it looks at the field. -/
theorem C7_interlaced_header_accepted :
    (mpng_parse_ihdr env_A.malloc (mem_of 1 (ihdr_payload 0 0 0 1 0 0 0 1 8 2 0 0 1))
        ⟨13, MPNG_CHUNK_IHDR, 1⟩ FMT_RGB888 0 0 0 0).ret = true
      ∧ (mpng_parse_ihdr env_A.malloc (mem_of 1 (ihdr_payload 0 0 0 1 0 0 0 1 8 2 0 0 1))
        ⟨13, MPNG_CHUNK_IHDR, 1⟩ FMT_RGB888 0 0 0 0).ihdr.interlace = 1 := by
  decide

/-- C8 (the code departs from the claim): for Indexed headers the stride is
`(width * depth + depth - 1) / 8`, which rounds up only for depth 8. Width 1 at depth 1 gives
stride 0 where `ceil(1 * 1 / 8) = 1`; width 3 at depth 2 gives 0 where `ceil(3 * 2 / 8) = 1`;
width 9 at depth 4 gives 4 where `ceil(9 * 4 / 8) = 5`. -/
theorem C8_indexed_stride_rounds_down :
    mpng_parse_ihdr env_A.malloc (mem_of 1 (ihdr_payload 0 0 0 1 0 0 0 1 1 3 0 0 0))
        ⟨13, MPNG_CHUNK_IHDR, 1⟩ FMT_RGB888 0 0 0 0
        = ⟨true, ⟨1, 1, 1, 3, 0, 0, 0⟩, 0, 4096, 4096, 4096 + 1⟩
      ∧ ⌈((1 * 1 : Nat) : ℚ) / 8⌉₊ = 1
      ∧ (mpng_parse_ihdr env_A.malloc (mem_of 1 (ihdr_payload 0 0 0 3 0 0 0 1 2 3 0 0 0))
        ⟨13, MPNG_CHUNK_IHDR, 1⟩ FMT_RGB888 0 0 0 0).bpl = 0
      ∧ ⌈((3 * 2 : Nat) : ℚ) / 8⌉₊ = 1
      ∧ (mpng_parse_ihdr env_A.malloc (mem_of 1 (ihdr_payload 0 0 0 9 0 0 0 1 4 3 0 0 0))
        ⟨13, MPNG_CHUNK_IHDR, 1⟩ FMT_RGB888 0 0 0 0).bpl = 4
      ∧ ⌈((9 * 4 : Nat) : ℚ) / 8⌉₊ = 5 := by
  refine ⟨by decide, ?_, by decide, ?_, by decide, ?_⟩
  · rw [Nat.ceil_eq_iff (by decide)]; norm_num
  · rw [Nat.ceil_eq_iff (by decide)]; norm_num
  · rw [Nat.ceil_eq_iff (by decide)]; norm_num

/-- C9 (the code departs from the claim): the products `3 * width` and `4 * width` are formed in
`unsigned int` and are reduced modulo `2^32`. The accepted Truecolor width `0x60000000` gives
stride `0x20000000`, not `3 * 0x60000000`; the accepted TruecolorAlpha width `0x40000000` gives
stride 0. -/
theorem C9_truecolor_stride_wraps :
    mpng_parse_ihdr env_A.malloc (mem_of 1 (ihdr_payload 0x60 0 0 0 0 0 0 1 8 2 0 0 0))
        ⟨13, MPNG_CHUNK_IHDR, 1⟩ FMT_RGB888 0 0 0 0
        = ⟨true, ⟨0x60000000, 1, 8, 2, 0, 0, 0⟩, 0x20000000, 4096, 4096, 4096 + 0x20000001⟩
      ∧ (0x20000000 : Nat) ≠ 3 * 0x60000000
      ∧ mpng_parse_ihdr env_A.malloc (mem_of 1 (ihdr_payload 0x40 0 0 0 0 0 0 1 8 6 0 0 0))
        ⟨13, MPNG_CHUNK_IHDR, 1⟩ FMT_ARGB8888 0 0 0 0
        = ⟨true, ⟨0x40000000, 1, 8, 6, 0, 0, 0⟩, 0, 4096, 4096, 4096 + 1⟩
      ∧ (0 : Nat) ≠ 4 * 0x40000000 := by
  decide

set_option maxRecDepth 100000 in
/-- C10 (the code departs from the claim): no palette chunk is accepted. The step stores
`chunk.size / 3` into `*palette_len` and passes that value as `entries`, which
`mpng_read_plte` requires to be 0, so every length that is a positive multiple of 3 is refused:
for every state the palette case returns `-1` and leaves the table as it was. On the palette
record of scenario B (two entries, after its Indexed header, with a working buffer at 4096) the
step returns `-1`, the entry count is 2 and entries 0 and 1 of the table are still 0. -/
theorem C10_palette_chunk_always_rejected :
    (∀ (σ : Type) (m : Mem) (chunk : mpng_chunk) (r : by_ref σ) (v : by_val),
        (case_PLTE m chunk r v).ret = -1 ∧ (case_PLTE m chunk r v).refs.palette = r.palette)
      ∧ (png_decode_iterate env_A (mem_of 16 png_B) 24 103 (init_refs env_A)
          FMT_ARGB8888 0 0 0).refs.ihdr = ⟨2, 2, 8, 3, 0, 0, 0⟩
      ∧ dword_be (ptr (mem_of 16 png_B) (49 + 4)) = MPNG_CHUNK_PLTE
      ∧ (png_decode_iterate env_A (mem_of 16 png_B) 49 103
          (png_decode_iterate env_A (mem_of 16 png_B) 24 103 (init_refs env_A)
            FMT_ARGB8888 0 0 0).refs
          FMT_ARGB8888 4096 4096 4102).ret = -1
      ∧ (png_decode_iterate env_A (mem_of 16 png_B) 49 103
          (png_decode_iterate env_A (mem_of 16 png_B) 24 103 (init_refs env_A)
            FMT_ARGB8888 0 0 0).refs
          FMT_ARGB8888 4096 4096 4102).refs.palette_len = 2
      ∧ (png_decode_iterate env_A (mem_of 16 png_B) 49 103
          (png_decode_iterate env_A (mem_of 16 png_B) 24 103 (init_refs env_A)
            FMT_ARGB8888 0 0 0).refs
          FMT_ARGB8888 4096 4096 4102).refs.palette 0 = 0
      ∧ (png_decode_iterate env_A (mem_of 16 png_B) 49 103
          (png_decode_iterate env_A (mem_of 16 png_B) 24 103 (init_refs env_A)
            FMT_ARGB8888 0 0 0).refs
          FMT_ARGB8888 4096 4096 4102).refs.palette 1 = 0 := by
  refine ⟨?_, by decide, by decide, by decide, by decide, by decide, by decide⟩
  intro σ m chunk r v
  refine ⟨case_PLTE_ret m chunk r v, ?_⟩
  unfold case_PLTE
  dsimp only
  rw [mpng_read_plte_rejects]
  rfl

/-! ## Framed records and the dispatch -/

/-- On a well-framed record the step is the dispatch on the chunk read, entered with the cursor
moved past the record. -/
theorem iterate_of_frame_ok {σ : Type} (E : Env σ) (m : Mem) (data data_end : Nat)
    (r : by_ref σ) (format : video_format) (pixels pixelsat pixelsend : Nat)
    (h : frame_ok m data data_end) :
    png_decode_iterate E m data data_end r format pixels pixelsat pixelsend
      = dispatch E m data_end ⟨dword_be (ptr m data), dword_be (ptr m (data + 4)), data + 4 + 4⟩
          r format (vals_after m data pixels pixelsat pixelsend) := by
  obtain ⟨h1, h2, h3, h4⟩ := h
  unfold png_decode_iterate vals_after
  dsimp only
  rw [if_neg h1, if_neg h2, if_neg h3, if_neg (fun hn => hn h4)]

theorem dispatch_TRNS {σ : Type} (E : Env σ) (m : Mem) (data_end : Nat) (chunk : mpng_chunk)
    (r : by_ref σ) (format : video_format) (v : by_val) (h : chunk.type = MPNG_CHUNK_TRNS) :
    dispatch E m data_end chunk r format v = case_TRNS r format v := by
  unfold dispatch
  rw [if_neg (by rw [h]; decide), if_neg (by rw [h]; decide), if_pos h]

theorem dispatch_IDAT {σ : Type} (E : Env σ) (m : Mem) (data_end : Nat) (chunk : mpng_chunk)
    (r : by_ref σ) (format : video_format) (v : by_val) (h : chunk.type = MPNG_CHUNK_IDAT) :
    dispatch E m data_end chunk r format v = case_IDAT E m chunk r v := by
  unfold dispatch
  rw [if_neg (by rw [h]; decide), if_neg (by rw [h]; decide), if_neg (by rw [h]; decide),
    if_pos h]

theorem dispatch_IEND {σ : Type} (E : Env σ) (m : Mem) (data_end : Nat) (chunk : mpng_chunk)
    (r : by_ref σ) (format : video_format) (v : by_val) (h : chunk.type = MPNG_CHUNK_IEND) :
    dispatch E m data_end chunk r format v = case_IEND E data_end chunk r format v := by
  unfold dispatch
  rw [if_neg (by rw [h]; decide), if_neg (by rw [h]; decide), if_neg (by rw [h]; decide),
    if_neg (by rw [h]; decide), if_pos h]

theorem case_TRNS_eq {σ : Type} (r : by_ref σ) (format : video_format) (v : by_val) :
    case_TRNS r format v = ⟨-1, r, v⟩ := by
  unfold case_TRNS
  split_ifs <;> rfl

/-- A call that reaches `return -1` hands 1 (true) to its caller. -/
theorem iterate_returned_of_error {σ : Type} (it : iterate_result σ) (h : it.ret = -1) :
    iterate_returned it = 1 := by
  unfold iterate_returned
  rw [h]
  exact to_bool_neg_one

/-! ## The scanline loop -/

theorem unfilter_line_bad_tag (heap : Mem) (bpl bpp tag fl : Nat) (thisout prevout : Int)
    (o : OutMem) (h : 4 < tag) :
    unfilter_line heap bpl bpp tag fl thisout prevout o = none := by
  unfold unfilter_line
  rw [if_neg (by omega), if_neg (by omega), if_neg (by omega), if_neg (by omega),
    if_neg (by omega)]

/-- The scanline loop over `n + 1` rows is the loop over `n` rows followed by row `n`. -/
theorem unfilter_rows_succ (heap : Mem) (bpl bpp n : Nat) (s : unfilter_state) :
    unfilter_rows heap bpl bpp (n + 1) s
      = (unfilter_rows heap bpl bpp n s).bind (unfilter_row heap bpl bpp n) := by
  unfold unfilter_rows for_loop
  simp [List.range_succ, List.foldl_append]

theorem unfilter_rows_zero (heap : Mem) (bpl bpp : Nat) (s : unfilter_state) :
    unfilter_rows heap bpl bpp 0 s = some s := by
  unfold unfilter_rows for_loop
  rfl

/-- After `n` scanlines the loop has either returned or `filteredline` stands on the tag byte of
row `n`, at `n * (bpl + 1)` bytes from where it started. -/
theorem unfilter_rows_filteredline (heap : Mem) (bpl bpp : Nat) (s0 : unfilter_state) (n : Nat) :
    unfilter_rows heap bpl bpp n s0 = none ∨
      ∃ s, unfilter_rows heap bpl bpp n s0 = some s
        ∧ s.filteredline = s0.filteredline + n * (bpl + 1) := by
  induction n with
  | zero => exact Or.inr ⟨s0, unfilter_rows_zero heap bpl bpp s0, by simp⟩
  | succ n ih =>
    rw [unfilter_rows_succ]
    rcases ih with h | ⟨s, hs, hf⟩
    · left; rw [h]; rfl
    · rw [hs, Option.some_bind]
      unfold unfilter_row
      dsimp only
      cases unfilter_line heap bpl bpp (load8 heap s.filteredline) (s.filteredline + 1)
          (↑(u32 (bpl * n))) s.prevout s.out with
      | none => left; rfl
      | some o =>
        right
        refine ⟨_, rfl, ?_⟩
        dsimp only
        rw [hf]; ring

/-- A scanline whose tag byte is above 4 makes the scanline loop return. -/
theorem unfilter_rows_bad_tag (heap : Mem) (bpl bpp : Nat) (s0 : unfilter_state) (y : Nat)
    (htag : 4 < load8 heap (s0.filteredline + y * (bpl + 1))) (n : Nat) (hy : y < n) :
    unfilter_rows heap bpl bpp n s0 = none := by
  induction n with
  | zero => omega
  | succ n ih =>
    rw [unfilter_rows_succ]
    by_cases hlt : y < n
    · rw [ih hlt]; rfl
    · have hyn : y = n := by omega
      subst hyn
      rcases unfilter_rows_filteredline heap bpl bpp s0 y with h | ⟨s, hs, hf⟩
      · rw [h]; rfl
      · rw [hs, Option.some_bind]
        unfold unfilter_row
        dsimp only
        rw [unfilter_line_bad_tag heap bpl bpp _ _ _ _ _ (by rw [hf]; exact htag)]

theorem finish_image_bad_tag {σ : Type} (E : Env σ) (heap : Mem) (ihdr : mpng_ihdr) (bpl : Nat)
    (palette : Nat → Nat) (format : video_format) (pixels : Nat) (y : Nat)
    (hy : y < ihdr.height) (htag : 4 < load8 heap (pixels + y * (bpl + 1))) :
    finish_image E heap ihdr bpl palette format pixels = none := by
  unfold finish_image
  by_cases hm : E.malloc (out_size ihdr format) = 0
  · rw [if_pos hm]
  · rw [if_neg hm]
    unfold out_final
    dsimp only
    rw [unfilter_rows_bad_tag heap bpl (bpp_packed ihdr) _ y htag ihdr.height hy]

/-! ## Claims C11 to C20 -/

set_option maxRecDepth 100000 in
/-- C11 (the code departs from the claim): no palette chunk is accepted, whatever the colour
type: `mpng_read_plte` returns false for every chunk when it is handed `chunk.size / 3` as
`entries` (the line that would accept the chunk for a non-Indexed image, line 152, is never
reached). On the file of scenario A with a one-entry palette chunk, after the Truecolor header
and with a working buffer at 4096, the well-framed palette record of payload length 3 makes the
step return `-1`; the table is unchanged (entries 0 and 1 are still 0). -/
theorem C11_palette_chunk_rejected_for_truecolor :
    (∀ (m : Mem) (ihdr : mpng_ihdr) (chunk : mpng_chunk) (pixels : Nat) (buffer : Nat → Nat),
        (mpng_read_plte m ihdr chunk pixels buffer
          (int_to_unsigned ((chunk.size / 3 : Nat) : Int))).ret = false)
      ∧ (png_decode_iterate env_A (mem_of 16 png_A_plte) 24 100 (init_refs env_A)
          FMT_RGB888 0 0 0).refs.ihdr = ihdr_truecolor 1 1
      ∧ frame_ok (mem_of 16 png_A_plte) 49 100
      ∧ dword_be (ptr (mem_of 16 png_A_plte) (49 + 4)) = MPNG_CHUNK_PLTE
      ∧ dword_be (ptr (mem_of 16 png_A_plte) 49) = 3
      ∧ (png_decode_iterate env_A (mem_of 16 png_A_plte) 49 100
          (png_decode_iterate env_A (mem_of 16 png_A_plte) 24 100 (init_refs env_A)
            FMT_RGB888 0 0 0).refs
          FMT_RGB888 4096 4096 4100).ret = -1
      ∧ (png_decode_iterate env_A (mem_of 16 png_A_plte) 49 100
          (png_decode_iterate env_A (mem_of 16 png_A_plte) 24 100 (init_refs env_A)
            FMT_RGB888 0 0 0).refs
          FMT_RGB888 4096 4096 4100).refs.palette 0 = 0
      ∧ (png_decode_iterate env_A (mem_of 16 png_A_plte) 49 100
          (png_decode_iterate env_A (mem_of 16 png_A_plte) 24 100 (init_refs env_A)
            FMT_RGB888 0 0 0).refs
          FMT_RGB888 4096 4096 4100).refs.palette 1 = 0 := by
  refine ⟨?_, by decide, by decide, by decide, by decide, by decide, by decide, by decide⟩
  intro m ihdr chunk pixels buffer
  rw [mpng_read_plte_rejects]

/-- A well-framed, CRC-valid data chunk (IDAT) met with a null `pixels` (no working buffer), or
for an Indexed image with a palette entry count of 0, makes `png_decode_iterate` reach the
`return -1` of line 235 and leaves everything behind its pointer parameters as it was, the
decompressor state and the heap included (the decompressor is not called: the result does not
mention it), with the write cursor `pixelsat` where it was. -/
theorem data_chunk_refused {σ : Type} (E : Env σ) (m : Mem)
    (data data_end : Nat) (r : by_ref σ) (format : video_format)
    (pixels pixelsat pixelsend : Nat) (hframe : frame_ok m data data_end)
    (htype : dword_be (ptr m (data + 4)) = MPNG_CHUNK_IDAT)
    (hstate : pixels = 0 ∨ (r.ihdr.color_type = 3 ∧ r.palette_len = 0)) :
    png_decode_iterate E m data data_end r format pixels pixelsat pixelsend
      = ⟨-1, r, vals_after m data pixels pixelsat pixelsend⟩ := by
  rw [iterate_of_frame_ok E m data data_end r format pixels pixelsat pixelsend hframe,
    dispatch_IDAT E m data_end _ r format _ htype]
  unfold case_IDAT
  exact if_pos hstate

set_option maxRecDepth 100000 in
/-- C12 (the code departs from the claim): for a data chunk met without a working buffer, or for
an Indexed image with no palette entries, `png_decode_iterate` does reach `return -1` (line 235)
without calling the decompressor or moving the write cursor, but it is declared `bool`: for
every such state the value its caller receives is 1 (true), the very value of `return 1` for a
completed image, so no error is reported. Shown on the data chunk of scenario A presented
before any header and on the data chunk of scenario B presented after its Indexed header with
an entry count of 0; and on the file made of the signature and the data chunk of scenario A,
`png_decode` returns true. -/
theorem C12_data_chunk_error_returned_as_true :
    (∀ (σ : Type) (E : Env σ) (m : Mem) (data data_end : Nat) (r : by_ref σ)
        (format : video_format) (pixels pixelsat pixelsend : Nat),
        frame_ok m data data_end → dword_be (ptr m (data + 4)) = MPNG_CHUNK_IDAT →
        (pixels = 0 ∨ (r.ihdr.color_type = 3 ∧ r.palette_len = 0)) →
        iterate_returned
          (png_decode_iterate E m data data_end r format pixels pixelsat pixelsend) = 1)
      ∧ to_bool 1 = 1
      ∧ frame_ok (mem_of 16 mem_idat_first) 24 48
      ∧ dword_be (ptr (mem_of 16 mem_idat_first) (24 + 4)) = MPNG_CHUNK_IDAT
      ∧ (png_decode_iterate env_A (mem_of 16 mem_idat_first) 24 48 (init_refs env_A)
          FMT_RGB888 0 0 0).ret = -1
      ∧ iterate_returned (png_decode_iterate env_A (mem_of 16 mem_idat_first) 24 48
          (init_refs env_A) FMT_RGB888 0 0 0) = 1
      ∧ png_decode env_A 1 (mem_of 16 mem_idat_first) 16 32 img_zero FMT_RGB888
          = some ⟨true, img_zero⟩
      ∧ frame_ok (mem_of 16 png_B) 67 103
      ∧ dword_be (ptr (mem_of 16 png_B) (67 + 4)) = MPNG_CHUNK_IDAT
      ∧ (png_decode_iterate env_A (mem_of 16 png_B) 24 103 (init_refs env_A)
          FMT_RGB888 0 0 0).refs.ihdr.color_type = 3
      ∧ (png_decode_iterate env_A (mem_of 16 png_B) 24 103 (init_refs env_A)
          FMT_RGB888 0 0 0).refs.palette_len = 0
      ∧ (png_decode_iterate env_A (mem_of 16 png_B) 67 103
          (png_decode_iterate env_A (mem_of 16 png_B) 24 103 (init_refs env_A)
            FMT_RGB888 0 0 0).refs FMT_RGB888 4096 4096 4102).ret = -1
      ∧ (png_decode_iterate env_A (mem_of 16 png_B) 67 103
          (png_decode_iterate env_A (mem_of 16 png_B) 24 103 (init_refs env_A)
            FMT_RGB888 0 0 0).refs FMT_RGB888 4096 4096 4102).vals.pixelsat = 4096
      ∧ iterate_returned (png_decode_iterate env_A (mem_of 16 png_B) 67 103
          (png_decode_iterate env_A (mem_of 16 png_B) 24 103 (init_refs env_A)
            FMT_RGB888 0 0 0).refs FMT_RGB888 4096 4096 4102) = 1 := by
  refine ⟨?_, by decide, by decide, by decide, by decide, by decide, by decide, by decide,
    by decide, by decide, by decide, by decide, by decide, by decide⟩
  intro σ E m data data_end r format pixels pixelsat pixelsend hframe htype hstate
  exact iterate_returned_of_error _
    (by rw [data_chunk_refused E m data data_end r format pixels pixelsat pixelsend hframe
      htype hstate])

/-- A well-framed, CRC-valid transparency chunk (tRNS) makes `png_decode_iterate` reach a
`return -1`, whatever the decode state, the requested format and the payload, with nothing
behind its pointer parameters changed: every branch of lines 211-225 is `return -1`. -/
theorem transparency_chunk_refused {σ : Type} (E : Env σ) (m : Mem)
    (data data_end : Nat) (r : by_ref σ) (format : video_format)
    (pixels pixelsat pixelsend : Nat) (hframe : frame_ok m data data_end)
    (htype : dword_be (ptr m (data + 4)) = MPNG_CHUNK_TRNS) :
    png_decode_iterate E m data data_end r format pixels pixelsat pixelsend
      = ⟨-1, r, vals_after m data pixels pixelsat pixelsend⟩ := by
  rw [iterate_of_frame_ok E m data data_end r format pixels pixelsat pixelsend hframe,
    dispatch_TRNS E m data_end _ r format _ htype, case_TRNS_eq]

set_option maxRecDepth 100000 in
/-- C13 (the code departs from the claim): every branch of the tRNS case is `return -1`
(lines 211-225), but `png_decode_iterate` is declared `bool`: for every state, format and
payload the value its caller receives for a transparency chunk is 1 (true), the very value of
`return 1` for a completed image, so the chunk is not reported as an error. Shown on the
transparency chunk after the Truecolor header of scenario A, requested as ARGB8888; and on the
file made of the signature and that transparency chunk, `png_decode` returns true. -/
theorem C13_transparency_chunk_error_returned_as_true :
    (∀ (σ : Type) (E : Env σ) (m : Mem) (data data_end : Nat) (r : by_ref σ)
        (format : video_format) (pixels pixelsat pixelsend : Nat),
        frame_ok m data data_end → dword_be (ptr m (data + 4)) = MPNG_CHUNK_TRNS →
        iterate_returned
          (png_decode_iterate E m data data_end r format pixels pixelsat pixelsend) = 1)
      ∧ to_bool 1 = 1
      ∧ frame_ok (mem_of 16 png_A_trns) 49 67
      ∧ dword_be (ptr (mem_of 16 png_A_trns) (49 + 4)) = MPNG_CHUNK_TRNS
      ∧ (png_decode_iterate env_A (mem_of 16 png_A_trns) 49 67
          (png_decode_iterate env_A (mem_of 16 png_A_trns) 24 67 (init_refs env_A)
            FMT_ARGB8888 0 0 0).refs FMT_ARGB8888 4096 4096 4100).ret = -1
      ∧ iterate_returned (png_decode_iterate env_A (mem_of 16 png_A_trns) 49 67
          (png_decode_iterate env_A (mem_of 16 png_A_trns) 24 67 (init_refs env_A)
            FMT_ARGB8888 0 0 0).refs FMT_ARGB8888 4096 4096 4100) = 1
      ∧ bytes_at (mem_of 16 mem_trns_first) 16 8 = mpng_magic
      ∧ frame_ok (mem_of 16 mem_trns_first) 24 42
      ∧ dword_be (ptr (mem_of 16 mem_trns_first) (24 + 4)) = MPNG_CHUNK_TRNS
      ∧ png_decode env_A 1 (mem_of 16 mem_trns_first) 16 26 img_zero FMT_ARGB8888
          = some ⟨true, img_zero⟩ := by
  refine ⟨?_, by decide, by decide, by decide, by decide, by decide, by decide, by decide,
    by decide, by decide⟩
  intro σ E m data data_end r format pixels pixelsat pixelsend hframe htype
  exact iterate_returned_of_error _
    (by rw [transparency_chunk_refused E m data data_end r format pixels pixelsat pixelsend
      hframe htype])

/-- A well-framed, CRC-valid chunk whose type is none of IHDR, PLTE, IDAT, IEND, tRNS: if bit
`0x20000000` of the type code is set, `png_decode_iterate` reaches `return 0` and leaves header,
palette, entry count, heap and every other state behind its pointers as it was, with the buffer
pointers `pixels`, `pixelsat`, `pixelsend` as passed; if the bit is clear it reaches the
`return -1` of line 541. -/
theorem unknown_chunk_by_ancillary_bit {σ : Type} (E : Env σ) (m : Mem)
    (data data_end : Nat) (r : by_ref σ) (format : video_format)
    (pixels pixelsat pixelsend : Nat) (hframe : frame_ok m data data_end)
    (h1 : dword_be (ptr m (data + 4)) ≠ MPNG_CHUNK_IHDR)
    (h2 : dword_be (ptr m (data + 4)) ≠ MPNG_CHUNK_PLTE)
    (h3 : dword_be (ptr m (data + 4)) ≠ MPNG_CHUNK_IDAT)
    (h4 : dword_be (ptr m (data + 4)) ≠ MPNG_CHUNK_IEND)
    (h5 : dword_be (ptr m (data + 4)) ≠ MPNG_CHUNK_TRNS) :
    (dword_be (ptr m (data + 4)) &&& 0x20000000 ≠ 0 →
        png_decode_iterate E m data data_end r format pixels pixelsat pixelsend
          = ⟨0, r, vals_after m data pixels pixelsat pixelsend⟩)
      ∧ (dword_be (ptr m (data + 4)) &&& 0x20000000 = 0 →
        png_decode_iterate E m data data_end r format pixels pixelsat pixelsend
          = ⟨-1, r, vals_after m data pixels pixelsat pixelsend⟩) := by
  rw [iterate_of_frame_ok E m data data_end r format pixels pixelsat pixelsend hframe]
  unfold dispatch
  dsimp only
  rw [if_neg h1, if_neg h2, if_neg h5, if_neg h3, if_neg h4]
  constructor
  · intro hb; rw [if_neg hb]
  · intro hb; rw [if_pos hb]

set_option maxRecDepth 100000 in
/-- C14 (the code departs from the claim): an unrecognized chunk with the ancillary bit set is
skipped as the claim says (the empty chunk `tEXt`: the call hands over 0 and the state is as it
was). For an unrecognized chunk with the bit clear the `return -1` of line 541 is reached, but
`png_decode_iterate` is declared `bool`: for every such chunk the value its caller receives is
1 (true), the very value of `return 1` for a completed image, so no error is reported. Shown on
the empty chunk `ABCD`; and on the file made of the signature and that chunk, `png_decode`
returns true. -/
theorem C14_unknown_critical_chunk_returned_as_true :
    (∀ (σ : Type) (E : Env σ) (m : Mem) (data data_end : Nat) (r : by_ref σ)
        (format : video_format) (pixels pixelsat pixelsend : Nat),
        frame_ok m data data_end →
        dword_be (ptr m (data + 4)) ≠ MPNG_CHUNK_IHDR →
        dword_be (ptr m (data + 4)) ≠ MPNG_CHUNK_PLTE →
        dword_be (ptr m (data + 4)) ≠ MPNG_CHUNK_IDAT →
        dword_be (ptr m (data + 4)) ≠ MPNG_CHUNK_IEND →
        dword_be (ptr m (data + 4)) ≠ MPNG_CHUNK_TRNS →
        dword_be (ptr m (data + 4)) &&& 0x20000000 = 0 →
        iterate_returned
          (png_decode_iterate E m data data_end r format pixels pixelsat pixelsend) = 1)
      ∧ to_bool 1 = 1
      ∧ frame_ok (mem_of 16 mem_critical) 24 36
      ∧ dword_be (ptr (mem_of 16 mem_critical) (24 + 4)) = 0x41424344
      ∧ dword_be (ptr (mem_of 16 mem_critical) (24 + 4)) &&& 0x20000000 = 0
      ∧ (png_decode_iterate env_A (mem_of 16 mem_critical) 24 36 (init_refs env_A)
          FMT_RGB888 4096 4097 4100).ret = -1
      ∧ iterate_returned (png_decode_iterate env_A (mem_of 16 mem_critical) 24 36
          (init_refs env_A) FMT_RGB888 4096 4097 4100) = 1
      ∧ bytes_at (mem_of 16 mem_critical) 16 8 = mpng_magic
      ∧ png_decode env_A 1 (mem_of 16 mem_critical) 16 20 img_zero FMT_RGB888
          = some ⟨true, img_zero⟩
      ∧ frame_ok (mem_of 16 mem_truncated) 24 36
      ∧ dword_be (ptr (mem_of 16 mem_truncated) (24 + 4)) &&& 0x20000000 ≠ 0
      ∧ iterate_returned (png_decode_iterate env_A (mem_of 16 mem_truncated) 24 36
          (init_refs env_A) FMT_RGB888 4096 4097 4100) = 0
      ∧ (png_decode_iterate env_A (mem_of 16 mem_truncated) 24 36 (init_refs env_A)
          FMT_RGB888 4096 4097 4100).vals = vals_after (mem_of 16 mem_truncated) 24 4096 4097 4100
      := by
  refine ⟨?_, by decide, by decide, by decide, by decide, by decide, by decide, by decide,
    by decide, by decide, by decide, by decide, by decide⟩
  intro σ E m data data_end r format pixels pixelsat pixelsend hframe h1 h2 h3 h4 h5 hb
  exact iterate_returned_of_error _
    (by rw [(unknown_chunk_by_ancillary_bit E m data data_end r format pixels pixelsat
      pixelsend hframe h1 h2 h3 h4 h5).2 hb])

/-- A well-framed, CRC-valid terminating chunk (IEND) whose payload length is nonzero, or after
which the position is not `data_end`, makes `png_decode_iterate` reach the `return -1` of line
273 or 275 and leaves everything behind its pointer parameters as it was; in particular no
image is stored through `img`. -/
theorem terminating_chunk_refused {σ : Type} (E : Env σ) (m : Mem)
    (data data_end : Nat) (r : by_ref σ) (format : video_format)
    (pixels pixelsat pixelsend : Nat) (hframe : frame_ok m data data_end)
    (htype : dword_be (ptr m (data + 4)) = MPNG_CHUNK_IEND)
    (hbad : dword_be (ptr m data) ≠ 0 ∨ data + 4 + 4 + dword_be (ptr m data) + 4 ≠ data_end) :
    png_decode_iterate E m data data_end r format pixels pixelsat pixelsend
      = ⟨-1, r, vals_after m data pixels pixelsat pixelsend⟩ := by
  rw [iterate_of_frame_ok E m data data_end r format pixels pixelsat pixelsend hframe,
    dispatch_IEND E m data_end _ r format _ htype]
  unfold case_IEND vals_after
  dsimp only
  by_cases hd : data + 4 + 4 + dword_be (ptr m data) + 4 ≠ data_end
  · rw [if_pos hd]
  · rw [if_neg hd]
    rcases hbad with hs | hs
    · rw [if_pos hs]
    · exact absurd hs hd

set_option maxRecDepth 100000 in
/-- C15 (the code departs from the claim): a terminating chunk with a nonzero payload length,
or followed by trailing bytes, does make `png_decode_iterate` reach `return -1` (lines 273 and
275) with no image stored, but the function is declared `bool`: for every such chunk the value
its caller receives is 1 (true), the very value of `return 1` for a completed image, so no
error is reported. Shown on a terminating chunk with a payload of one byte and on the
terminating chunk of scenario A followed by one trailing byte; and on the file made of the
signature and the terminating chunk with a payload, `png_decode` returns true. -/
theorem C15_terminating_chunk_error_returned_as_true :
    (∀ (σ : Type) (E : Env σ) (m : Mem) (data data_end : Nat) (r : by_ref σ)
        (format : video_format) (pixels pixelsat pixelsend : Nat),
        frame_ok m data data_end → dword_be (ptr m (data + 4)) = MPNG_CHUNK_IEND →
        (dword_be (ptr m data) ≠ 0 ∨ data + 4 + 4 + dword_be (ptr m data) + 4 ≠ data_end) →
        iterate_returned
            (png_decode_iterate E m data data_end r format pixels pixelsat pixelsend) = 1
          ∧ (png_decode_iterate E m data data_end r format pixels pixelsat pixelsend).refs.img
              = r.img)
      ∧ to_bool 1 = 1
      ∧ frame_ok (mem_of 16 mem_iend_payload) 24 37
      ∧ dword_be (ptr (mem_of 16 mem_iend_payload) (24 + 4)) = MPNG_CHUNK_IEND
      ∧ dword_be (ptr (mem_of 16 mem_iend_payload) 24) = 1
      ∧ (png_decode_iterate env_A (mem_of 16 mem_iend_payload) 24 37 (init_refs env_A)
          FMT_RGB888 0 0 0).ret = -1
      ∧ iterate_returned (png_decode_iterate env_A (mem_of 16 mem_iend_payload) 24 37
          (init_refs env_A) FMT_RGB888 0 0 0) = 1
      ∧ bytes_at (mem_of 16 mem_iend_payload) 16 8 = mpng_magic
      ∧ png_decode env_A 1 (mem_of 16 mem_iend_payload) 16 21 img_zero FMT_RGB888
          = some ⟨true, img_zero⟩
      ∧ frame_ok (mem_of 16 (png_A ++ [0])) 73 86
      ∧ dword_be (ptr (mem_of 16 (png_A ++ [0])) (73 + 4)) = MPNG_CHUNK_IEND
      ∧ 73 + 4 + 4 + dword_be (ptr (mem_of 16 (png_A ++ [0])) 73) + 4 ≠ 86
      ∧ (png_decode_iterate env_A (mem_of 16 (png_A ++ [0])) 73 86 (init_refs env_A)
          FMT_RGB888 0 0 0).ret = -1
      ∧ iterate_returned (png_decode_iterate env_A (mem_of 16 (png_A ++ [0])) 73 86
          (init_refs env_A) FMT_RGB888 0 0 0) = 1 := by
  refine ⟨?_, by decide, by decide, by decide, by decide, by decide, by decide, by decide,
    by decide, by decide, by decide, by decide, by decide, by decide⟩
  intro σ E m data data_end r format pixels pixelsat pixelsend hframe htype hbad
  have h := terminating_chunk_refused E m data data_end r format pixels pixelsat pixelsend
    hframe htype hbad
  exact ⟨iterate_returned_of_error _ (by rw [h]), by rw [h]⟩

set_option maxRecDepth 100000 in
/-- C16 (the code departs from the claim): scenario C on the file of scenario A, the
decompressor producing one byte fewer than the capacity of 4 bytes. With cursor and buffer
pointers carried by hand, the data step leaves the write cursor at 4099, one short of the end
marker 4100, the flush adds nothing and the terminating step returns `-1` with no image stored:
so far as the claim says. But `png_decode` does not return failure: run on that step, the loop
of the driver reads the `-1` back as `1` and returns true; and run on the file, `png_decode`
never reaches the terminating record and never returns. -/
theorem C16_shortfall_not_reported_as_failure :
    (png_decode_iterate env_short (mem_of 16 png_A) 49 85
        (png_decode_iterate env_short (mem_of 16 png_A) 24 85 (init_refs env_short)
          FMT_RGB888 0 0 0).refs
        FMT_RGB888 4096 4096 4100).vals.pixelsat = 4099
      ∧ (png_decode_iterate env_short (mem_of 16 png_A) 73 85
        (png_decode_iterate env_short (mem_of 16 png_A) 49 85
          (png_decode_iterate env_short (mem_of 16 png_A) 24 85 (init_refs env_short)
            FMT_RGB888 0 0 0).refs
          FMT_RGB888 4096 4096 4100).refs
        FMT_RGB888 4096 4099 4100).ret = -1
      ∧ (png_decode_iterate env_short (mem_of 16 png_A) 73 85
        (png_decode_iterate env_short (mem_of 16 png_A) 49 85
          (png_decode_iterate env_short (mem_of 16 png_A) 24 85 (init_refs env_short)
            FMT_RGB888 0 0 0).refs
          FMT_RGB888 4096 4096 4100).refs
        FMT_RGB888 4096 4099 4100).refs.img = img_zero
      ∧ png_decode_loop env_short (mem_of 16 png_A) 73 85 FMT_RGB888 4096 4099 4100 1
        (png_decode_iterate env_short (mem_of 16 png_A) 49 85
          (png_decode_iterate env_short (mem_of 16 png_A) 24 85 (init_refs env_short)
            FMT_RGB888 0 0 0).refs
          FMT_RGB888 4096 4096 4100).refs = some ⟨true, img_zero⟩
      ∧ ∀ fuel, png_decode env_short fuel (mem_of 16 png_A) 16 69 img_zero FMT_RGB888 = none := by
  refine ⟨by decide, by decide, by decide, by decide, ?_⟩
  intro fuel
  rw [png_decode_eq_loop env_short fuel (mem_of 16 png_A) 16 69 img_zero FMT_RGB888 (by decide)
    (Or.inl rfl) (by decide) (by decide)]
  exact loop_never_returns env_short (mem_of 16 png_A) (16 + 8) (16 + 69) FMT_RGB888 0 0 fuel
    (init_refs env_short) (by decide)

/-- C17 (the code departs from the claim): a Truecolor image of height 1, two pixels
(10, 20, 30), (10, 20, 30), filter tag 4 (Paeth). The forward filter gives the working buffer
4, 10, 20, 30, 0, 0, 0; the reconstruction loop of the code returns 10, 20, 30, 0, 0, 0, not the
original scanline. (With `height == 1` the previous row is `out` itself, so the byte read as
upper-left is the byte just written.) The same first scanline followed by a second one, height
2, is reconstructed exactly. -/
theorem C17_height_one_paeth_round_trip_fails :
    filter_image_spec 3 [(4, [10, 20, 30, 10, 20, 30])] (List.replicate 6 0)
        = [4, 10, 20, 30, 0, 0, 0]
      ∧ (out_final (fun _ => 0)
            (mem_of 4096
              (filter_image_spec 3 [(4, [10, 20, 30, 10, 20, 30])] (List.replicate 6 0)))
            (ihdr_truecolor 2 1) 6 (fun _ => 0) FMT_RGB888 4096).map (fun o => block_of o 6)
          = some [10, 20, 30, 0, 0, 0]
      ∧ [10, 20, 30, 0, 0, 0] ≠ [10, 20, 30, 10, 20, 30]
      ∧ (out_final (fun _ => 0)
            (mem_of 4096
              (filter_image_spec 3
                [(4, [10, 20, 30, 10, 20, 30]), (4, [11, 21, 31, 11, 21, 31])]
                (List.replicate 6 0)))
            (ihdr_truecolor 2 2) 6 (fun _ => 0) FMT_RGB888 4096).map (fun o => block_of o 12)
          = some ([10, 20, 30, 10, 20, 30] ++ [11, 21, 31, 11, 21, 31]) := by
  decide

/-- C18 (the code departs from the claim): a Truecolor image of height 1, two pixels, filter
tag 4 (Paeth), filtered bytes 1, 1, 1, 1, 1, 1. With an all-zero previous row the spec's
reconstruction is `filtered[x] + predictor(a, 0, 0)`, the same as Sub: 1, 1, 1, 2, 2, 2. The
code returns 1, 1, 1, 1, 1, 1: its previous row is the output row itself, so for the second
pixel it takes `c = a` and the predictor yields `b = 0`. -/
theorem C18_height_one_paeth_is_not_sub :
    reconstruct_row_spec 4 3 (List.replicate 6 0) [1, 1, 1, 1, 1, 1] = [1, 1, 1, 2, 2, 2]
      ∧ reconstruct_row_spec 1 3 (List.replicate 6 0) [1, 1, 1, 1, 1, 1] = [1, 1, 1, 2, 2, 2]
      ∧ prevout_init (ihdr_truecolor 2 1) = 0
      ∧ (out_final (fun _ => 0) (mem_of 4096 [4, 1, 1, 1, 1, 1, 1]) (ihdr_truecolor 2 1) 6
            (fun _ => 0) FMT_RGB888 4096).map (fun o => block_of o 6)
          = some [1, 1, 1, 1, 1, 1]
      ∧ paeth_prediction 1 0 1 = 0
      ∧ predictor_spec 1 0 0 = 1 := by
  decide

/-- A well-framed, CRC-valid terminating chunk met with a working buffer in which, as populated
after the final flush, the tag byte of some scanline `y` below the height (the byte at
`pixels + y * (bpl + 1)`) is not among 0, 1, 2, 3, 4, makes `png_decode_iterate` reach
`return -1` (line 400, or an earlier one), and the image behind `img` is what it was before the
step: no Output Image is stored. -/
theorem unknown_filter_tag_refused {σ : Type} (E : Env σ) (m : Mem)
    (data data_end : Nat) (r : by_ref σ) (format : video_format)
    (pixels pixelsat pixelsend : Nat) (y : Nat) (hframe : frame_ok m data data_end)
    (htype : dword_be (ptr m (data + 4)) = MPNG_CHUNK_IEND) (hy : y < r.ihdr.height)
    (htag : 4 < load8 (heap_after_flush E r pixels pixelsat pixelsend)
      (pixels + y * (r.bpl + 1))) :
    (png_decode_iterate E m data data_end r format pixels pixelsat pixelsend).ret = -1
      ∧ (png_decode_iterate E m data data_end r format pixels pixelsat pixelsend).refs.img
          = r.img := by
  have hret : (png_decode_iterate E m data data_end r format pixels pixelsat pixelsend).ret
      = -1 := by
    rw [iterate_of_frame_ok E m data data_end r format pixels pixelsat pixelsend hframe,
      dispatch_IEND E m data_end _ r format _ htype]
    unfold case_IEND vals_after
    dsimp only
    unfold heap_after_flush at htag
    rw [finish_image_bad_tag E _ r.ihdr r.bpl r.palette format pixels y hy htag]
    split_ifs <;> rfl
  exact ⟨hret, iterate_img_unchanged E m data data_end r format pixels pixelsat pixelsend
    (by rw [hret]; decide)⟩

set_option maxRecDepth 100000 in
/-- C19 (the code departs from the claim): a scanline whose filter tag byte is not among
0, 1, 2, 3, 4 does make the terminating step reach `return -1` (line 400) with no image stored,
but `png_decode_iterate` is declared `bool`: for every such state the value its caller receives
is 1 (true), the very value of `return 1` for a completed image, so no error is reported. Shown
on the terminating chunk of scenario A met with the fully populated working buffer
5, 10, 20, 30, whose only scanline carries the tag 5: the loop of the driver, run from that
step, returns true. -/
theorem C19_unknown_filter_tag_returned_as_true :
    (∀ (σ : Type) (E : Env σ) (m : Mem) (data data_end : Nat) (r : by_ref σ)
        (format : video_format) (pixels pixelsat pixelsend : Nat) (y : Nat),
        frame_ok m data data_end → dword_be (ptr m (data + 4)) = MPNG_CHUNK_IEND →
        y < r.ihdr.height →
        4 < load8 (heap_after_flush E r pixels pixelsat pixelsend) (pixels + y * (r.bpl + 1)) →
        iterate_returned
            (png_decode_iterate E m data data_end r format pixels pixelsat pixelsend) = 1
          ∧ (png_decode_iterate E m data data_end r format pixels pixelsat pixelsend).refs.img
              = r.img)
      ∧ to_bool 1 = 1
      ∧ frame_ok (mem_of 16 png_A) 73 85
      ∧ dword_be (ptr (mem_of 16 png_A) (73 + 4)) = MPNG_CHUNK_IEND
      ∧ refs_bad_tag.ihdr.height = 1
      ∧ load8 (heap_after_flush env_A refs_bad_tag 4096 4100 4100)
          (4096 + 0 * (refs_bad_tag.bpl + 1)) = 5
      ∧ (png_decode_iterate env_A (mem_of 16 png_A) 73 85 refs_bad_tag FMT_RGB888
          4096 4100 4100).ret = -1
      ∧ iterate_returned (png_decode_iterate env_A (mem_of 16 png_A) 73 85 refs_bad_tag
          FMT_RGB888 4096 4100 4100) = 1
      ∧ (png_decode_iterate env_A (mem_of 16 png_A) 73 85 refs_bad_tag FMT_RGB888
          4096 4100 4100).refs.img = refs_bad_tag.img
      ∧ png_decode_loop env_A (mem_of 16 png_A) 73 85 FMT_RGB888 4096 4100 4100 1 refs_bad_tag
          = some ⟨true, refs_bad_tag.img⟩ := by
  refine ⟨?_, by decide, by decide, by decide, by decide, by decide, by decide, by decide,
    by decide, by decide⟩
  intro σ E m data data_end r format pixels pixelsat pixelsend y hframe htype hy htag
  have h := unknown_filter_tag_refused E m data data_end r format pixels pixelsat pixelsend y
    hframe htype hy htag
  exact ⟨iterate_returned_of_error _ h.1, h.2⟩

set_option maxRecDepth 100000 in
/-- C20 (the code departs from the claim): `word_be` returns `uint16_t`, so the red component
`buf[0] << 16` is cut off before `| 0xFF000000`. On scenario A decoded as ARGB8888 (cursor and
buffer pointers carried by hand) the reconstructed triplet is (10, 20, 30) and the output pixel,
read as a 32-bit word, is `0xFF00141E`, not `0xFF0A141E`; the same holds for XRGB8888. No value
of `word_be` reaches bit 16. -/
theorem C20_red_component_lost :
    (∀ buf : Nat → Nat, word_be buf < 65536)
      ∧ (png_decode_iterate env_A (mem_of 16 png_A) 73 85
        (png_decode_iterate env_A (mem_of 16 png_A) 49 85
          (png_decode_iterate env_A (mem_of 16 png_A) 24 85 (init_refs env_A)
            FMT_ARGB8888 0 0 0).refs
          FMT_ARGB8888 4096 4096 4100).refs
        FMT_ARGB8888 4096 4100 4100).refs.img
          = ⟨1, 1, 4, some FMT_ARGB8888, some [30, 20, 0, 255]⟩
      ∧ (png_decode_iterate env_A (mem_of 16 png_A) 73 85
        (png_decode_iterate env_A (mem_of 16 png_A) 49 85
          (png_decode_iterate env_A (mem_of 16 png_A) 24 85 (init_refs env_A)
            FMT_XRGB8888 0 0 0).refs
          FMT_XRGB8888 4096 4096 4100).refs
        FMT_XRGB8888 4096 4100 4100).refs.img
          = ⟨1, 1, 4, some FMT_XRGB8888, some [30, 20, 0, 255]⟩
      ∧ pixel_word [30, 20, 0, 255] 0 = 0xFF00141E
      ∧ 0xFF000000 ||| (10 <<< 16) ||| (20 <<< 8) ||| 30 = 0xFF0A141E := by
  refine ⟨?_, by decide, by decide, by decide, by decide⟩
  intro buf
  unfold word_be u16
  exact Nat.mod_lt _ (by decide)

/-! ## Claims C21 to C30 -/

set_option maxRecDepth 100000 in
/-- C21 (the code departs from the claim): scenario B decoded as ARGB8888. The palette expansion
writes 3 bytes per pixel whatever the format, and the expansion to 32 bits (line 515) is done
for colour type 2 only, so an Indexed image is left as packed RGB triplets in a block of
`4 * w * h` bytes under `pitch = 4 * width`. The terminating step returns `1` with the bytes
FF 00 00, 00 FF 00, 00 FF 00, FF 00 00 and 4 untouched bytes; read as 4-byte pixels they are
`0x000000FF`, `0xFF0000FF`, `0x0000FF00`, `0` instead of opaque red, green, green, red. -/
theorem C21_indexed_left_as_triplets_under_32bpp :
    (png_decode_iterate env_A (mem_of 16 png_B) 91 103 refs_B FMT_ARGB8888
        4096 4102 4102).ret = 1
      ∧ (png_decode_iterate env_A (mem_of 16 png_B) 91 103 refs_B FMT_ARGB8888
        4096 4102 4102).refs.img
          = ⟨2, 2, 8, some FMT_ARGB8888,
              some [255, 0, 0, 0, 255, 0, 0, 255, 0, 255, 0, 0, 0, 0, 0, 0]⟩
      ∧ pixel_word [255, 0, 0, 0, 255, 0, 0, 255, 0, 255, 0, 0, 0, 0, 0, 0] 0 = 0x000000FF
      ∧ pixel_word [255, 0, 0, 0, 255, 0, 0, 255, 0, 255, 0, 0, 0, 0, 0, 0] 1 = 0xFF0000FF
      ∧ pixel_word [255, 0, 0, 0, 255, 0, 0, 255, 0, 255, 0, 0, 0, 0, 0, 0] 2 = 0x0000FF00
      ∧ pixel_word [255, 0, 0, 0, 255, 0, 0, 255, 0, 255, 0, 0, 0, 0, 0, 0] 3 = 0
      ∧ palette_B 0 = 0xFFFF0000 ∧ palette_B 1 = 0xFF00FF00 := by
  decide

/-- C22 (the code departs from the claim): an Indexed image of width 1, height 1, depth 1 whose
only scanline byte is `0x80` (the pixel has index 1, green). Each pass of the expansion loop
emits 8 pixels for a source byte (lines 427-433), whatever the width. With the true stride 1 the
3-byte output holds FF 00 00, the colour of index 0 (the least significant bit), and 21 bytes
are written before the start of `out` (the byte at offset -2 becomes 255). With the stride 0
that the header parser computes for this image the source byte is read at offset -1, before
the block. -/
theorem C22_padding_bits_expanded_outside_output :
    out_size (ihdr_indexed 1 1 1) FMT_RGB888 = 3
      ∧ palette_B ((0x80 >>> 7) &&& 1) = 0xFF00FF00
      ∧ (out_final (fun _ => 0) (mem_of 4096 [0, 0x80]) (ihdr_indexed 1 1 1) 1 palette_B
            FMT_RGB888 4096).map (fun o => block_of o 3) = some [255, 0, 0]
      ∧ (out_final (fun _ => 0) (mem_of 4096 [0, 0x80]) (ihdr_indexed 1 1 1) 1 palette_B
            FMT_RGB888 4096).map (fun o => oload8 o (-2)) = some 255
      ∧ (mpng_parse_ihdr env_A.malloc (mem_of 1 (ihdr_payload 0 0 0 1 0 0 0 1 1 3 0 0 0))
            ⟨13, MPNG_CHUNK_IHDR, 1⟩ FMT_RGB888 0 0 0 0).bpl = 0
      ∧ (out_final (fun a => if a = -1 then 0x01 else 0) (mem_of 4096 [0]) (ihdr_indexed 1 1 1)
            0 palette_B FMT_RGB888 4096).map (fun o => block_of o 3) = some [0, 255, 0]
      ∧ (out_final (fun _ => 0) (mem_of 4096 [0]) (ihdr_indexed 1 1 1)
            0 palette_B FMT_RGB888 4096).map (fun o => block_of o 3) = some [255, 0, 0] := by
  decide

/-- A loop whose body does not use the counter is the iterated body. -/
theorem foldl_range_const {α : Type} (f : α → α) (n : Nat) (s : α) :
    (List.range n).foldl (fun s _ => f s) s = f^[n] s := by
  induction n with
  | zero => rfl
  | succ n ih => rw [List.range_succ, List.foldl_append, ih, Function.iterate_succ_apply']; rfl

/-- The loop `do { body } while (--c)` with a body that does not use the counter. -/
theorem do_while_const {α : Type} (c : Nat) (f : α → α) (s : α) :
    do_while c (fun _ t => f t) s = f^[do_while_passes c] s := by
  unfold do_while
  exact foldl_range_const f _ s

/-- The state of the depth-8 expansion after `k` of its `n` passes: the cursors stand at
`n - k` and `3 * (n - k)`, the index bytes below the read cursor are as they were, and the
pixels from `n - k` on hold the triplets of their palette entries. -/
theorem depth8_passes (palette : Nat → Nat) (o : OutMem) (n k : Nat) (hk : k ≤ n) :
    ((fun t : unpack_state =>
        put_rgb (palette (oload8 ({ t with inp := t.inp - 1 } : unpack_state).out
          ({ t with inp := t.inp - 1 } : unpack_state).inp))
          ({ t with inp := t.inp - 1 } : unpack_state))^[k]
        (⟨o, (n : Int), ((3 * n : Nat) : Int)⟩ : unpack_state)).inp = ((n - k : Nat) : Int)
    ∧ ((fun t : unpack_state =>
        put_rgb (palette (oload8 ({ t with inp := t.inp - 1 } : unpack_state).out
          ({ t with inp := t.inp - 1 } : unpack_state).inp))
          ({ t with inp := t.inp - 1 } : unpack_state))^[k]
        (⟨o, (n : Int), ((3 * n : Nat) : Int)⟩ : unpack_state)).outp = ((3 * (n - k) : Nat) : Int)
    ∧ (∀ j : Nat, j < n - k →
        ((fun t : unpack_state =>
          put_rgb (palette (oload8 ({ t with inp := t.inp - 1 } : unpack_state).out
            ({ t with inp := t.inp - 1 } : unpack_state).inp))
            ({ t with inp := t.inp - 1 } : unpack_state))^[k]
          (⟨o, (n : Int), ((3 * n : Nat) : Int)⟩ : unpack_state)).out (j : Int) = o (j : Int))
    ∧ (∀ i : Nat, n - k ≤ i → i < n →
        ((fun t : unpack_state =>
          put_rgb (palette (oload8 ({ t with inp := t.inp - 1 } : unpack_state).out
            ({ t with inp := t.inp - 1 } : unpack_state).inp))
            ({ t with inp := t.inp - 1 } : unpack_state))^[k]
          (⟨o, (n : Int), ((3 * n : Nat) : Int)⟩ : unpack_state)).out ((3 * i : Nat) : Int)
            = u8 (u32 (palette (oload8 o (i : Int))) >>> 16)
        ∧ ((fun t : unpack_state =>
          put_rgb (palette (oload8 ({ t with inp := t.inp - 1 } : unpack_state).out
            ({ t with inp := t.inp - 1 } : unpack_state).inp))
            ({ t with inp := t.inp - 1 } : unpack_state))^[k]
          (⟨o, (n : Int), ((3 * n : Nat) : Int)⟩ : unpack_state)).out ((3 * i + 1 : Nat) : Int)
            = u8 (u32 (palette (oload8 o (i : Int))) >>> 8)
        ∧ ((fun t : unpack_state =>
          put_rgb (palette (oload8 ({ t with inp := t.inp - 1 } : unpack_state).out
            ({ t with inp := t.inp - 1 } : unpack_state).inp))
            ({ t with inp := t.inp - 1 } : unpack_state))^[k]
          (⟨o, (n : Int), ((3 * n : Nat) : Int)⟩ : unpack_state)).out ((3 * i + 2 : Nat) : Int)
            = u8 (u32 (palette (oload8 o (i : Int))) >>> 0)) := by
  induction k with
  | zero =>
    refine ⟨rfl, rfl, fun j _ => rfl, fun i h1 h2 => ?_⟩
    omega
  | succ k ih =>
    obtain ⟨hinp, houtp, hsrc, hdst⟩ := ih (by omega)
    rw [Function.iterate_succ_apply']
    generalize ((fun t : unpack_state =>
        put_rgb (palette (oload8 ({ t with inp := t.inp - 1 } : unpack_state).out
          ({ t with inp := t.inp - 1 } : unpack_state).inp))
          ({ t with inp := t.inp - 1 } : unpack_state))^[k]
        (⟨o, (n : Int), ((3 * n : Nat) : Int)⟩ : unpack_state)) = t at hinp houtp hsrc hdst ⊢
    have hread : oload8 t.out (t.inp - 1) = oload8 o ((n - (k + 1) : Nat) : Int) := by
      have h1 : t.inp - 1 = ((n - (k + 1) : Nat) : Int) := by rw [hinp]; omega
      rw [h1]
      unfold oload8
      rw [hsrc (n - (k + 1)) (by omega)]
    unfold put_rgb
    dsimp only
    rw [hread, houtp, hinp]
    refine ⟨by omega, by omega, fun j hj => ?_, fun i h1 h2 => ?_⟩
    · unfold store8
      rw [if_neg (by omega), if_neg (by omega), if_neg (by omega)]
      exact hsrc j (by omega)
    · by_cases hi : i = n - (k + 1)
      · subst hi
        unfold store8
        refine ⟨?_, ?_, ?_⟩
        · rw [if_pos (by omega)]
        · rw [if_neg (by omega), if_pos (by omega)]
        · rw [if_neg (by omega), if_neg (by omega), if_pos (by omega)]
      · obtain ⟨ha, hb, hc⟩ := hdst i (by omega) h2
        unfold store8
        refine ⟨?_, ?_, ?_⟩
        · rw [if_neg (by omega), if_neg (by omega), if_neg (by omega)]; exact ha
        · rw [if_neg (by omega), if_neg (by omega), if_neg (by omega)]; exact hb
        · rw [if_neg (by omega), if_neg (by omega), if_neg (by omega)]; exact hc

/-- The depth-8 expansion where no size wraps: for an Indexed depth-8 header with `0 < width`,
`0 < height` and `3 * width * height < 2^32`, decoded with format RGB888, when the scanline loop
ends normally with the memory `s.out`, the memory `o` left by the in-place, last-to-first
expansion holds at offsets `3 * i`, `3 * i + 1`, `3 * i + 2` the red, green and blue bytes
(bits 16-23, 8-15 and 0-7) of the palette entry selected by the byte at offset `i` of `s.out`,
for every pixel `i < width * height`: every index byte is read before the stores reach it.
(The statement is about the values at these offsets; that the zero row which the scanline loop
sets up lies inside the allocated block is not part of it.) -/
theorem depth8_expansion_in_range (out_init : OutMem) (heap : Mem) (ihdr : mpng_ihdr)
    (bpl : Nat) (palette : Nat → Nat) (pixels : Nat) (hct : ihdr.color_type = 3)
    (hd : ihdr.depth = 8) (hw : 0 < ihdr.width) (hh : 0 < ihdr.height)
    (hsize : 3 * ihdr.width * ihdr.height < 4294967296)
    (hrows : (unfilter_rows heap bpl (bpp_packed ihdr) ihdr.height
      ⟨memset_zero out_init (prevout_init ihdr) (u32 (4 * ihdr.width * 1)), prevout_init ihdr,
        pixels⟩).isSome = true) :
    ∃ (s : unfilter_state) (o : OutMem),
      unfilter_rows heap bpl (bpp_packed ihdr) ihdr.height
          ⟨memset_zero out_init (prevout_init ihdr) (u32 (4 * ihdr.width * 1)), prevout_init ihdr,
            pixels⟩ = some s
        ∧ out_final out_init heap ihdr bpl palette FMT_RGB888 pixels = some o
        ∧ ∀ i : Nat, i < ihdr.width * ihdr.height →
            oload8 o ((3 * i : Nat) : Int) = u8 (u32 (palette (oload8 s.out (i : Int))) >>> 16)
            ∧ oload8 o ((3 * i + 1 : Nat) : Int)
                = u8 (u32 (palette (oload8 s.out (i : Int))) >>> 8)
            ∧ oload8 o ((3 * i + 2 : Nat) : Int)
                = u8 (u32 (palette (oload8 s.out (i : Int))) >>> 0) := by
  obtain ⟨s, hs⟩ := Option.isSome_iff_exists.mp hrows
  have hpos : 0 < ihdr.width * ihdr.height := Nat.mul_pos hw hh
  rw [Nat.mul_assoc] at hsize
  have hn : u32 (ihdr.width * ihdr.height) = ihdr.width * ihdr.height := by
    unfold u32; omega
  have h3n : u32 (3 * ihdr.width * ihdr.height) = 3 * (ihdr.width * ihdr.height) := by
    unfold u32; rw [Nat.mul_assoc]; omega
  have hpass : do_while_passes (u32 (ihdr.width * ihdr.height)) = ihdr.width * ihdr.height := by
    unfold do_while_passes
    rw [hn, hn, if_neg (by omega)]
  refine ⟨s, unpack_depth8 palette ihdr s.out, hs, ?_, ?_⟩
  · unfold out_final
    dsimp only
    rw [hs]
    dsimp only
    rw [if_neg (fun h => h.1 rfl)]
    unfold unpack_paletted
    rw [if_pos hct, if_neg (by omega), if_neg (by omega), if_neg (by omega), if_pos hd]
  · intro i hi
    have hinv := depth8_passes palette s.out (ihdr.width * ihdr.height)
      (ihdr.width * ihdr.height) (Nat.le_refl _)
    have hout : unpack_depth8 palette ihdr s.out
        = ((fun t : unpack_state =>
            put_rgb (palette (oload8 ({ t with inp := t.inp - 1 } : unpack_state).out
              ({ t with inp := t.inp - 1 } : unpack_state).inp))
              ({ t with inp := t.inp - 1 } : unpack_state))^[ihdr.width * ihdr.height]
            (⟨s.out, ((ihdr.width * ihdr.height : Nat) : Int),
              ((3 * (ihdr.width * ihdr.height) : Nat) : Int)⟩ : unpack_state)).out := by
      unfold unpack_depth8
      rw [do_while_const, hpass, hn, h3n]
    rw [hout]
    obtain ⟨ha, hb, hc⟩ := hinv.2.2.2 i (by omega) hi
    have hload : ∀ (b : OutMem) (p : Int) (v : Nat), b p = u8 v → oload8 b p = u8 v := by
      intro b p v h
      unfold oload8
      rw [h]
      unfold u8
      exact Nat.mod_mod _ _
    exact ⟨hload _ _ _ ha, hload _ _ _ hb, hload _ _ _ hc⟩

/-- A scanline with a tag from 0 to 4 does not end the scanline loop. -/
theorem unfilter_line_some (heap : Mem) (bpl bpp tag fl : Nat) (T P : Int) (o : OutMem)
    (htag : tag ≤ 4) : ∃ o', unfilter_line heap bpl bpp tag fl T P o = some o' := by
  unfold unfilter_line
  interval_cases tag
  · exact ⟨_, if_pos rfl⟩
  · rw [if_neg (by decide)]; exact ⟨_, if_pos rfl⟩
  · rw [if_neg (by decide), if_neg (by decide)]; exact ⟨_, if_pos rfl⟩
  · rw [if_neg (by decide), if_neg (by decide), if_neg (by decide)]; exact ⟨_, if_pos rfl⟩
  · rw [if_neg (by decide), if_neg (by decide), if_neg (by decide), if_neg (by decide)]
    exact ⟨_, if_pos rfl⟩

/-- The scanline loop ends normally when the tag bytes of all its scanlines are from 0 to 4. -/
theorem unfilter_rows_some (heap : Mem) (bpl bpp : Nat) (s0 : unfilter_state) (n : Nat)
    (htags : ∀ y < n, load8 heap (s0.filteredline + y * (bpl + 1)) ≤ 4) :
    ∃ s, unfilter_rows heap bpl bpp n s0 = some s := by
  induction n with
  | zero => exact ⟨s0, unfilter_rows_zero heap bpl bpp s0⟩
  | succ n ih =>
    obtain ⟨s, hs⟩ := ih (fun y hy => htags y (by omega))
    rcases unfilter_rows_filteredline heap bpl bpp s0 n with h | ⟨s', hs', hf⟩
    · rw [h] at hs
      cases hs
    · rw [unfilter_rows_succ, hs', Option.some_bind]
      unfold unfilter_row
      dsimp only
      obtain ⟨o', ho'⟩ := unfilter_line_some heap bpl bpp (load8 heap s'.filteredline)
        (s'.filteredline + 1) ((u32 (bpl * n) : Nat) : Int) s'.prevout s'.out
        (by rw [hf]; exact htags n (by omega))
      rw [ho']
      exact ⟨_, rfl⟩

/-- The depth-8 expansion entered with both cursors at offset 0, as it is when `width * height`
and `3 * width * height` are 0 modulo `2^32`: after `k` passes the cursors stand at `-k` and
`-3 * k`, and no byte at an offset of 0 or more has been stored to. -/
theorem depth8_passes_wrapped (palette : Nat → Nat) (o : OutMem) (k : Nat) :
    ((fun t : unpack_state =>
        put_rgb (palette (oload8 ({ t with inp := t.inp - 1 } : unpack_state).out
          ({ t with inp := t.inp - 1 } : unpack_state).inp))
          ({ t with inp := t.inp - 1 } : unpack_state))^[k]
        (⟨o, 0, 0⟩ : unpack_state)).inp = -(k : Int)
    ∧ ((fun t : unpack_state =>
        put_rgb (palette (oload8 ({ t with inp := t.inp - 1 } : unpack_state).out
          ({ t with inp := t.inp - 1 } : unpack_state).inp))
          ({ t with inp := t.inp - 1 } : unpack_state))^[k]
        (⟨o, 0, 0⟩ : unpack_state)).outp = -(3 * (k : Int))
    ∧ ∀ q : Int, 0 ≤ q →
        ((fun t : unpack_state =>
          put_rgb (palette (oload8 ({ t with inp := t.inp - 1 } : unpack_state).out
            ({ t with inp := t.inp - 1 } : unpack_state).inp))
            ({ t with inp := t.inp - 1 } : unpack_state))^[k]
          (⟨o, 0, 0⟩ : unpack_state)).out q = o q := by
  induction k with
  | zero => exact ⟨rfl, rfl, fun _ _ => rfl⟩
  | succ k ih =>
    obtain ⟨hinp, houtp, hout⟩ := ih
    rw [Function.iterate_succ_apply']
    generalize ((fun t : unpack_state =>
        put_rgb (palette (oload8 ({ t with inp := t.inp - 1 } : unpack_state).out
          ({ t with inp := t.inp - 1 } : unpack_state).inp))
          ({ t with inp := t.inp - 1 } : unpack_state))^[k]
        (⟨o, 0, 0⟩ : unpack_state)) = t at hinp houtp hout ⊢
    unfold put_rgb
    dsimp only
    rw [houtp, hinp]
    refine ⟨by omega, by omega, fun q hq => ?_⟩
    unfold store8
    rw [if_neg (by omega), if_neg (by omega), if_neg (by omega)]
    exact hout q hq

/-- When `width * height` and `3 * width * height` are 0 modulo `2^32`, the depth-8 expansion
stores to no offset of 0 or more. -/
theorem unpack_depth8_wrapped (palette : Nat → Nat) (ihdr : mpng_ihdr) (o : OutMem)
    (h0 : u32 (ihdr.width * ihdr.height) = 0) (h3 : u32 (3 * ihdr.width * ihdr.height) = 0)
    (q : Int) (hq : 0 ≤ q) : unpack_depth8 palette ihdr o q = o q := by
  unfold unpack_depth8
  rw [do_while_const]
  generalize do_while_passes (u32 (ihdr.width * ihdr.height)) = n
  rw [h0, h3, Nat.cast_zero]
  exact (depth8_passes_wrapped palette o n).2.2 q hq

/-- For an Indexed depth-8 header and format RGB888, the memory left by the terminating step
is the depth-8 expansion of what the scanline loop left. -/
theorem out_final_depth8 (out_init : OutMem) (heap : Mem) (ihdr : mpng_ihdr) (bpl : Nat)
    (palette : Nat → Nat) (pixels : Nat) (s : unfilter_state) (hct : ihdr.color_type = 3)
    (hd : ihdr.depth = 8)
    (hs : unfilter_rows heap bpl (bpp_packed ihdr) ihdr.height
      ⟨memset_zero out_init (prevout_init ihdr) (u32 (4 * ihdr.width * 1)), prevout_init ihdr,
        pixels⟩ = some s) :
    out_final out_init heap ihdr bpl palette FMT_RGB888 pixels
      = some (unpack_depth8 palette ihdr s.out) := by
  unfold out_final
  dsimp only
  rw [hs]
  dsimp only
  rw [if_neg (fun h => h.1 rfl)]
  unfold unpack_paletted
  rw [if_pos hct, if_neg (by omega), if_neg (by omega), if_neg (by omega), if_pos hd]

/-- The image stored by the terminating step once the output memory is known. -/
theorem finish_image_of_out_final {σ : Type} (E : Env σ) (heap : Mem) (ihdr : mpng_ihdr)
    (bpl : Nat) (palette : Nat → Nat) (format : video_format) (pixels : Nat) (o : OutMem)
    (hm : E.malloc (out_size ihdr format) ≠ 0)
    (ho : out_final E.out_init heap ihdr bpl palette format pixels = some o) :
    ∃ img, finish_image E heap ihdr bpl palette format pixels = some img
      ∧ img.width = ihdr.width ∧ img.height = ihdr.height
      ∧ img.pixels = some ((List.range (out_size ihdr format)).map (fun i => oload8 o i)) := by
  unfold finish_image
  rw [if_neg hm, ho]
  exact ⟨_, rfl, rfl, rfl, rfl⟩

theorem load8_mem_of_nil (base a : Nat) : load8 (mem_of base []) a = 0 := by
  unfold load8 mem_of
  split_ifs <;> rfl

/-- The terminating step on an Indexed depth-8 header whose `width * height` and
`3 * width * height` are 0 modulo `2^32`, with format RGB888 and a working buffer whose tag
bytes are from 0 to 4: the byte at offset 0 is left as the scanline loop wrote it, and the image
stored has no pixel bytes. -/
theorem expansion_wrapped {σ : Type} (E : Env σ) (heap : Mem) (ihdr : mpng_ihdr) (bpl : Nat)
    (palette : Nat → Nat) (pixels : Nat) (hct : ihdr.color_type = 3) (hd : ihdr.depth = 8)
    (h0 : u32 (ihdr.width * ihdr.height) = 0) (h3 : u32 (3 * ihdr.width * ihdr.height) = 0)
    (hsz : out_size ihdr FMT_RGB888 = 0) (hm : E.malloc (out_size ihdr FMT_RGB888) ≠ 0)
    (htags : ∀ y < ihdr.height, load8 heap (pixels + y * (bpl + 1)) ≤ 4)
    (hcol : ∀ v < 256, u8 (u32 (palette v) >>> 16) ≠ v) :
    (∃ (s : unfilter_state) (o : OutMem),
        unfilter_rows heap bpl (bpp_packed ihdr) ihdr.height
            ⟨memset_zero E.out_init (prevout_init ihdr) (u32 (4 * ihdr.width * 1)),
              prevout_init ihdr, pixels⟩ = some s
          ∧ out_final E.out_init heap ihdr bpl palette FMT_RGB888 pixels = some o
          ∧ oload8 o 0 = oload8 s.out 0
          ∧ oload8 o 0 ≠ u8 (u32 (palette (oload8 s.out 0)) >>> 16))
      ∧ (∃ img : mpng_image,
          finish_image E heap ihdr bpl palette FMT_RGB888 pixels = some img
            ∧ img.width = ihdr.width ∧ img.height = ihdr.height ∧ img.pixels = some []) := by
  obtain ⟨s, hs⟩ := unfilter_rows_some heap bpl (bpp_packed ihdr)
    ⟨memset_zero E.out_init (prevout_init ihdr) (u32 (4 * ihdr.width * 1)), prevout_init ihdr,
      pixels⟩ ihdr.height htags
  have hof := out_final_depth8 E.out_init heap ihdr bpl palette pixels s hct hd hs
  have hbyte : oload8 (unpack_depth8 palette ihdr s.out) 0 = oload8 s.out 0 :=
    congrArg u8 (unpack_depth8_wrapped palette ihdr s.out h0 h3 0 (Int.le_refl 0))
  obtain ⟨img, himg, hw, hh, hpix⟩ := finish_image_of_out_final E heap ihdr bpl palette
    FMT_RGB888 pixels _ hm hof
  rw [hsz] at hpix
  refine ⟨⟨s, _, hs, hof, hbyte, ?_⟩, ⟨img, himg, hw, hh, hpix⟩⟩
  rw [hbyte]
  exact fun h => hcol (oload8 s.out 0) (Nat.mod_lt _ (by decide)) h.symm

set_option maxRecDepth 100000 in
/-- C23 (the code departs from the claim): the Indexed depth-8 header of width 65536 and height
65536 is accepted, and `width * height` and `3 * width * height` are `0` modulo `2^32`, with no
test for it. The output block is allocated with 0 bytes; the expansion loop is entered with the
read and the write cursor both at offset 0 and a pass counter of 0, runs `2^32` passes
downwards from there and stores to no offset of 0 or more. With a working buffer of tag bytes
0 the terminating step stores an image of 65536 x 65536 with no pixel bytes, and the byte at
offset 0, where the claim puts the red byte of the palette entry of pixel 0, is still the index
byte of pixel 0, which differs from the red byte of its entry whatever its value. -/
theorem C23_expansion_size_wraps :
    (mpng_parse_ihdr env_A.malloc (mem_of 1 (ihdr_payload 0 1 0 0 0 1 0 0 8 3 0 0 0))
        ⟨13, MPNG_CHUNK_IHDR, 1⟩ FMT_RGB888 0 0 0 0).ihdr = ihdr_indexed 65536 65536 8
      ∧ (mpng_parse_ihdr env_A.malloc (mem_of 1 (ihdr_payload 0 1 0 0 0 1 0 0 8 3 0 0 0))
        ⟨13, MPNG_CHUNK_IHDR, 1⟩ FMT_RGB888 0 0 0 0).ret = true
      ∧ (mpng_parse_ihdr env_A.malloc (mem_of 1 (ihdr_payload 0 1 0 0 0 1 0 0 8 3 0 0 0))
        ⟨13, MPNG_CHUNK_IHDR, 1⟩ FMT_RGB888 0 0 0 0).bpl = 65536
      ∧ out_size (ihdr_indexed 65536 65536 8) FMT_RGB888 = 0
      ∧ u32 (3 * 65536 * 65536) = 0
      ∧ u32 (65536 * 65536) = 0
      ∧ do_while_passes (u32 (65536 * 65536)) = 4294967296
      ∧ (∀ (palette : Nat → Nat) (o : OutMem) (q : Int), 0 ≤ q →
          unpack_depth8 palette (ihdr_indexed 65536 65536 8) o q = o q)
      ∧ (∀ v < 256, u8 (u32 (palette_B v) >>> 16) ≠ v)
      ∧ ((∃ (s : unfilter_state) (o : OutMem),
          unfilter_rows (mem_of 4096 []) 65536 (bpp_packed (ihdr_indexed 65536 65536 8))
              (ihdr_indexed 65536 65536 8).height
              ⟨memset_zero env_A.out_init (prevout_init (ihdr_indexed 65536 65536 8))
                (u32 (4 * (ihdr_indexed 65536 65536 8).width * 1)),
                prevout_init (ihdr_indexed 65536 65536 8), 4096⟩ = some s
            ∧ out_final env_A.out_init (mem_of 4096 []) (ihdr_indexed 65536 65536 8) 65536
                palette_B FMT_RGB888 4096 = some o
            ∧ oload8 o 0 = oload8 s.out 0
            ∧ oload8 o 0 ≠ u8 (u32 (palette_B (oload8 s.out 0)) >>> 16))
        ∧ (∃ img : mpng_image,
            finish_image env_A (mem_of 4096 []) (ihdr_indexed 65536 65536 8) 65536 palette_B
              FMT_RGB888 4096 = some img
              ∧ img.width = (ihdr_indexed 65536 65536 8).width
              ∧ img.height = (ihdr_indexed 65536 65536 8).height ∧ img.pixels = some [])) :=
  ⟨by decide, by decide, by decide, by decide, by decide, by decide, by decide,
    fun palette o q hq =>
      unpack_depth8_wrapped palette (ihdr_indexed 65536 65536 8) o (by decide) (by decide) q hq,
    by decide,
    expansion_wrapped env_A (mem_of 4096 []) (ihdr_indexed 65536 65536 8) 65536 palette_B 4096
      rfl rfl (by decide) (by decide) (by decide) (by decide)
      (fun y _ => by rw [load8_mem_of_nil]; exact Nat.zero_le 4) (by decide)⟩

/-- C24 (the code departs from the claim): the test `if (!data) return false` (line 561) comes
before the first `memset(img, 0, ...)` (line 564). With a null input pointer `png_decode`
returns false and leaves the image behind `img` exactly as the caller passed it: an image that
was not all-zero is still not all-zero. -/
theorem C24_null_input_leaves_img_unwritten :
    (∀ (σ : Type) (E : Env σ) (fuel : Nat) (m : Mem) (len : Nat) (img : mpng_image)
        (format : video_format), png_decode E fuel m 0 len img format = some ⟨false, img⟩)
      ∧ png_decode env_A 1 (mem_of 16 png_A) 0 69 ⟨1, 1, 3, some FMT_RGB888, some [10, 20, 30]⟩
          FMT_RGB888 = some ⟨false, ⟨1, 1, 3, some FMT_RGB888, some [10, 20, 30]⟩⟩
      ∧ (⟨1, 1, 3, some FMT_RGB888, some [10, 20, 30]⟩ : mpng_image) ≠ img_zero := by
  refine ⟨?_, by decide, by decide⟩
  intro σ E fuel m len img format
  unfold png_decode
  rw [if_pos rfl]

/-- The loop of the driver never takes `case -1: goto error`, because no value converted to
`bool` is `-1`: whatever it returns, it returns true. -/
theorem loop_result_is_true {σ : Type} (E : Env σ) (m : Mem) (data data_end : Nat)
    (format : video_format) (pixels pixelsat pixelsend : Nat) (fuel : Nat) :
    ∀ (r : by_ref σ) (d : decode_result),
      png_decode_loop E m data data_end format pixels pixelsat pixelsend fuel r = some d →
      d.ret = true := by
  induction fuel with
  | zero =>
    intro r d h
    unfold png_decode_loop at h
    cases h
  | succ n ih =>
    intro r d h
    unfold png_decode_loop at h
    dsimp only at h
    have hnb : to_bool
        (png_decode_iterate E m data data_end r format pixels pixelsat pixelsend).ret ≠ -1 := by
      unfold to_bool
      split_ifs <;> decide
    rw [if_neg hnb] at h
    by_cases h1 : to_bool
        (png_decode_iterate E m data data_end r format pixels pixelsat pixelsend).ret = 1
    · rw [if_pos h1] at h
      rw [← Option.some.inj h]
    · rw [if_neg h1] at h
      exact ih _ d h

/-- The first step of the driver, `png_decode_iterate` called at `userdata + 8` on the initial
state with null buffer pointers, on a first chunk that is well framed and CRC-valid and is
neither a header nor a terminating chunk: it reaches `return 0` when the chunk is of an
unrecognized type with the ancillary bit set, and `return -1` in every other case: palette,
data, transparency, or unrecognized with the ancillary bit clear. In both cases no image is
stored. -/
theorem first_step_before_header {σ : Type} (E : Env σ) (m : Mem) (userdata len : Nat)
    (format : video_format) (hframe : frame_ok m (userdata + 8) (userdata + len))
    (hhdr : dword_be (ptr m (userdata + 8 + 4)) ≠ MPNG_CHUNK_IHDR)
    (hend : dword_be (ptr m (userdata + 8 + 4)) ≠ MPNG_CHUNK_IEND) :
    (png_decode_iterate E m (userdata + 8) (userdata + len) (init_refs E) format 0 0 0).ret
        = (if dword_be (ptr m (userdata + 8 + 4)) ≠ MPNG_CHUNK_PLTE
              ∧ dword_be (ptr m (userdata + 8 + 4)) ≠ MPNG_CHUNK_IDAT
              ∧ dword_be (ptr m (userdata + 8 + 4)) ≠ MPNG_CHUNK_TRNS
              ∧ dword_be (ptr m (userdata + 8 + 4)) &&& 0x20000000 ≠ 0 then 0 else -1)
      ∧ (png_decode_iterate E m (userdata + 8) (userdata + len) (init_refs E) format
          0 0 0).refs.img = img_zero := by
  have hret : (png_decode_iterate E m (userdata + 8) (userdata + len) (init_refs E) format
      0 0 0).ret
        = (if dword_be (ptr m (userdata + 8 + 4)) ≠ MPNG_CHUNK_PLTE
              ∧ dword_be (ptr m (userdata + 8 + 4)) ≠ MPNG_CHUNK_IDAT
              ∧ dword_be (ptr m (userdata + 8 + 4)) ≠ MPNG_CHUNK_TRNS
              ∧ dword_be (ptr m (userdata + 8 + 4)) &&& 0x20000000 ≠ 0 then 0 else -1) := by
    rw [iterate_of_frame_ok E m (userdata + 8) (userdata + len) (init_refs E) format 0 0 0
      hframe]
    generalize dword_be (ptr m (userdata + 8 + 4)) = ty at hhdr hend ⊢
    unfold dispatch
    dsimp only
    rw [if_neg hhdr]
    by_cases h2 : ty = MPNG_CHUNK_PLTE
    · rw [if_pos h2, case_PLTE_ret, if_neg (fun h => h.1 h2)]
    rw [if_neg h2]
    by_cases h3 : ty = MPNG_CHUNK_TRNS
    · rw [if_pos h3, case_TRNS_ret, if_neg (fun h => h.2.2.1 h3)]
    rw [if_neg h3]
    by_cases h4 : ty = MPNG_CHUNK_IDAT
    · rw [if_pos h4, case_IDAT_ret_null E m _ (init_refs E) _ rfl, if_neg (fun h => h.2.1 h4)]
    rw [if_neg h4, if_neg hend]
    by_cases hb : ty &&& 0x20000000 = 0
    · rw [if_pos hb, if_neg (fun h => h.2.2.2 hb)]
    · rw [if_neg hb, if_pos ⟨h2, h4, h3, hb⟩]
  refine ⟨hret, ?_⟩
  rw [iterate_img_unchanged E m (userdata + 8) (userdata + len) (init_refs E) format 0 0 0
    (by rw [hret]; split_ifs <;> decide)]
  rfl

set_option maxRecDepth 100000 in
/-- C25 (the code departs from the claim): on an input that passes the signature check and
whose first chunk is CRC-valid and not a header, `png_decode` does not fail. For a first chunk
that is a palette, data or transparency chunk or an unrecognized chunk with the ancillary bit
clear, the first step reaches `return -1`, the `bool` return type hands it over as 1, and
`png_decode` returns true. An unrecognized first chunk with the ancillary bit set is skipped
(nothing tests for a missing header), the read cursor was passed by value, and `png_decode`
never returns. Whatever the first chunk, no run of `png_decode` past the signature check
returns false. Shown on the file made of the signature and a palette chunk, where
`png_decode` returns true, and on the file made of the signature and the empty chunk `tEXt`,
where it never returns. -/
theorem C25_first_chunk_not_header_does_not_fail :
    (∀ (σ : Type) (E : Env σ) (m : Mem) (userdata len : Nat) (img : mpng_image)
        (format : video_format) (fuel : Nat),
        userdata ≠ 0 →
        (format = FMT_RGB888 ∨ format = FMT_XRGB8888 ∨ format = FMT_ARGB8888) →
        8 ≤ len → bytes_at m userdata 8 = mpng_magic →
        frame_ok m (userdata + 8) (userdata + len) →
        dword_be (ptr m (userdata + 8 + 4)) ≠ MPNG_CHUNK_IHDR →
        dword_be (ptr m (userdata + 8 + 4)) ≠ MPNG_CHUNK_IEND →
        if dword_be (ptr m (userdata + 8 + 4)) ≠ MPNG_CHUNK_PLTE
            ∧ dword_be (ptr m (userdata + 8 + 4)) ≠ MPNG_CHUNK_IDAT
            ∧ dword_be (ptr m (userdata + 8 + 4)) ≠ MPNG_CHUNK_TRNS
            ∧ dword_be (ptr m (userdata + 8 + 4)) &&& 0x20000000 ≠ 0
        then png_decode E fuel m userdata len img format = none
        else png_decode E (fuel + 1) m userdata len img format = some ⟨true, img_zero⟩)
      ∧ (∀ (σ : Type) (E : Env σ) (m : Mem) (userdata len : Nat) (img : mpng_image)
        (format : video_format) (fuel : Nat) (d : decode_result),
        userdata ≠ 0 →
        (format = FMT_RGB888 ∨ format = FMT_XRGB8888 ∨ format = FMT_ARGB8888) →
        8 ≤ len → bytes_at m userdata 8 = mpng_magic →
        png_decode E fuel m userdata len img format = some d → d.ret = true)
      ∧ bytes_at (mem_of 16 mem_plte_first) 16 8 = mpng_magic
      ∧ frame_ok (mem_of 16 mem_plte_first) 24 39
      ∧ dword_be (ptr (mem_of 16 mem_plte_first) (24 + 4)) = MPNG_CHUNK_PLTE
      ∧ (png_decode_iterate env_A (mem_of 16 mem_plte_first) 24 39 (init_refs env_A)
          FMT_RGB888 0 0 0).ret = -1
      ∧ iterate_returned (png_decode_iterate env_A (mem_of 16 mem_plte_first) 24 39
          (init_refs env_A) FMT_RGB888 0 0 0) = 1
      ∧ png_decode env_A 1 (mem_of 16 mem_plte_first) 16 23 img_zero FMT_RGB888
          = some ⟨true, img_zero⟩
      ∧ bytes_at (mem_of 16 mem_truncated) 16 8 = mpng_magic
      ∧ frame_ok (mem_of 16 mem_truncated) 24 36
      ∧ dword_be (ptr (mem_of 16 mem_truncated) (24 + 4)) ≠ MPNG_CHUNK_IHDR
      ∧ dword_be (ptr (mem_of 16 mem_truncated) (24 + 4)) &&& 0x20000000 ≠ 0
      ∧ iterate_returned (png_decode_iterate env_A (mem_of 16 mem_truncated) 24 36
          (init_refs env_A) FMT_RGB888 0 0 0) = 0
      ∧ (∀ fuel, png_decode env_A fuel (mem_of 16 mem_truncated) 16 20 img_zero FMT_RGB888
          = none) := by
  refine ⟨?_, ?_, by decide, by decide, by decide, by decide, by decide, by decide, by decide,
    by decide, by decide, by decide, by decide, ?_⟩
  · intro σ E m userdata len img format fuel h0 hf hl hs hframe hhdr hend
    obtain ⟨hret, -⟩ := first_step_before_header E m userdata len format hframe hhdr hend
    by_cases hc : dword_be (ptr m (userdata + 8 + 4)) ≠ MPNG_CHUNK_PLTE
        ∧ dword_be (ptr m (userdata + 8 + 4)) ≠ MPNG_CHUNK_IDAT
        ∧ dword_be (ptr m (userdata + 8 + 4)) ≠ MPNG_CHUNK_TRNS
        ∧ dword_be (ptr m (userdata + 8 + 4)) &&& 0x20000000 ≠ 0
    · rw [if_pos hc] at hret
      rw [if_pos hc, png_decode_eq_loop E fuel m userdata len img format h0 hf hl hs]
      exact loop_never_returns E m (userdata + 8) (userdata + len) format 0 0 fuel
        (init_refs E) hret
    · rw [if_neg hc] at hret
      rw [if_neg hc, png_decode_eq_loop E (fuel + 1) m userdata len img format h0 hf hl hs]
      exact loop_error_returns_true E m (userdata + 8) (userdata + len) format 0 0 0 fuel
        (init_refs E) hret
  · intro σ E m userdata len img format fuel d h0 hf hl hs hd
    rw [png_decode_eq_loop E fuel m userdata len img format h0 hf hl hs] at hd
    exact loop_result_is_true E m (userdata + 8) (userdata + len) format 0 0 0 fuel
      (init_refs E) d hd
  · intro fuel
    rw [png_decode_eq_loop env_A fuel (mem_of 16 mem_truncated) 16 20 img_zero FMT_RGB888
      (by decide) (Or.inl rfl) (by decide) (by decide)]
    exact loop_never_returns env_A (mem_of 16 mem_truncated) (16 + 8) (16 + 20) FMT_RGB888 0 0
      fuel (init_refs env_A) (by decide)

set_option maxRecDepth 100000 in
/-- C26 (the code departs from the claim): the data step offers the decompressor
`(pixelsend - pixelsat) + 1` bytes (line 238), one more than the remaining capacity. From the
state `pixels = pixelsat = 4096`, `pixelsend = 4100` after the header of scenario A, a
decompressor that fills exactly the space it is offered produces 5 bytes: the step returns `0`
and the write cursor stands at 4101, past the end marker 4100. -/
theorem C26_data_step_offers_one_byte_too_many :
    to_size_t (((4100 : Nat) : Int) - ((4096 : Nat) : Int) + 1) = 5
      ∧ (png_decode_iterate env_fill (mem_of 16 png_A) 49 85
        (png_decode_iterate env_fill (mem_of 16 png_A) 24 85 (init_refs env_fill)
          FMT_RGB888 0 0 0).refs
        FMT_RGB888 4096 4096 4100).ret = 0
      ∧ (png_decode_iterate env_fill (mem_of 16 png_A) 49 85
        (png_decode_iterate env_fill (mem_of 16 png_A) 24 85 (init_refs env_fill)
          FMT_RGB888 0 0 0).refs
        FMT_RGB888 4096 4096 4100).vals = ⟨73, 4096, 4101, 4100⟩
      ∧ ¬((4101 : Nat) ≤ 4100) := by
  decide

/-- C27 (the code departs from the claim): the product `(*bpl + 1) * ihdr->height` is formed in
`unsigned int`. The accepted Truecolor header of width 65536 and height 65536 has stride 196608
and needs `196609 * 65536 = 12884967424` bytes; the size passed to `malloc`, and the distance
from `pixels` to `pixelsend`, is that number modulo `2^32`, 65536. -/
theorem C27_working_buffer_size_wraps :
    mpng_parse_ihdr env_A.malloc (mem_of 1 (ihdr_payload 0 1 0 0 0 1 0 0 8 2 0 0 0))
        ⟨13, MPNG_CHUNK_IHDR, 1⟩ FMT_RGB888 0 0 0 0
        = ⟨true, ⟨65536, 65536, 8, 2, 0, 0, 0⟩, 196608, 4096, 4096, 4096 + 65536⟩
      ∧ (196608 + 1) * 65536 = 12884967424
      ∧ u32 ((196608 + 1) * 65536) = 65536 := by
  decide

/-- The inline Paeth choice of the code is the predictor of the spec. -/
theorem paeth_prediction_eq_spec (a b c : Nat) :
    paeth_prediction (a : Int) (b : Int) (c : Int) = ((predictor_spec a b c : Nat) : Int) := by
  unfold paeth_prediction predictor_spec
  dsimp only
  split_ifs <;> rfl

/-- C28: for all byte values `a`, `b`, `c`, with `p = a + b - c` over the integers, the
predictor computed inline in `png_decode_iterate` returns one of `a`, `b`, `c`; its distance to
`p` is minimal among the three; it is `a` when `a` is at least as close as both others,
otherwise `b` when `b` is at least as close as `c`, otherwise `c`; and it is the predictor of
the spec. -/
theorem C28_paeth_predictor (a b c : Nat) (ha : a < 256) (hb : b < 256) (hc : c < 256) :
    (paeth_prediction a b c = a ∨ paeth_prediction a b c = b ∨ paeth_prediction a b c = c)
      ∧ (((a : Int) + b - c) - paeth_prediction a b c).natAbs
          ≤ (((a : Int) + b - c) - a).natAbs
      ∧ (((a : Int) + b - c) - paeth_prediction a b c).natAbs
          ≤ (((a : Int) + b - c) - b).natAbs
      ∧ (((a : Int) + b - c) - paeth_prediction a b c).natAbs
          ≤ (((a : Int) + b - c) - c).natAbs
      ∧ ((((a : Int) + b - c) - a).natAbs ≤ (((a : Int) + b - c) - b).natAbs
          ∧ (((a : Int) + b - c) - a).natAbs ≤ (((a : Int) + b - c) - c).natAbs →
          paeth_prediction a b c = a)
      ∧ (¬((((a : Int) + b - c) - a).natAbs ≤ (((a : Int) + b - c) - b).natAbs
          ∧ (((a : Int) + b - c) - a).natAbs ≤ (((a : Int) + b - c) - c).natAbs) →
          (((a : Int) + b - c) - b).natAbs ≤ (((a : Int) + b - c) - c).natAbs →
          paeth_prediction a b c = b)
      ∧ (¬((((a : Int) + b - c) - a).natAbs ≤ (((a : Int) + b - c) - b).natAbs
          ∧ (((a : Int) + b - c) - a).natAbs ≤ (((a : Int) + b - c) - c).natAbs) →
          ¬((((a : Int) + b - c) - b).natAbs ≤ (((a : Int) + b - c) - c).natAbs) →
          paeth_prediction a b c = c)
      ∧ paeth_prediction a b c = ((predictor_spec a b c : Nat) : Int)
      ∧ -255 ≤ (a : Int) + b - c ∧ (a : Int) + b - c ≤ 510 := by
  refine ⟨?_, ?_, ?_, ?_, ?_, ?_, ?_, paeth_prediction_eq_spec a b c, by omega, by omega⟩
  all_goals
    unfold paeth_prediction
    dsimp only
    split_ifs <;> omega

/-- Witness of C28: `a = 10`, `b = 20`, `c = 5` gives `p = 25` and the choice `b = 20`. -/
theorem C28_paeth_predictor_witness :
    (10 : Nat) < 256 ∧ (20 : Nat) < 256 ∧ (5 : Nat) < 256
      ∧ paeth_prediction ((10 : Nat) : Int) ((20 : Nat) : Int) ((5 : Nat) : Int) = 20
      ∧ paeth_prediction ((10 : Nat) : Int) ((20 : Nat) : Int) ((5 : Nat) : Int)
          = ((predictor_spec 10 20 5 : Nat) : Int) :=
  ⟨by decide, by decide, by decide, by decide,
    (C28_paeth_predictor 10 20 5 (by decide) (by decide) (by decide)).2.2.2.2.2.2.2.1⟩

/-! ## Sweeps of the scanline loop -/

theorem for_loop_empty {α : Type} (lo hi : Nat) (body : Nat → α → α) (s : α) (h : hi ≤ lo) :
    for_loop lo hi body s = s := by
  unfold for_loop
  rw [Nat.sub_eq_zero_of_le h]
  rfl

theorem for_loop_succ {α : Type} (lo hi : Nat) (body : Nat → α → α) (s : α) (h : lo ≤ hi) :
    for_loop lo (hi + 1) body s = body hi (for_loop lo hi body s) := by
  unfold for_loop
  rw [show hi + 1 - lo = (hi - lo) + 1 by omega, List.range_succ, List.foldl_append]
  simp only [List.foldl_cons, List.foldl_nil]
  rw [show lo + (hi - lo) = hi by omega]

/-- A loop that stores at `T + x` for `x` from `lo` to `hi - 1` leaves every other byte. -/
theorem sweep_frame (T : Int) (g : Nat → OutMem → Nat) (lo hi : Nat) (o : OutMem) (q : Int)
    (hq : q < T + (lo : Int) ∨ T + (hi : Int) ≤ q) :
    for_loop lo hi (fun x o => store8 o (T + (x : Int)) (g x o)) o q = o q := by
  induction hi with
  | zero => rw [for_loop_empty _ _ _ _ (Nat.zero_le _)]
  | succ n ih =>
    by_cases h : lo ≤ n
    · rw [for_loop_succ _ _ _ _ h]
      show store8 _ _ _ q = o q
      unfold store8
      rw [if_neg (by omega)]
      exact ih (by omega)
    · rw [for_loop_empty _ _ _ _ (by omega)]

/-- The bytes below `T + x` are final once the loop has reached `x`. -/
theorem sweep_stable (T : Int) (g : Nat → OutMem → Nat) (lo x hi : Nat) (o : OutMem) (q : Int)
    (hx : x ≤ hi) (hq : q < T + (x : Int)) :
    for_loop lo hi (fun x o => store8 o (T + (x : Int)) (g x o)) o q
      = for_loop lo x (fun x o => store8 o (T + (x : Int)) (g x o)) o q := by
  induction hi with
  | zero =>
    have h0 : x = 0 := by omega
    subst h0
    rfl
  | succ n ih =>
    by_cases hxn : x = n + 1
    · subst hxn
      rfl
    · by_cases h : lo ≤ n
      · rw [for_loop_succ _ _ _ _ h]
        show store8 _ _ _ q = _
        unfold store8
        rw [if_neg (by omega)]
        exact ih (by omega)
      · rw [for_loop_empty _ _ _ _ (show n + 1 ≤ lo by omega),
          for_loop_empty _ _ _ _ (show x ≤ lo by omega)]

/-- The byte stored at `T + x` is the value computed from the block as the loop found it on
reaching `x`. -/
theorem sweep_value (T : Int) (g : Nat → OutMem → Nat) (lo x hi : Nat) (o : OutMem)
    (hlo : lo ≤ x) (hx : x < hi) :
    oload8 (for_loop lo hi (fun x o => store8 o (T + (x : Int)) (g x o)) o) (T + (x : Int))
      = u8 (g x (for_loop lo x (fun x o => store8 o (T + (x : Int)) (g x o)) o)) := by
  unfold oload8
  rw [sweep_stable T g lo (x + 1) hi o (T + (x : Int)) (by omega) (by omega),
    for_loop_succ _ _ _ _ hlo]
  show u8 (store8 _ _ _ _) = _
  unfold store8
  rw [if_pos rfl]
  unfold u8
  exact Nat.mod_mod _ _

theorem int_to_u8_add_paeth (f a b c : Nat) :
    int_to_u8 ((f : Int) + paeth_prediction (a : Int) (b : Int) (c : Int))
      = u8 (f + predictor_spec a b c) := by
  rw [paeth_prediction_eq_spec]
  unfold int_to_u8 u8
  omega
/-- One scanline with a tag from 0 to 4 is reconstructed (the `switch` does not return) and
stores only at offsets from `thisout` to `thisout + max bpl bpp_packed - 1`. -/
theorem unfilter_line_frame (heap : Mem) (bpl bpp tag fl : Nat) (T P : Int) (o : OutMem)
    (htag : tag ≤ 4) :
    ∃ o', unfilter_line heap bpl bpp tag fl T P o = some o'
      ∧ ∀ q : Int, q < T ∨ T + ((max bpl bpp : Nat) : Int) ≤ q → o' q = o q := by
  interval_cases tag
  · refine ⟨_, by unfold unfilter_line; rw [if_pos rfl], fun q hq => ?_⟩
    unfold memcpy_in
    exact sweep_frame T _ 0 bpl o q (by omega)
  · refine ⟨_, by unfold unfilter_line; rw [if_neg (by decide), if_pos rfl], fun q hq => ?_⟩
    unfold memcpy_in
    exact (sweep_frame T _ bpp bpl _ q (by omega)).trans (sweep_frame T _ 0 bpp o q (by omega))
  · refine ⟨_, by unfold unfilter_line; rw [if_neg (by decide), if_neg (by decide), if_pos rfl],
      fun q hq => ?_⟩
    exact sweep_frame T _ 0 bpl o q (by omega)
  · refine ⟨_, by unfold unfilter_line; rw [if_neg (by decide), if_neg (by decide),
      if_neg (by decide), if_pos rfl], fun q hq => ?_⟩
    exact (sweep_frame T _ bpp bpl _ q (by omega)).trans (sweep_frame T _ 0 bpp o q (by omega))
  · refine ⟨_, by unfold unfilter_line; rw [if_neg (by decide), if_neg (by decide),
      if_neg (by decide), if_neg (by decide), if_pos rfl], fun q hq => ?_⟩
    exact (sweep_frame T _ bpp bpl _ q (by omega)).trans (sweep_frame T _ 0 bpp o q (by omega))
theorem sweep_frame_load (T : Int) (g : Nat → OutMem → Nat) (lo hi : Nat) (o : OutMem) (q : Int)
    (hq : q < T + (lo : Int) ∨ T + (hi : Int) ≤ q) :
    oload8 (for_loop lo hi (fun x o => store8 o (T + (x : Int)) (g x o)) o) q = oload8 o q :=
  congrArg u8 (sweep_frame T g lo hi o q hq)

theorem sweep_stable_load (T : Int) (g : Nat → OutMem → Nat) (lo x hi : Nat) (o : OutMem)
    (q : Int) (hx : x ≤ hi) (hq : q < T + (x : Int)) :
    oload8 (for_loop lo hi (fun x o => store8 o (T + (x : Int)) (g x o)) o) q
      = oload8 (for_loop lo x (fun x o => store8 o (T + (x : Int)) (g x o)) o) q :=
  congrArg u8 (sweep_stable T g lo x hi o q hx hq)

theorem int_to_u8_add_paeth_zero (f b : Nat) :
    int_to_u8 ((f : Int) + paeth_prediction 0 (b : Int) 0) = u8 (f + predictor_spec 0 b 0) :=
  int_to_u8_add_paeth f 0 b 0

/-- One reconstructed scanline obeys the recurrence of section 4.6 of the spec, when the
previous row (`bpl` bytes at `prevout`) lies apart from the bytes the scanline stores to: byte
`x` is the filtered byte plus the prediction from the byte `a` at `x - bpp_packed` of this
scanline and the bytes `b`, `c` at `x`, `x - bpp_packed` of the previous row as they were
before the scanline (`a` and `c` count as 0 for `x < bpp_packed`). -/
theorem unfilter_line_value (heap : Mem) (bpl bpp tag fl : Nat) (T P : Int) (o o' : OutMem)
    (hbpp : 0 < bpp) (hline : unfilter_line heap bpl bpp tag fl T P o = some o')
    (hdisj : P + (bpl : Int) ≤ T ∨ T + ((max bpl bpp : Nat) : Int) ≤ P)
    (x : Nat) (hx : x < bpl) :
    oload8 o' (T + (x : Int))
      = u8 (load8 heap (fl + x)
          + prediction_spec tag
              (if x < bpp then 0 else oload8 o' (T + (x : Int) - (bpp : Int)))
              (oload8 o (P + (x : Int)))
              (if x < bpp then 0 else oload8 o (P + (x : Int) - (bpp : Int)))) := by
  have htag : tag ≤ 4 := by
    by_contra h
    rw [unfilter_line_bad_tag heap bpl bpp tag fl T P o (by omega)] at hline
    cases hline
  interval_cases tag
  · unfold unfilter_line at hline
    rw [if_pos rfl] at hline
    have ho := Option.some.inj hline
    subst ho
    unfold memcpy_in
    rw [sweep_value T _ 0 x bpl o (Nat.zero_le _) hx]
    rfl
  · unfold unfilter_line at hline
    rw [if_neg (by decide), if_pos rfl] at hline
    have ho := Option.some.inj hline
    subst ho
    have hp : ∀ a b c : Nat, prediction_spec 1 a b c = a := fun _ _ _ => rfl
    rw [hp]
    by_cases hxb : x < bpp
    · rw [if_pos hxb, sweep_frame_load T _ bpp bpl _ (T + (x : Int)) (by omega)]
      unfold memcpy_in
      rw [sweep_value T _ 0 x bpp o (Nat.zero_le _) hxb]
      rfl
    · rw [if_neg hxb, sweep_value T _ bpp x bpl _ (by omega) hx,
        ← sweep_stable_load T _ bpp x bpl _ (T + (x : Int) - (bpp : Int)) (by omega) (by omega),
        Nat.add_comm]
  · unfold unfilter_line at hline
    rw [if_neg (by decide), if_neg (by decide), if_pos rfl] at hline
    have ho := Option.some.inj hline
    subst ho
    have hp : ∀ a b c : Nat, prediction_spec 2 a b c = b := fun _ _ _ => rfl
    rw [hp, sweep_value T _ 0 x bpl o (Nat.zero_le _) hx,
      sweep_frame_load T _ 0 x o (P + (x : Int)) (by omega), Nat.add_comm]
  · unfold unfilter_line at hline
    rw [if_neg (by decide), if_neg (by decide), if_neg (by decide), if_pos rfl] at hline
    have ho := Option.some.inj hline
    subst ho
    have hp : ∀ a b c : Nat, prediction_spec 3 a b c = (a + b) / 2 := fun _ _ _ => rfl
    rw [hp]
    by_cases hxb : x < bpp
    · rw [if_pos hxb, sweep_frame_load T _ bpp bpl _ (T + (x : Int)) (by omega),
        sweep_value T _ 0 x bpp o (Nat.zero_le _) hxb,
        sweep_frame_load T _ 0 x o (P + (x : Int)) (by omega), Nat.add_comm]
    · rw [if_neg hxb, sweep_value T _ bpp x bpl _ (by omega) hx,
        ← sweep_stable_load T _ bpp x bpl _ (T + (x : Int) - (bpp : Int)) (by omega) (by omega),
        sweep_frame_load T _ bpp x _ (P + (x : Int)) (by omega),
        sweep_frame_load T _ 0 bpp o (P + (x : Int)) (by omega), Nat.add_comm]
  · unfold unfilter_line at hline
    rw [if_neg (by decide), if_neg (by decide), if_neg (by decide), if_neg (by decide),
      if_pos rfl] at hline
    have ho := Option.some.inj hline
    subst ho
    have hp : ∀ a b c : Nat, prediction_spec 4 a b c = predictor_spec a b c := fun _ _ _ => rfl
    rw [hp]
    by_cases hxb : x < bpp
    · rw [if_pos hxb, if_pos hxb, sweep_frame_load T _ bpp bpl _ (T + (x : Int)) (by omega),
        sweep_value T _ 0 x bpp o (Nat.zero_le _) hxb,
        sweep_frame_load T _ 0 x o (P + (x : Int)) (by omega)]
      rw [int_to_u8_add_paeth_zero]
      unfold u8
      exact Nat.mod_mod _ _
    · rw [if_neg hxb, if_neg hxb, sweep_value T _ bpp x bpl _ (by omega) hx,
        ← sweep_stable_load T _ bpp x bpl _ (T + (x : Int) - (bpp : Int)) (by omega) (by omega),
        sweep_frame_load T _ bpp x _ (P + (x : Int)) (by omega),
        sweep_frame_load T _ 0 bpp o (P + (x : Int)) (by omega),
        sweep_frame_load T _ bpp x _ (P + (x : Int) - (bpp : Int)) (by omega),
        sweep_frame_load T _ 0 bpp o (P + (x : Int) - (bpp : Int)) (by omega)]
      rw [int_to_u8_add_paeth]
      unfold u8
      exact Nat.mod_mod _ _
/-- One pass of the scanline loop, for a scanline `k` with a tag from 0 to 4 whose previous row
lies apart from the bytes the pass stores to. -/
theorem unfilter_row_step (heap : Mem) (pixels bpl bpp k : Nat) (s : unfilter_state)
    (hbpp : 0 < bpp) (hfl : s.filteredline = pixels + k * (bpl + 1))
    (hk : bpl * k < 4294967296) (htag : tag_at heap pixels bpl k ≤ 4)
    (hdisj : s.prevout + (bpl : Int) ≤ ((bpl * k : Nat) : Int)
      ∨ ((bpl * k : Nat) : Int) + ((max bpl bpp : Nat) : Int) ≤ s.prevout) :
    ∃ s', unfilter_row heap bpl bpp k s = some s'
      ∧ s'.prevout = ((bpl * k : Nat) : Int)
      ∧ s'.filteredline = pixels + (k + 1) * (bpl + 1)
      ∧ (∀ q : Int, q < ((bpl * k : Nat) : Int)
          ∨ ((bpl * k : Nat) : Int) + ((max bpl bpp : Nat) : Int) ≤ q → s'.out q = s.out q)
      ∧ ∀ x : Nat, x < bpl →
          oload8 s'.out ((bpl * k + x : Nat) : Int)
            = u8 (filtered_at heap pixels bpl k x
                + prediction_spec (tag_at heap pixels bpl k)
                    (if x < bpp then 0 else oload8 s'.out ((bpl * k + (x - bpp) : Nat) : Int))
                    (oload8 s.out (s.prevout + (x : Int)))
                    (if x < bpp then 0 else oload8 s.out (s.prevout + ((x - bpp : Nat) : Int)))) := by
  have hT : u32 (bpl * k) = bpl * k := by unfold u32; omega
  obtain ⟨o', hline, hframe⟩ := unfilter_line_frame heap bpl bpp (tag_at heap pixels bpl k)
    (pixels + k * (bpl + 1) + 1) ((bpl * k : Nat) : Int) s.prevout s.out htag
  have hval := unfilter_line_value heap bpl bpp (tag_at heap pixels bpl k)
    (pixels + k * (bpl + 1) + 1) ((bpl * k : Nat) : Int) s.prevout s.out o' hbpp hline hdisj
  refine ⟨⟨o', ((bpl * k : Nat) : Int), pixels + k * (bpl + 1) + 1 + bpl⟩, ?_, rfl, ?_, hframe,
    ?_⟩
  · unfold unfilter_row
    dsimp only
    rw [hfl, hT]
    unfold tag_at at hline
    rw [hline]
  · show pixels + k * (bpl + 1) + 1 + bpl = pixels + (k + 1) * (bpl + 1)
    rw [Nat.succ_mul]
    omega
  · intro x hx
    have h := hval x hx
    show oload8 o' ((bpl * k + x : Nat) : Int) = _
    have e1 : ((bpl * k + x : Nat) : Int) = ((bpl * k : Nat) : Int) + (x : Int) := by
      push_cast; rfl
    rw [e1, h]
    unfold filtered_at
    by_cases hxb : x < bpp
    · rw [if_pos hxb, if_pos hxb, if_pos hxb, if_pos hxb]
    · have e2 : ((bpl * k + (x - bpp) : Nat) : Int)
          = ((bpl * k : Nat) : Int) + (x : Int) - (bpp : Int) := by omega
      have e3 : s.prevout + ((x - bpp : Nat) : Int) = s.prevout + (x : Int) - (bpp : Int) := by
        omega
      rw [if_neg hxb, if_neg hxb, if_neg hxb, if_neg hxb, e2, e3]
/-- The recurrence at byte `x` of scanline `y` only looks at bytes below the end of
scanline `y`. -/
theorem row_recurrence_congr (heap : Mem) (pixels bpl bpp : Nat) (o o' : OutMem) (y x : Nat)
    (hx : x < bpl) (hagree : ∀ q : Int, q < ((bpl * (y + 1) : Nat) : Int) → o' q = o q)
    (h : row_recurrence_spec heap pixels bpl bpp o y x) :
    row_recurrence_spec heap pixels bpl bpp o' y x := by
  have hm1 : bpl * (y + 1) = bpl * y + bpl := Nat.mul_succ bpl y
  have hm2 : bpl * (y - 1) ≤ bpl * y := Nat.mul_le_mul_left bpl (Nat.sub_le y 1)
  have l : ∀ p : Nat, p < bpl * (y + 1) → oload8 o' ((p : Nat) : Int) = oload8 o ((p : Nat) : Int) :=
    fun p hp => congrArg u8 (hagree _ (by omega))
  unfold row_recurrence_spec at h ⊢
  rw [l (bpl * y + x) (by omega), l (bpl * y + (x - bpp)) (by omega),
    l (bpl * (y - 1) + x) (by omega), l (bpl * (y - 1) + (x - bpp)) (by omega)]
  exact h

/-- The scanline loop over `k` rows, entered with a previous row of `bpl` zero bytes at `P0`
that lies above the bytes of scanline 0: the loop does not return, and every byte of the `k`
scanlines obeys the recurrence of the spec. -/
theorem unfilter_rows_recurrence (heap : Mem) (pixels bpl bpp : Nat) (o0 : OutMem) (P0 : Int)
    (n : Nat) (hbpp : 0 < bpp) (hP0 : ((max bpl bpp : Nat) : Int) ≤ P0)
    (hzero : ∀ x : Nat, x < bpl → oload8 o0 (P0 + (x : Int)) = 0)
    (hsz : bpl * n < 4294967296) (htags : ∀ y < n, tag_at heap pixels bpl y ≤ 4)
    (k : Nat) (hk : k ≤ n) :
    ∃ s, unfilter_rows heap bpl bpp k ⟨o0, P0, pixels⟩ = some s
      ∧ s.prevout = (if k = 0 then P0 else ((bpl * (k - 1) : Nat) : Int))
      ∧ s.filteredline = pixels + k * (bpl + 1)
      ∧ (k = 0 → s.out = o0)
      ∧ ∀ y < k, ∀ x < bpl, row_recurrence_spec heap pixels bpl bpp s.out y x := by
  induction k with
  | zero =>
    refine ⟨⟨o0, P0, pixels⟩, unfilter_rows_zero heap bpl bpp _, by rw [if_pos rfl], ?_,
      fun _ => rfl, fun y hy => absurd hy (Nat.not_lt_zero y)⟩
    show pixels = pixels + 0 * (bpl + 1)
    omega
  | succ k ih =>
    obtain ⟨s, hs, hprev, hfl, hout, hrec⟩ := ih (by omega)
    have hkn : bpl * k ≤ bpl * n := Nat.mul_le_mul_left bpl (by omega)
    have hdisj : s.prevout + (bpl : Int) ≤ ((bpl * k : Nat) : Int)
        ∨ ((bpl * k : Nat) : Int) + ((max bpl bpp : Nat) : Int) ≤ s.prevout := by
      rw [hprev]
      by_cases hk0 : k = 0
      · subst hk0
        rw [if_pos rfl]
        right
        omega
      · rw [if_neg hk0]
        left
        have hm : bpl * (k - 1 + 1) = bpl * (k - 1) + bpl := Nat.mul_succ bpl (k - 1)
        rw [show k - 1 + 1 = k by omega] at hm
        omega
    obtain ⟨s', hs', hprev', hfl', hframe, hval⟩ := unfilter_row_step heap pixels bpl bpp k s
      hbpp hfl (by omega) (htags k (by omega)) hdisj
    refine ⟨s', ?_, ?_, hfl', fun h => absurd h (Nat.succ_ne_zero k), ?_⟩
    · rw [unfilter_rows_succ, hs, Option.some_bind, hs']
    · rw [if_neg (Nat.succ_ne_zero k), hprev']
      rfl
    · intro y hy x hx
      by_cases hyk : y < k
      · refine row_recurrence_congr heap pixels bpl bpp s.out s'.out y x hx ?_ (hrec y hyk x hx)
        intro q hq
        have hle : bpl * (y + 1) ≤ bpl * k := Nat.mul_le_mul_left bpl (by omega)
        exact hframe q (Or.inl (by omega))
      · have hy' : y = k := by omega
        subst hy'
        unfold row_recurrence_spec
        rw [hval x hx]
        by_cases hy0 : y = 0
        · subst hy0
          have hs0 : s.out = o0 := hout rfl
          rw [if_pos rfl] at hprev
          rw [if_pos rfl, if_pos (Or.inr rfl), hs0, hprev, hzero x hx]
          by_cases hxb : x < bpp
          · rw [if_pos hxb, if_pos hxb]
          · rw [if_neg hxb, if_neg hxb, hzero (x - bpp) (by omega)]
        · rw [if_neg hy0] at hprev
          have hm : bpl * (y - 1 + 1) = bpl * (y - 1) + bpl := Nat.mul_succ bpl (y - 1)
          rw [show y - 1 + 1 = y by omega] at hm
          have e1 : s.prevout + (x : Int) = ((bpl * (y - 1) + x : Nat) : Int) := by
            rw [hprev]; omega
          have e2 : s.prevout + ((x - bpp : Nat) : Int)
              = ((bpl * (y - 1) + (x - bpp) : Nat) : Int) := by
            rw [hprev]; omega
          have l : ∀ p : Nat, p < bpl * y →
              oload8 s.out ((p : Nat) : Int) = oload8 s'.out ((p : Nat) : Int) :=
            fun p hp => (congrArg u8 (hframe _ (Or.inl (by omega)))).symm
          rw [if_neg hy0, e1, e2, l (bpl * (y - 1) + x) (by omega),
            l (bpl * (y - 1) + (x - bpp)) (by omega)]
          by_cases hxb : x < bpp
          · rw [if_pos hxb, if_pos hxb, if_pos (Or.inl hxb)]
          · rw [if_neg hxb, if_neg hxb, if_neg (by omega)]
theorem memset_zero_load (o : OutMem) (P : Int) (n x : Nat) (hx : x < n) :
    oload8 (memset_zero o P n) (P + (x : Int)) = 0 := by
  unfold memset_zero
  rw [sweep_value P (fun _ _ => 0) 0 x n o (Nat.zero_le _) hx]
  rfl

theorem bpp_packed_range (ihdr : mpng_ihdr) : 0 < bpp_packed ihdr ∧ bpp_packed ihdr ≤ 4 := by
  unfold bpp_packed
  split_ifs <;> omega

theorem predictor_spec_zero_row (a : Nat) : predictor_spec a 0 0 = a := by
  unfold predictor_spec
  dsimp only
  split_ifs <;> omega

/-- The scanline loop where no size wraps: for a header with `2 ≤ height`, `0 < width` and
`4 * width < 2^32`, a stride `bpl ≤ 4 * width` with `bpl * height < 2^32`, and a working buffer
whose scanline tags are all from 0 to 4, the loop, entered as the terminating step enters it,
does not return, and in the memory it leaves every byte `x < bpl` of every scanline
`y < height` is the filtered byte plus the prediction from `a`, `b`, `c`, modulo 256, where the
previous row is all zero for scanline 0 and is the reconstructed scanline `y - 1` for `y ≥ 1`,
and the Average prediction is `floor((a + b) / 2)` of the sum over the naturals. On scanline 0:
Up gives the filtered byte, Average adds `floor(a / 2)`, Paeth adds `a`. (The statement is about
the values at these offsets; the zero row is read at offsets `4 * width` to
`4 * width + bpl - 1`, which for format RGB888 and height 2 lie partly past the allocated
block.) -/
theorem unfilter_rows_previous_row (out_init : OutMem) (heap : Mem) (ihdr : mpng_ihdr)
    (bpl pixels : Nat) (hh : 2 ≤ ihdr.height) (hw : 0 < ihdr.width)
    (h4w : 4 * ihdr.width < 4294967296) (hbpl : bpl ≤ 4 * ihdr.width)
    (hsz : bpl * ihdr.height < 4294967296)
    (htags : ∀ y < ihdr.height, tag_at heap pixels bpl y ≤ 4) :
    ∃ s, unfilter_rows heap bpl (bpp_packed ihdr) ihdr.height
          ⟨memset_zero out_init (prevout_init ihdr) (u32 (4 * ihdr.width * 1)), prevout_init ihdr,
            pixels⟩ = some s
      ∧ (∀ y < ihdr.height, ∀ x < bpl,
          row_recurrence_spec heap pixels bpl (bpp_packed ihdr) s.out y x)
      ∧ (tag_at heap pixels bpl 0 = 2 → ∀ x < bpl,
          oload8 s.out ((x : Nat) : Int) = filtered_at heap pixels bpl 0 x)
      ∧ (tag_at heap pixels bpl 0 = 3 → ∀ x < bpl,
          oload8 s.out ((x : Nat) : Int)
            = u8 (filtered_at heap pixels bpl 0 x
                + (if x < bpp_packed ihdr then 0
                    else oload8 s.out ((x - bpp_packed ihdr : Nat) : Int)) / 2))
      ∧ (tag_at heap pixels bpl 0 = 4 → ∀ x < bpl,
          oload8 s.out ((x : Nat) : Int)
            = u8 (filtered_at heap pixels bpl 0 x
                + (if x < bpp_packed ihdr then 0
                    else oload8 s.out ((x - bpp_packed ihdr : Nat) : Int)))) := by
  have hn : u32 (4 * ihdr.width * 1) = 4 * ihdr.width := by unfold u32; omega
  have hP : prevout_init ihdr = ((4 * ihdr.width : Nat) : Int) := by
    unfold prevout_init
    rw [if_neg (by omega), hn]
  obtain ⟨hb0, hb4⟩ := bpp_packed_range ihdr
  rw [hP, hn]
  obtain ⟨s, hs, -, -, -, hrec⟩ := unfilter_rows_recurrence heap pixels bpl (bpp_packed ihdr)
    (memset_zero out_init ((4 * ihdr.width : Nat) : Int) (4 * ihdr.width))
    ((4 * ihdr.width : Nat) : Int) ihdr.height hb0 (by omega)
    (fun x hx => memset_zero_load out_init _ (4 * ihdr.width) x (by omega)) hsz htags
    ihdr.height (Nat.le_refl _)
  have hrow0 : ∀ x < bpl,
      oload8 s.out ((x : Nat) : Int)
        = u8 (filtered_at heap pixels bpl 0 x
            + prediction_spec (tag_at heap pixels bpl 0)
                (if x < bpp_packed ihdr then 0
                  else oload8 s.out ((x - bpp_packed ihdr : Nat) : Int)) 0 0) := by
    intro x hx
    have h := hrec 0 (by omega) x hx
    unfold row_recurrence_spec at h
    rw [if_pos rfl, if_pos (Or.inr rfl), Nat.mul_zero, Nat.zero_add, Nat.zero_add] at h
    exact h
  refine ⟨s, hs, hrec, ?_, ?_, ?_⟩
  · intro ht x hx
    rw [hrow0 x hx, ht]
    show u8 (filtered_at heap pixels bpl 0 x + 0) = _
    unfold filtered_at load8 u8
    exact Nat.mod_mod _ _
  · intro ht x hx
    rw [hrow0 x hx, ht]
    rfl
  · intro ht x hx
    rw [hrow0 x hx, ht]
    show u8 (_ + predictor_spec _ 0 0) = _
    rw [predictor_spec_zero_row]

/-- Two scanlines reconstructed with `prevout = out` on entry (the previous row of scanline 0
is scanline 0 itself) and the Up tag on scanline 0: byte 0 of the result is the filtered byte
plus what the block held at offset 0 before. -/
theorem unfilter_rows_up_aliased (heap : Mem) (pixels bpl bpp : Nat) (o0 : OutMem)
    (hbpp : 0 < bpp) (hbpl : 0 < bpl) (hlt : bpl < 4294967296)
    (ht0 : tag_at heap pixels bpl 0 = 2) (ht1 : tag_at heap pixels bpl 1 ≤ 4) :
    ∃ s, unfilter_rows heap bpl bpp 2 ⟨o0, 0, pixels⟩ = some s
      ∧ oload8 s.out 0 = u8 (oload8 o0 0 + filtered_at heap pixels bpl 0 0) := by
  have hT0 : ((u32 (bpl * 0) : Nat) : Int) = 0 := by rw [Nat.mul_zero]; rfl
  unfold tag_at at ht0
  rw [Nat.zero_mul, Nat.add_zero] at ht0
  obtain ⟨o1, hline, -⟩ := unfilter_line_frame heap bpl bpp 2 (pixels + 1) 0 0 o0 (by decide)
  have hv : oload8 o1 0 = u8 (oload8 o0 0 + filtered_at heap pixels bpl 0 0) := by
    unfold unfilter_line at hline
    rw [if_neg (by decide), if_neg (by decide), if_pos rfl] at hline
    have ho := Option.some.inj hline
    subst ho
    have h := sweep_value 0 (fun x o => oload8 o (0 + (x : Int)) + load8 heap (pixels + 1 + x))
      0 0 bpl o0 (Nat.le_refl 0) hbpl
    rw [for_loop_empty _ _ _ _ (Nat.le_refl 0)] at h
    unfold filtered_at
    rw [Nat.zero_mul, Nat.add_zero]
    exact h
  have hrow0 : unfilter_row heap bpl bpp 0 ⟨o0, 0, pixels⟩ = some ⟨o1, 0, pixels + 1 + bpl⟩ := by
    unfold unfilter_row
    dsimp only
    rw [hT0, ht0, hline]
  obtain ⟨s2, hrow1, -, -, hframe, -⟩ := unfilter_row_step heap pixels bpl bpp 1
    ⟨o1, 0, pixels + 1 + bpl⟩ hbpp (show pixels + 1 + bpl = pixels + 1 * (bpl + 1) by omega)
    (by omega) ht1 (Or.inl (by show (0 : Int) + (bpl : Int) ≤ ((bpl * 1 : Nat) : Int); omega))
  refine ⟨s2, ?_, ?_⟩
  · rw [show (2 : Nat) = 0 + 1 + 1 from rfl, unfilter_rows_succ, unfilter_rows_succ,
      unfilter_rows_zero, Option.some_bind, hrow0, Option.some_bind, hrow1]
  · rw [← hv]
    exact congrArg u8 (hframe 0 (Or.inl (by omega)))

/-- C29 (the code departs from the claim): the Truecolor header of width `2^30` and height 2 is
accepted, and `4 * width` is `0` modulo `2^32`: `prevout` is `out` itself and the `memset`
clears 0 bytes, so the previous row of scanline 0 is scanline 0, not a row of zeros. With the Up
tag on scanline 0, first filtered byte 1, in an output block that held 7 at offset 0, byte 0 of
the reconstructed scanline 0 is 8, where `true = filtered` gives 1. -/
theorem C29_previous_row_not_zero_when_width_wraps :
    (mpng_parse_ihdr env_A.malloc (mem_of 1 (ihdr_payload 0x40 0 0 0 0 0 0 2 8 2 0 0 0))
        ⟨13, MPNG_CHUNK_IHDR, 1⟩ FMT_RGB888 0 0 0 0).ret = true
      ∧ (mpng_parse_ihdr env_A.malloc (mem_of 1 (ihdr_payload 0x40 0 0 0 0 0 0 2 8 2 0 0 0))
        ⟨13, MPNG_CHUNK_IHDR, 1⟩ FMT_RGB888 0 0 0 0).ihdr = ihdr_truecolor 1073741824 2
      ∧ (mpng_parse_ihdr env_A.malloc (mem_of 1 (ihdr_payload 0x40 0 0 0 0 0 0 2 8 2 0 0 0))
        ⟨13, MPNG_CHUNK_IHDR, 1⟩ FMT_RGB888 0 0 0 0).bpl = 3221225472
      ∧ u32 (4 * 1073741824 * 1) = 0
      ∧ prevout_init (ihdr_truecolor 1073741824 2) = 0
      ∧ tag_at (mem_of 4096 [2, 1]) 4096 3221225472 0 = 2
      ∧ filtered_at (mem_of 4096 [2, 1]) 4096 3221225472 0 0 = 1
      ∧ ∃ s, unfilter_rows (mem_of 4096 [2, 1]) 3221225472
            (bpp_packed (ihdr_truecolor 1073741824 2)) (ihdr_truecolor 1073741824 2).height
            ⟨memset_zero (fun _ => 7) (prevout_init (ihdr_truecolor 1073741824 2))
              (u32 (4 * (ihdr_truecolor 1073741824 2).width * 1)),
              prevout_init (ihdr_truecolor 1073741824 2), 4096⟩ = some s
        ∧ oload8 s.out 0 = 8
        ∧ ¬ row_recurrence_spec (mem_of 4096 [2, 1]) 4096 3221225472
            (bpp_packed (ihdr_truecolor 1073741824 2)) s.out 0 0 := by
  refine ⟨by decide, by decide, by decide, by decide, by decide, by decide, by decide, ?_⟩
  have e_p : prevout_init (ihdr_truecolor 1073741824 2) = 0 := by decide
  have e_n : u32 (4 * (ihdr_truecolor 1073741824 2).width * 1) = 0 := by decide
  have e_b : bpp_packed (ihdr_truecolor 1073741824 2) = 3 := by decide
  have e_h : (ihdr_truecolor 1073741824 2).height = 2 := rfl
  rw [e_p, e_n, e_b, e_h]
  obtain ⟨s, hs, hv⟩ := unfilter_rows_up_aliased (mem_of 4096 [2, 1]) 4096 3221225472 3
    (memset_zero (fun _ => 7) 0 0) (by decide) (by decide) (by decide) (by decide) (by decide)
  have h8 : oload8 s.out 0 = 8 := by
    rw [hv]
    decide
  refine ⟨s, hs, h8, ?_⟩
  unfold row_recurrence_spec
  rw [if_pos (by decide), if_pos rfl, if_pos (Or.inr rfl)]
  show ¬ oload8 s.out 0 = _
  rw [h8]
  decide

set_option maxRecDepth 100000 in
/-- C30 (the code departs from the claim): `mpng_parse_ihdr` reads `chunk->data[0]` to
`chunk->data[12]` without looking at `chunk->size`, and `png_decode_iterate` hands it every
well-framed IHDR chunk. For a header chunk of declared length 8 that ends the input, the bytes
read as depth, colour type, compression and filter are the 4 bytes of the CRC-32 and the byte
read as interlace method lies after the end of the input. The chunk is not rejected for its
length: on two memories that agree on every byte of the input, the step accepts the header
(returns `0`) when the byte after the input is 0 and rejects it when that byte is 2. -/
theorem C30_short_header_read_past_payload :
    frame_ok (mem_of 16 mem_short_ihdr) 24 44
      ∧ dword_be (ptr (mem_of 16 mem_short_ihdr) (24 + 4)) = MPNG_CHUNK_IHDR
      ∧ dword_be (ptr (mem_of 16 mem_short_ihdr) 24) = 8
      ∧ parse_ihdr_reads ⟨8, MPNG_CHUNK_IHDR, 24 + 4 + 4⟩
          = [32, 33, 34, 35, 36, 37, 38, 39, 40, 41, 42, 43, 44]
      ∧ (∃ a ∈ parse_ihdr_reads ⟨8, MPNG_CHUNK_IHDR, 24 + 4 + 4⟩, 24 + 4 + 4 + 8 ≤ a)
      ∧ (∃ a ∈ parse_ihdr_reads ⟨8, MPNG_CHUNK_IHDR, 24 + 4 + 4⟩, 44 ≤ a)
      ∧ (∀ a < 44, mem_of 16 mem_short_ihdr a = mem_of 16 (mem_short_ihdr ++ [2]) a)
      ∧ (png_decode_iterate env_A (mem_of 16 mem_short_ihdr) 24 44 (init_refs env_A)
          FMT_RGB888 0 0 0).ret = 0
      ∧ (png_decode_iterate env_A (mem_of 16 mem_short_ihdr) 24 44 (init_refs env_A)
          FMT_RGB888 0 0 0).refs.ihdr = ⟨1088934897, 1, 8, 2, 0, 0, 0⟩
      ∧ (png_decode_iterate env_A (mem_of 16 (mem_short_ihdr ++ [2])) 24 44 (init_refs env_A)
          FMT_RGB888 0 0 0).ret = -1 := by
  decide


/-! ## Claim C31 -/

/-- C31 (the code departs from the claim): the output block is allocated with
`videofmt_byte_per_pixel(format) * width * height` bytes (line 298), but the `memset` of line 315
clears `4 * width` bytes from `prevout`, which is `out` for height 1 and `out + 4 * width`
otherwise. For scenario A (1x1 Truecolor, format RGB888) the block has 3 bytes and the byte at
offset 3, one past its end, is cleared; for the 1x2 Truecolor image the block has 6 bytes and
the bytes at offsets 6 and 7 are cleared. For every width `w` with `4 * w < 2^32`, height 1 and
format RGB888, and whatever the block held, the byte at offset `3 * w`, the first one after the
block, is cleared. -/
theorem C31_zero_row_cleared_past_output_block :
    (mpng_parse_ihdr env_A.malloc (mem_of 1 (ihdr_payload 0 0 0 1 0 0 0 1 8 2 0 0 0))
        ⟨13, MPNG_CHUNK_IHDR, 1⟩ FMT_RGB888 0 0 0 0).ret = true
      ∧ (mpng_parse_ihdr env_A.malloc (mem_of 1 (ihdr_payload 0 0 0 1 0 0 0 1 8 2 0 0 0))
        ⟨13, MPNG_CHUNK_IHDR, 1⟩ FMT_RGB888 0 0 0 0).ihdr = ihdr_truecolor 1 1
      ∧ out_size (ihdr_truecolor 1 1) FMT_RGB888 = 3
      ∧ prevout_init (ihdr_truecolor 1 1) = 0
      ∧ u32 (4 * (ihdr_truecolor 1 1).width * 1) = 4
      ∧ oload8 (fun _ => 7) 3 = 7
      ∧ oload8 (memset_zero (fun _ => 7) (prevout_init (ihdr_truecolor 1 1))
          (u32 (4 * (ihdr_truecolor 1 1).width * 1))) 3 = 0
      ∧ oload8 (memset_zero (fun _ => 7) (prevout_init (ihdr_truecolor 1 1))
          (u32 (4 * (ihdr_truecolor 1 1).width * 1))) 4 = 7
      ∧ out_size (ihdr_truecolor 1 2) FMT_RGB888 = 6
      ∧ prevout_init (ihdr_truecolor 1 2) = 4
      ∧ oload8 (memset_zero (fun _ => 7) (prevout_init (ihdr_truecolor 1 2))
          (u32 (4 * (ihdr_truecolor 1 2).width * 1))) 6 = 0
      ∧ oload8 (memset_zero (fun _ => 7) (prevout_init (ihdr_truecolor 1 2))
          (u32 (4 * (ihdr_truecolor 1 2).width * 1))) 7 = 0
      ∧ oload8 (memset_zero (fun _ => 7) (prevout_init (ihdr_truecolor 1 2))
          (u32 (4 * (ihdr_truecolor 1 2).width * 1))) 8 = 7
      ∧ (∀ (w : Nat) (out_init : OutMem), 0 < w → 4 * w < 4294967296 →
          out_size (ihdr_truecolor w 1) FMT_RGB888 = 3 * w
            ∧ oload8 (memset_zero out_init (prevout_init (ihdr_truecolor w 1))
                (u32 (4 * (ihdr_truecolor w 1).width * 1))) ((3 * w : Nat) : Int) = 0) := by
  refine ⟨by decide, by decide, by decide, by decide, by decide, by decide, by decide,
    by decide, by decide, by decide, by decide, by decide, by decide, ?_⟩
  intro w out_init hw h4w
  have hn : u32 (4 * (ihdr_truecolor w 1).width * 1) = 4 * w := by
    show u32 (4 * w * 1) = 4 * w
    unfold u32
    omega
  have hP : prevout_init (ihdr_truecolor w 1) = 0 := by
    unfold prevout_init
    exact if_pos rfl
  refine ⟨?_, ?_⟩
  · show u32 (3 * w * 1) = 3 * w
    unfold u32
    omega
  · rw [hn, hP]
    have h := memset_zero_load out_init 0 (4 * w) (3 * w) (by omega)
    rw [Int.zero_add] at h
    exact h

end Mpng
